import Mathlib

/-!
# EMR cluster, CloudTrail event data store and SSM maintenance window

A shallow embedding of `aws/resource_aws_emr_cluster.go` (namespace `EMR`: state
refresh, Create, Read, Update, Delete, the `instance_group` CustomizeDiff and set
hash, the `log_uri` diff suppression and the helpers on instances and
autoscaling dimensions), of
`internal/service/cloudtrail/event_data_store.go` (namespace `CloudTrail`) and of
`internal/service/ssm/maintenance_window.go` (namespace `SSM`). The definitions of
the three namespaces come first, the theorems after them. For `EMR`:

* Remote calls are answered by a script `Env`, indexed by the number of calls of
  the same kind already made; every call is appended to `World.trace` and moves
  the clock `World.now` (milliseconds) forward by the latency the script gives.
* Go pointers are `Option`s, `aws.StringValue` / `aws.BoolValue` read `nil` as the
  zero value.
* A Go `error` is a `GoError`; `nil` is `none`.
* A function that can panic returns an `Exit` or an `Outcome`.
-/

namespace EMR

/-! ## Go values -/

/-- The helper `aws.StringValue`: the pointed-to string, `""` for `nil`. -/
def StringValue : Option String → String
  | some s => s
  | none => ""

/-- The helper `aws.BoolValue`: the pointed-to boolean, `false` for `nil`. -/
def BoolValue : Option Bool → Bool
  | some b => b
  | none => false

/-- Errors returned by the AWS SDK client: either a value implementing
`awserr.Error` (with `Code()` and `Message()`), or any other error value. -/
inductive ClientError where
  | aws (code message : String)
  | other (text : String)
  deriving DecidableEq, Repr

/-- Go `error` values that occur in the resource. `errorf` is a `fmt.Errorf` whose
arguments are all strings (the text is the formatted message), `wrapf pfx e` is
`fmt.Errorf(pfx + "%s", e)`, `timeoutError` and `unexpectedState` are the errors of
the wait engine. -/
inductive GoError where
  | client (e : ClientError)
  | errorf (text : String)
  | wrapf (pfx : String) (cause : GoError)
  | timeoutError (lastState : String)
  | unexpectedState (state : String)
  deriving DecidableEq, Repr

/-! ## SDK data shapes (the fields the resource reads) -/

structure ClusterStateChangeReason where
  Code : Option String
  Message : Option String
  deriving DecidableEq, Repr

structure ClusterStatus where
  State : Option String
  StateChangeReason : Option ClusterStateChangeReason
  deriving DecidableEq, Repr

structure Cluster where
  Status : Option ClusterStatus
  TerminationProtected : Option Bool
  ClusterArn : Option String := none
  deriving DecidableEq, Repr

structure DescribeClusterInput where
  ClusterId : Option String
  deriving DecidableEq, Repr

structure DescribeClusterOutput where
  Cluster : Option Cluster
  deriving DecidableEq, Repr

structure JobFlowInstancesConfig where
  KeepJobFlowAliveWhenNoSteps : Option Bool
  TerminationProtected : Option Bool
  deriving DecidableEq, Repr

structure RunJobFlowInput where
  Instances : JobFlowInstancesConfig
  Name : Option String
  deriving DecidableEq, Repr

structure RunJobFlowOutput where
  JobFlowId : Option String
  deriving DecidableEq, Repr

structure SetTerminationProtectionInput where
  JobFlowIds : List (Option String)
  TerminationProtected : Option Bool
  deriving DecidableEq, Repr

structure MetricDimension where
  Key : Option String
  Value : Option String
  deriving DecidableEq, Repr

/-- A scaling rule of an `emr.AutoScalingPolicyDescription`, with the slice
`rule.Trigger.CloudWatchAlarmDefinition.Dimensions` (`none` is the nil slice);
the trigger and its alarm definition are taken to be there. -/
structure ScalingRule where
  Name : Option String
  Dimensions : Option (List MetricDimension)
  deriving DecidableEq, Repr

/-- The rules of an `emr.AutoScalingPolicyDescription`, the policy as the service
shows it. -/
structure AutoScalingPolicyDescription where
  Rules : List ScalingRule
  deriving DecidableEq, Repr

/-- The rules of an `emr.AutoScalingPolicy`, the policy as it is requested. -/
structure AutoScalingPolicy where
  Rules : List ScalingRule
  deriving DecidableEq, Repr

structure InstanceGroup where
  Id : Option String
  InstanceGroupType : Option String
  RequestedInstanceCount : Option Int
  InstanceType : Option String := none
  AutoScalingPolicy : Option AutoScalingPolicyDescription := none
  deriving DecidableEq, Repr

structure PutAutoScalingPolicyInput where
  AutoScalingPolicy : Option AutoScalingPolicy
  ClusterId : Option String
  InstanceGroupId : Option String
  deriving DecidableEq, Repr

structure RemoveAutoScalingPolicyInput where
  ClusterId : Option String
  InstanceGroupId : Option String
  deriving DecidableEq, Repr

structure StepSummary where
  Id : Option String
  Name : Option String
  deriving DecidableEq, Repr

structure ListStepsInput where
  ClusterId : Option String
  deriving DecidableEq, Repr

structure ListInstanceGroupsInput where
  ClusterId : Option String
  deriving DecidableEq, Repr

structure InstanceGroupModifyConfig where
  InstanceGroupId : Option String
  InstanceCount : Option Int
  deriving DecidableEq, Repr

structure ModifyInstanceGroupsInput where
  InstanceGroups : List InstanceGroupModifyConfig
  deriving DecidableEq, Repr

structure SetVisibleToAllUsersInput where
  JobFlowIds : List (Option String)
  VisibleToAllUsers : Option Bool
  deriving DecidableEq, Repr

structure ModifyClusterInput where
  ClusterId : Option String
  StepConcurrencyLevel : Option Int
  deriving DecidableEq, Repr

structure TerminateJobFlowsInput where
  JobFlowIds : List (Option String)
  deriving DecidableEq, Repr

/-- Modelled from the spec: value of the SDK constant `emr.ClusterStateStarting`
(the SDK is not among the sources); the spec calls it "starting". -/
def ClusterStateStarting : String := "STARTING"

/-- Modelled from the spec: value of the SDK constant `emr.ClusterStateBootstrapping`. -/
def ClusterStateBootstrapping : String := "BOOTSTRAPPING"

/-- Modelled from the spec: value of the SDK constant `emr.ClusterStateRunning`. -/
def ClusterStateRunning : String := "RUNNING"

/-- Modelled from the spec: value of the SDK constant `emr.ClusterStateWaiting`. -/
def ClusterStateWaiting : String := "WAITING"

/-- Modelled from the spec: value of the SDK constant `emr.ClusterStateTerminating`. -/
def ClusterStateTerminating : String := "TERMINATING"

/-- Modelled from the spec: value of the SDK constant
`emr.ClusterStateTerminatedWithErrors`. -/
def ClusterStateTerminatedWithErrors : String := "TERMINATED_WITH_ERRORS"

/-- Modelled from the spec: value of the SDK constant `emr.ClusterStateTerminated`. -/
def ClusterStateTerminated : String := "TERMINATED"

/-- Modelled from the spec: value of the SDK constant `emr.InstanceGroupTypeCore`. -/
def InstanceGroupTypeCore : String := "CORE"

/-! ## The remote control plane and the world -/

/-- One remote call or engine invocation, as recorded in the trace. -/
inductive Call where
  | RunJobFlow (params : RunJobFlowInput)
  | DescribeCluster (params : DescribeClusterInput)
  | SetTerminationProtection (input : SetTerminationProtectionInput)
  | WaitForState
  | ListInstanceGroupsPages (input : ListInstanceGroupsInput)
  | ModifyInstanceGroups (input : ModifyInstanceGroupsInput)
  | SetVisibleToAllUsers (input : SetVisibleToAllUsersInput)
  | ModifyCluster (input : ModifyClusterInput)
  | TerminateJobFlows (input : TerminateJobFlowsInput)
  | ListStepsPages (input : ListStepsInput)
  | PutAutoScalingPolicy (input : PutAutoScalingPolicyInput)
  | RemoveAutoScalingPolicy (input : RemoveAutoScalingPolicyInput)
  | EmrUpdateTags (identifier : String) (oldTags newTags : List (String × String))
  deriving DecidableEq, Repr

/-- The script of the remote control plane: the answer to the `k`-th call of each
kind (counted from 0) and the time, in milliseconds, that call takes. -/
structure Env where
  runJobFlow : Nat → Except ClientError RunJobFlowOutput
  runJobFlowLatency : Nat → Nat
  describeCluster : Nat → Except ClientError DescribeClusterOutput
  describeClusterLatency : Nat → Nat
  setTerminationProtection : Nat → Option ClientError
  setTerminationProtectionLatency : Nat → Nat
  listInstanceGroupsPages : Nat → List (List InstanceGroup) × Option ClientError :=
    fun _ => ([], none)
  listInstanceGroupsPagesLatency : Nat → Nat := fun _ => 0
  modifyInstanceGroups : Nat → Option ClientError := fun _ => none
  modifyInstanceGroupsLatency : Nat → Nat := fun _ => 0
  setVisibleToAllUsers : Nat → Option ClientError := fun _ => none
  setVisibleToAllUsersLatency : Nat → Nat := fun _ => 0
  modifyCluster : Nat → Option ClientError := fun _ => none
  modifyClusterLatency : Nat → Nat := fun _ => 0
  terminateJobFlows : Nat → Option ClientError := fun _ => none
  terminateJobFlowsLatency : Nat → Nat := fun _ => 0
  listStepsPages : Nat → List (List StepSummary) × Option ClientError := fun _ => ([], none)
  listStepsPagesLatency : Nat → Nat := fun _ => 0
  putAutoScalingPolicy : Nat → Option ClientError := fun _ => none
  putAutoScalingPolicyLatency : Nat → Nat := fun _ => 0
  removeAutoScalingPolicy : Nat → Option ClientError := fun _ => none
  removeAutoScalingPolicyLatency : Nat → Nat := fun _ => 0
  emrUpdateTags : Nat → Option GoError := fun _ => none
  emrUpdateTagsLatency : Nat → Nat := fun _ => 0

/-- The mutable surroundings of one reconciliation call: the clock and the calls
issued so far, oldest first. -/
structure World where
  now : Nat
  trace : List Call
  deriving DecidableEq, Repr

/-- Number of `RunJobFlow` calls in a trace. -/
def runJobFlowCount : List Call → Nat
  | [] => 0
  | Call.RunJobFlow _ :: t => runJobFlowCount t + 1
  | _ :: t => runJobFlowCount t

/-- Number of `DescribeCluster` calls in a trace. -/
def describeClusterCount : List Call → Nat
  | [] => 0
  | Call.DescribeCluster _ :: t => describeClusterCount t + 1
  | _ :: t => describeClusterCount t

/-- Number of `SetTerminationProtection` calls in a trace. -/
def setTerminationProtectionCount : List Call → Nat
  | [] => 0
  | Call.SetTerminationProtection _ :: t => setTerminationProtectionCount t + 1
  | _ :: t => setTerminationProtectionCount t

/-- Number of wait-engine invocations in a trace. -/
def waitForStateCount : List Call → Nat
  | [] => 0
  | Call.WaitForState :: t => waitForStateCount t + 1
  | _ :: t => waitForStateCount t

/-- Number of calls in a trace that satisfy `isIt`. -/
def callCount (isIt : Call → Bool) (t : List Call) : Nat :=
  t.countP isIt

/-- Whether a call is a `ListInstanceGroupsPages` call. -/
def Call.isListInstanceGroupsPages : Call → Bool
  | Call.ListInstanceGroupsPages _ => true
  | _ => false

/-- Whether a call is a `ModifyInstanceGroups` call. -/
def Call.isModifyInstanceGroups : Call → Bool
  | Call.ModifyInstanceGroups _ => true
  | _ => false

/-- Whether a call is a `SetVisibleToAllUsers` call. -/
def Call.isSetVisibleToAllUsers : Call → Bool
  | Call.SetVisibleToAllUsers _ => true
  | _ => false

/-- Whether a call is a `ModifyCluster` call. -/
def Call.isModifyCluster : Call → Bool
  | Call.ModifyCluster _ => true
  | _ => false

/-- Whether a call is a `TerminateJobFlows` call. -/
def Call.isTerminateJobFlows : Call → Bool
  | Call.TerminateJobFlows _ => true
  | _ => false

/-- The call `time.Sleep`: only the clock moves. -/
def sleep (ms : Nat) (w : World) : World :=
  { w with now := w.now + ms }

/-- The call `conn.RunJobFlow(params)`. -/
def RunJobFlow (env : Env) (params : RunJobFlowInput) (w : World) :
    Except ClientError RunJobFlowOutput × World :=
  let k := runJobFlowCount w.trace
  (env.runJobFlow k,
    { now := w.now + env.runJobFlowLatency k, trace := w.trace ++ [Call.RunJobFlow params] })

/-- The call `conn.DescribeCluster(params)`. -/
def DescribeCluster (env : Env) (params : DescribeClusterInput) (w : World) :
    Except ClientError DescribeClusterOutput × World :=
  let k := describeClusterCount w.trace
  (env.describeCluster k,
    { now := w.now + env.describeClusterLatency k,
      trace := w.trace ++ [Call.DescribeCluster params] })

/-- The call `conn.SetTerminationProtection(input)`; only the error is used. -/
def SetTerminationProtection (env : Env) (input : SetTerminationProtectionInput) (w : World) :
    Option ClientError × World :=
  let k := setTerminationProtectionCount w.trace
  (env.setTerminationProtection k,
    { now := w.now + env.setTerminationProtectionLatency k,
      trace := w.trace ++ [Call.SetTerminationProtection input] })

/-- The call `conn.ListInstanceGroupsPages(input, fn)`: the pages handed to the
callback, in order, and the error the call ends with. -/
def ListInstanceGroupsPages (env : Env) (input : ListInstanceGroupsInput) (w : World) :
    (List (List InstanceGroup) × Option ClientError) × World :=
  let k := callCount Call.isListInstanceGroupsPages w.trace
  (env.listInstanceGroupsPages k,
    { now := w.now + env.listInstanceGroupsPagesLatency k,
      trace := w.trace ++ [Call.ListInstanceGroupsPages input] })

/-- The call `conn.ModifyInstanceGroups(params)`; only the error is used. -/
def ModifyInstanceGroups (env : Env) (input : ModifyInstanceGroupsInput) (w : World) :
    Option ClientError × World :=
  let k := callCount Call.isModifyInstanceGroups w.trace
  (env.modifyInstanceGroups k,
    { now := w.now + env.modifyInstanceGroupsLatency k,
      trace := w.trace ++ [Call.ModifyInstanceGroups input] })

/-- The call `conn.SetVisibleToAllUsers(input)`; only the error is used. -/
def SetVisibleToAllUsers (env : Env) (input : SetVisibleToAllUsersInput) (w : World) :
    Option ClientError × World :=
  let k := callCount Call.isSetVisibleToAllUsers w.trace
  (env.setVisibleToAllUsers k,
    { now := w.now + env.setVisibleToAllUsersLatency k,
      trace := w.trace ++ [Call.SetVisibleToAllUsers input] })

/-- The call `conn.ModifyCluster(input)`; only the error is used. -/
def ModifyCluster (env : Env) (input : ModifyClusterInput) (w : World) :
    Option ClientError × World :=
  let k := callCount Call.isModifyCluster w.trace
  (env.modifyCluster k,
    { now := w.now + env.modifyClusterLatency k,
      trace := w.trace ++ [Call.ModifyCluster input] })

/-- Whether a call is a `PutAutoScalingPolicy` call. -/
def Call.isPutAutoScalingPolicy : Call → Bool
  | Call.PutAutoScalingPolicy _ => true
  | _ => false

/-- Whether a call is a `RemoveAutoScalingPolicy` call. -/
def Call.isRemoveAutoScalingPolicy : Call → Bool
  | Call.RemoveAutoScalingPolicy _ => true
  | _ => false

/-- Whether a call is an `EmrUpdateTags` call. -/
def Call.isEmrUpdateTags : Call → Bool
  | Call.EmrUpdateTags _ _ _ => true
  | _ => false

/-- The call `conn.PutAutoScalingPolicy(input)`; only the error is used. -/
def PutAutoScalingPolicy (env : Env) (input : PutAutoScalingPolicyInput) (w : World) :
    Option ClientError × World :=
  let k := callCount Call.isPutAutoScalingPolicy w.trace
  (env.putAutoScalingPolicy k,
    { now := w.now + env.putAutoScalingPolicyLatency k,
      trace := w.trace ++ [Call.PutAutoScalingPolicy input] })

/-- The call `conn.RemoveAutoScalingPolicy(input)`; only the error is used. -/
def RemoveAutoScalingPolicy (env : Env) (input : RemoveAutoScalingPolicyInput) (w : World) :
    Option ClientError × World :=
  let k := callCount Call.isRemoveAutoScalingPolicy w.trace
  (env.removeAutoScalingPolicy k,
    { now := w.now + env.removeAutoScalingPolicyLatency k,
      trace := w.trace ++ [Call.RemoveAutoScalingPolicy input] })

/-- The helper `keyvaluetags.EmrUpdateTags(conn, identifier, oldTags, newTags)` (not
among the sources), taken as one remote step answered by the script. -/
def EmrUpdateTags (env : Env) (identifier : String) (oldTags newTags : List (String × String))
    (w : World) : Option GoError × World :=
  let k := callCount Call.isEmrUpdateTags w.trace
  (env.emrUpdateTags k,
    { now := w.now + env.emrUpdateTagsLatency k,
      trace := w.trace ++ [Call.EmrUpdateTags identifier oldTags newTags] })

/-- The call `conn.TerminateJobFlows(req)`; only the error is used. -/
def TerminateJobFlows (env : Env) (input : TerminateJobFlowsInput) (w : World) :
    Option ClientError × World :=
  let k := callCount Call.isTerminateJobFlows w.trace
  (env.terminateJobFlows k,
    { now := w.now + env.terminateJobFlowsLatency k,
      trace := w.trace ++ [Call.TerminateJobFlows input] })

/-! ## Resource data -/

/-- One element of the set `ebs_config`, a `map[string]interface{}`; `iops` is
`none` when the key is absent. -/
structure EbsConfigMap where
  size : Int
  type : String
  volumes_per_instance : Int
  iops : Option Int
  deriving DecidableEq, Repr

/-- One element of the set `instance_group`, a `map[string]interface{}`; an
optional key that is absent is `none`. -/
structure InstanceGroupMap where
  instance_role : String
  instance_type : String
  instance_count : Int
  name : Option String
  bid_price : Option String
  autoscaling_policy : Option String
  ebs_config : Option (List EbsConfigMap)
  id : Option String := none
  deriving DecidableEq, Repr

/-- The part of `*schema.ResourceData` the modelled code touches: the identity,
the attributes it reads or writes (`termination_protection` as configured, `none`
when not set; for `instance_group` and `tags` the old and the new value of
`d.GetChange`), and `changed`, the keys for which `d.HasChange` reports a
difference between state and configuration. -/
structure ResourceData where
  Id : String
  termination_protection : Option Bool
  keep_job_flow_alive_when_no_steps : Option Bool
  changed : List String := []
  visible_to_all_users : Bool := false
  step_concurrency_level : Int := 0
  core_instance_count : Int := 0
  core_instance_type : String := ""
  core_instance_group_0_id : String := ""
  core_instance_group_0_instance_count : Int := 0
  core_instance_group_0_autoscaling_policy : String := ""
  instance_group_old : List InstanceGroupMap := []
  instance_group_new : List InstanceGroupMap := []
  tags_old : List (String × String) := []
  tags_new : List (String × String) := []
  cluster_state : Option String := none
  arn : Option String := none
  deriving DecidableEq, Repr

/-- The method `d.HasChange(key)`. -/
def ResourceData.HasChange (d : ResourceData) (key : String) : Bool :=
  decide (key ∈ d.changed)

/-- The method `d.SetId`. -/
def ResourceData.SetId (d : ResourceData) (id : String) : ResourceData :=
  { d with Id := id }

/-- The method `d.GetOk` on a boolean attribute: the value and whether it is set
to something other than the zero value. -/
def GetOkBool : Option Bool → Bool × Bool
  | some true => (true, true)
  | _ => (false, false)

/-! ## State refresh function (lines 2008-2050) -/

/-- What a `resource.StateRefreshFunc` returns as its first component
(`interface{}`): `nil`, the integer `42`, or the cluster. -/
inductive RefreshObj where
  | nil
  | int (n : Int)
  | cluster (c : Cluster)
  deriving DecidableEq, Repr

/-- The triple a `resource.StateRefreshFunc` returns. -/
structure RefreshResult where
  obj : RefreshObj
  state : String
  err : Option GoError
  deriving DecidableEq, Repr

/-- The body of the refresh closure after `conn.DescribeCluster` has answered
(lines 2019-2048). -/
def refreshOutcome (r : Except ClientError DescribeClusterOutput) : RefreshResult :=
  match r with
  | Except.error err =>
    match err with
    | ClientError.aws code _ =>
      if code = "ClusterNotFound" then
        { obj := RefreshObj.int 42, state := "destroyed", err := none }
      else
        { obj := RefreshObj.nil, state := "", err := some (GoError.client err) }
    | ClientError.other _ =>
      { obj := RefreshObj.nil, state := "", err := some (GoError.client err) }
  | Except.ok resp =>
    match resp.Cluster with
    | none => { obj := RefreshObj.int 42, state := "destroyed", err := none }
    | some cluster =>
      match cluster.Status with
      | none =>
        { obj := RefreshObj.cluster cluster, state := "",
          err := some (GoError.errorf "cluster status not provided") }
      | some status =>
        let state := StringValue status.State
        if state = ClusterStateTerminating ∨ state = ClusterStateTerminatedWithErrors then
          match status.StateChangeReason with
          | none =>
            { obj := RefreshObj.cluster cluster, state := state,
              err := some (GoError.errorf (state ++ ": reason code and message not provided")) }
          | some reason =>
            { obj := RefreshObj.cluster cluster, state := state,
              err := some (GoError.errorf
                (state ++ ": " ++ StringValue reason.Code ++ ": " ++ StringValue reason.Message)) }
        else
          { obj := RefreshObj.cluster cluster, state := state, err := none }

/-- The function `resourceAwsEMRClusterStateRefreshFunc(d, meta)`: the closure it
builds, as a function of the world. -/
def resourceAwsEMRClusterStateRefreshFunc (env : Env) (d : ResourceData) (w : World) :
    RefreshResult × World :=
  let r := DescribeCluster env { ClusterId := some d.Id } w
  (refreshOutcome r.1, r.2)

/-! ## Wait-for-state engine and retry policy -/

/-- The fields of `resource.StateChangeConf` other than `Refresh`; durations are
in milliseconds. -/
structure StateChangeConf where
  Pending : List String
  Target : List String
  Timeout : Nat
  MinTimeout : Nat
  Delay : Nat
  deriving DecidableEq, Repr

/-- Modelled from the spec: the polling loop of the Wait-For-State Engine
(`StateChangeConf.WaitForState` of the plugin SDK, which is not among the
sources), section 4.3 step 2 and 3. Each round calls the refresh function; an
error aborts and is propagated; a status in the target set returns the observed
object; a status in the pending set sleeps the poll interval (the configured
minimum, never more than the remaining budget) and, if the deadline is then
reached, fails with the timeout error carrying the last observed status; any
other status aborts with the unexpected-status error. `fuel` bounds the number of
rounds; `last` is the last observed status. -/
def pollUntil (conf : StateChangeConf) (refresh : World → RefreshResult × World)
    (deadline : Nat) : Nat → String → World → Except GoError RefreshObj × World
  | 0, last, w => (Except.error (GoError.timeoutError last), w)
  | fuel + 1, _, w =>
    let r := refresh w
    match r.1.err with
    | some e => (Except.error e, r.2)
    | none =>
      if r.1.state ∈ conf.Target then (Except.ok r.1.obj, r.2)
      else if r.1.state ∈ conf.Pending then
        let w2 := sleep (min conf.MinTimeout (deadline - r.2.now)) r.2
        if deadline ≤ w2.now then (Except.error (GoError.timeoutError r.1.state), w2)
        else pollUntil conf refresh deadline fuel r.1.state w2
      else (Except.error (GoError.unexpectedState r.1.state), r.2)

/-- Modelled from the spec: `StateChangeConf.WaitForState` (plugin SDK, not among
the sources), section 4.3: the deadline is fixed at the start, the initial delay
is slept, then the polling loop runs. A round that does not end the wait moves
the clock by at least one millisecond when `MinTimeout` is positive, so
`Timeout + 1` rounds always reach the deadline. -/
def WaitForState (conf : StateChangeConf) (refresh : World → RefreshResult × World)
    (w : World) : Except GoError RefreshObj × World :=
  let deadline := w.now + conf.Timeout
  let w0 := sleep conf.Delay { w with trace := w.trace ++ [Call.WaitForState] }
  pollUntil conf refresh deadline (conf.Timeout + 1) "" w0

/-- The type `*resource.RetryError`: what one attempt under `resource.Retry`
reports when it fails. -/
inductive RetryError where
  | RetryableError (e : GoError)
  | NonRetryableError (e : GoError)
  deriving DecidableEq, Repr

/-- Modelled from the spec: the minimum delay between two attempts of the Retry
Policy ("minimum a fixed small delay"), in milliseconds. -/
def retryMinDelay : Nat := 500

/-- Modelled from the spec: the loop of the Retry Policy (`resource.Retry` of the
plugin SDK, not among the sources), section 4.1. `f` performs one attempt and
may update the variables `ρ` it has captured. Success returns; a fatal error is
propagated at once; a retryable error sleeps the minimum delay (never more than
the remaining budget) and retries unless the budget is then exhausted, in which
case the timeout error is returned. -/
def retryLoop {ρ : Type} (f : ρ → World → Option RetryError × ρ × World) (deadline : Nat) :
    Nat → ρ → World → Option GoError × ρ × World
  | 0, r, w => (some (GoError.timeoutError ""), r, w)
  | fuel + 1, r, w =>
    let a := f r w
    match a.1 with
    | none => (none, a.2.1, a.2.2)
    | some (RetryError.NonRetryableError e) => (some e, a.2.1, a.2.2)
    | some (RetryError.RetryableError _) =>
      let w2 := sleep (min retryMinDelay (deadline - a.2.2.now)) a.2.2
      if deadline ≤ w2.now then (some (GoError.timeoutError ""), a.2.1, w2)
      else retryLoop f deadline fuel a.2.1 w2

/-- Modelled from the spec: `resource.Retry(timeout, f)` (plugin SDK, not among
the sources): the retry loop with the deadline fixed at the start. Every round
that does not end the loop moves the clock by at least one millisecond, so
`timeout + 1` rounds always reach the deadline. -/
def Retry {ρ : Type} (timeout : Nat) (f : ρ → World → Option RetryError × ρ × World)
    (r : ρ) (w : World) : Option GoError × ρ × World :=
  retryLoop f (w.now + timeout) (timeout + 1) r w

/-- Modelled from the spec: `strings.Contains` on character lists, used by the
message-substring match of the error classification. -/
def containsChars : List Char → List Char → Bool
  | [], sub => sub.isEmpty
  | c :: s, sub => sub.isPrefixOf (c :: s) || containsChars s sub

/-- Modelled from the spec: the repository helper `isAWSErr(err, code, message)`
(not among the sources): "matching the error's symbolic code and message
substring"; an error that is not an `awserr.Error` never matches. -/
def isAWSErr (err : ClientError) (code message : String) : Bool :=
  match err with
  | ClientError.aws c m => c == code && containsChars m.data message.data
  | ClientError.other _ => false

/-- Modelled from the spec: the repository helper `isResourceTimeoutError(err)`
(not among the sources): whether the error is the timeout error of the retry
policy or wait engine. -/
def isResourceTimeoutError : Option GoError → Bool
  | some (GoError.timeoutError _) => true
  | _ => false

/-! ## Create (lines 894-960) -/

/-- How a Go function ends: it returns its `error` result, or the goroutine
panics. -/
inductive Exit where
  | returned (err : Option GoError)
  | crashed (what : String)
  deriving DecidableEq, Repr

/-- Lines 662-665: the desired `termination_protection`, `false` unless the
attribute is set to a non-zero value. -/
def terminationProtection (d : ResourceData) : Bool :=
  let v := GetOkBool d.termination_protection
  if v.2 then v.1 else false

/-- Lines 895-908: the closure handed to `resource.Retry`. It performs one
`RunJobFlow` attempt, stores the response in the captured variable `resp` and
classifies a failure. (`resp` is not read when the attempt failed.) -/
def runJobFlowAttempt (env : Env) (params : RunJobFlowInput) (_resp : Option RunJobFlowOutput)
    (w : World) : Option RetryError × Option RunJobFlowOutput × World :=
  let r := RunJobFlow env params w
  match r.1 with
  | Except.error err =>
    if isAWSErr err "ValidationException" "Invalid InstanceProfile:" then
      (some (RetryError.RetryableError (GoError.client err)), none, r.2)
    else if isAWSErr err "AccessDeniedException" "Failed to authorize instance profile" then
      (some (RetryError.RetryableError (GoError.client err)), none, r.2)
    else
      (some (RetryError.NonRetryableError (GoError.client err)), none, r.2)
  | Except.ok out => (none, some out, r.2)

/-- Lines 894-911: the retried `RunJobFlow` with a 30 second budget and, when the
retry ends with a timeout, one further attempt whose outcome replaces `resp`
and `err`. -/
def runJobFlowWithRetry (env : Env) (params : RunJobFlowInput) (w : World) :
    Option GoError × Option RunJobFlowOutput × World :=
  let a := Retry 30000 (runJobFlowAttempt env params) none w
  if isResourceTimeoutError a.1 then
    let r := RunJobFlow env params a.2.2
    match r.1 with
    | Except.error err => (some (GoError.client err), none, r.2)
    | Except.ok out => (none, some out, r.2)
  else a

/-- Lines 922-935: the wait configuration of Create (75 minutes, 10 seconds,
30 seconds). -/
def createStateConf : StateChangeConf :=
  { Pending := [ClusterStateBootstrapping, ClusterStateStarting],
    Target := [ClusterStateRunning, ClusterStateWaiting],
    Timeout := 4500000,
    MinTimeout := 10000,
    Delay := 30000 }

/-- Lines 948-957: the corrective `SetTerminationProtection` call issued when the
observed flag differs from the desired one. -/
def matchTerminationProtection (env : Env) (d : ResourceData) (desired : Bool)
    (cluster : Cluster) (w : World) : Option GoError × World :=
  if BoolValue cluster.TerminationProtected != desired then
    let input : SetTerminationProtectionInput :=
      { JobFlowIds := [some d.Id], TerminationProtected := some desired }
    let r := SetTerminationProtection env input w
    match r.1 with
    | some err =>
      (some (GoError.wrapf
        ("error setting EMR Cluster (" ++ d.Id ++
          ") termination protection to match configuration: ") (GoError.client err)), r.2)
    | none => (none, r.2)
  else (none, w)

/-- Line 918: `keep_job_flow_alive_when_no_steps` is set from the request. -/
def setKeepJobFlowAlive (params : RunJobFlowInput) (d : ResourceData) : ResourceData :=
  { d with keep_job_flow_alive_when_no_steps := params.Instances.KeepJobFlowAliveWhenNoSteps }

/-- Lines 918-959 of `resourceAwsEMRClusterCreate`: what Create does once the
identity has been set on line 916. `d1` is the resource data after `d.SetId`,
`desired` the value computed on lines 662-665 and `read` stands for
`resourceAwsEMRClusterRead`, called last. -/
def createAfterSetId (env : Env)
    (read : ResourceData → World → Option GoError × ResourceData × World)
    (params : RunJobFlowInput) (desired : Bool) (d1 : ResourceData) (w : World) :
    Exit × ResourceData × World :=
  let d2 := setKeepJobFlowAlive params d1
  let s := WaitForState createStateConf (resourceAwsEMRClusterStateRefreshFunc env d2) w
  match s.1 with
  | Except.error err =>
    (Exit.returned (some (GoError.wrapf
      "Error waiting for EMR Cluster state to be \"WAITING\" or \"RUNNING\": " err)), d2, s.2)
  | Except.ok clusterRaw =>
    match clusterRaw with
    | RefreshObj.cluster cluster =>
      let t := matchTerminationProtection env d2 desired cluster s.2
      match t.1 with
      | some err => (Exit.returned (some err), d2, t.2)
      | none =>
        let z := read d2 t.2
        (Exit.returned z.1, z.2.1, z.2.2)
    | _ => (Exit.crashed "interface conversion", d2, s.2)

/-- The function `resourceAwsEMRClusterCreate` from line 894 on, together with
lines 662-665. `params` is the request built on lines 650-892 and `read` stands
for `resourceAwsEMRClusterRead`. -/
def resourceAwsEMRClusterCreate (env : Env)
    (read : ResourceData → World → Option GoError × ResourceData × World)
    (params : RunJobFlowInput) (d : ResourceData) (w : World) :
    Exit × ResourceData × World :=
  let desired := terminationProtection d
  let a := runJobFlowWithRetry env params w
  match a.1 with
  | some err => (Exit.returned (some (GoError.wrapf "error running EMR Job Flow: " err)), d, a.2.2)
  | none =>
    match a.2.1 with
    | none => (Exit.crashed "nil pointer dereference", d, a.2.2)
    | some resp =>
      match resp.JobFlowId with
      | none => (Exit.crashed "nil pointer dereference", d, a.2.2)
      | some id => createAfterSetId env read params desired (d.SetId id) a.2.2

/-! ## Time lines and scripts used to state the properties -/

/-- Clock reading at which the `k`-th further `RunJobFlow` attempt starts, when
the next attempt is call number `c` and starts at time `t`, and every attempt
before it fails with a retryable error: an attempt takes its latency and is
followed by the minimum delay. -/
def attemptStart (env : Env) : Nat → Nat → Nat → Nat
  | _, t, 0 => t
  | c, t, k + 1 => attemptStart env (c + 1) (t + env.runJobFlowLatency c + retryMinDelay) k

/-- Clock reading at which the `k`-th further poll starts, when the next poll is
`DescribeCluster` call number `c` and starts at time `t`, and every poll before
it observes a pending status: a poll takes its latency and is followed by a
sleep of `interval`. -/
def pollStart (env : Env) (interval : Nat) : Nat → Nat → Nat → Nat
  | _, t, 0 => t
  | c, t, k + 1 =>
    pollStart env interval (c + 1) (t + env.describeClusterLatency c + interval) k

/-- The status a `DescribeCluster` answer shows: the state string of a cluster
that is present and carries a status (`nil` state read as `""`), nothing
otherwise. -/
def observedState (r : Except ClientError DescribeClusterOutput) : Option String :=
  match r with
  | Except.error _ => none
  | Except.ok resp =>
    match resp.Cluster with
    | none => none
    | some c =>
      match c.Status with
      | none => none
      | some st => some (StringValue st.State)

/-- A control plane that answers from lists: the `k`-th `RunJobFlow`,
`DescribeCluster` and `SetTerminationProtection` calls get the `k`-th entry of
their list, every `RunJobFlow` call takes `rjfLatency` milliseconds and the other
calls take no time. -/
def scriptEnv (rjf : List (Except ClientError RunJobFlowOutput)) (rjfLatency : Nat)
    (dc : List (Except ClientError DescribeClusterOutput))
    (stp : List (Option ClientError)) : Env :=
  { runJobFlow := fun k => rjf.getD k (Except.error (ClientError.other "no answer")),
    runJobFlowLatency := fun _ => rjfLatency,
    describeCluster := fun k => dc.getD k (Except.error (ClientError.other "no answer")),
    describeClusterLatency := fun _ => 0,
    setTerminationProtection := fun k => stp.getD k none,
    setTerminationProtectionLatency := fun _ => 0 }

/-- A cluster in the given state, without a state change reason. -/
def clusterInState (s : String) (tp : Option Bool) : Cluster :=
  { Status := some { State := some s, StateChangeReason := none }, TerminationProtected := tp }

/-- A successful `DescribeCluster` answer showing a cluster in the given state. -/
def describes (s : String) : Except ClientError DescribeClusterOutput :=
  Except.ok { Cluster := some (clusterInState s none) }

/-- A status reporting a failed launch, with the vendor's reason. -/
def sampleFailedStatus : ClusterStatus :=
  { State := some "TERMINATED_WITH_ERRORS",
    StateChangeReason :=
      some { Code := some "VALIDATION_ERROR", Message := some "Subnet not found" } }

/-- A cluster whose launch failed. -/
def sampleFailedCluster : Cluster :=
  { Status := some sampleFailedStatus, TerminationProtected := none }

/-- Resource data before creation: no identity, nothing configured. -/
def freshData : ResourceData :=
  { Id := "", termination_protection := none, keep_job_flow_alive_when_no_steps := none }

/-- A small create request. -/
def sampleParams : RunJobFlowInput :=
  { Instances := { KeepJobFlowAliveWhenNoSteps := some true, TerminationProtected := some false },
    Name := some "cluster" }

/-- The world at the start of a reconciliation call. -/
def startWorld : World := { now := 0, trace := [] }

/-- A `Read` that changes nothing, for running Create on concrete inputs. -/
def readNothing (d : ResourceData) (w : World) : Option GoError × ResourceData × World :=
  (none, d, w)

/-- The error "IAM role not visible yet" of the create scenario. -/
def invalidInstanceProfile : ClientError :=
  ClientError.aws "ValidationException" "Invalid InstanceProfile: EMR_EC2_DefaultRole"

/-- The create scenario of the spec: the request hits "IAM role not visible yet"
twice (100 ms per call) and is then accepted; the cluster is observed STARTING,
BOOTSTRAPPING, BOOTSTRAPPING and then RUNNING. -/
def iamScenario : Env :=
  scriptEnv
    [Except.error invalidInstanceProfile, Except.error invalidInstanceProfile,
      Except.ok { JobFlowId := some "j-2AXXXXXXGAPLF" }]
    100
    [describes ClusterStateStarting, describes ClusterStateBootstrapping,
      describes ClusterStateBootstrapping, describes ClusterStateRunning]
    []

/-- A control plane whose first `RunJobFlow` call takes the whole 30 second
budget before failing with the retryable error, and whose second call is
accepted. -/
def slowScenario : Env :=
  scriptEnv
    [Except.error invalidInstanceProfile, Except.ok { JobFlowId := some "j-2AXXXXXXGAPLF" }]
    30000 [describes ClusterStateRunning] []

/-- A control plane on which the new cluster is observed WAITING with termination
protection switched on. -/
def protectedScenario : Env :=
  scriptEnv [Except.ok { JobFlowId := some "j-2AXXXXXXGAPLF" }] 0
    [Except.ok { Cluster := some (clusterInState ClusterStateWaiting (some true)) }] []


/-! ## Read (lines 962-996) -/

/-- The function `resourceAwsEMRClusterRead` up to line 996; `rest` stands for
lines 996-1122 (instance groups, the remaining attributes, bootstrap actions and
steps), which run only when the cluster is there and not terminated. -/
def resourceAwsEMRClusterRead (env : Env)
    (rest : Cluster → ResourceData → World → Option GoError × ResourceData × World)
    (d : ResourceData) (w : World) : Option GoError × ResourceData × World :=
  let r := DescribeCluster env { ClusterId := some d.Id } w
  match r.1 with
  | Except.error err =>
    (some (GoError.wrapf "Error reading EMR cluster: " (GoError.client err)), d, r.2)
  | Except.ok resp =>
    match resp.Cluster with
    | none => (none, d.SetId "", r.2)
    | some cluster =>
      match cluster.Status with
      | some status =>
        let state := StringValue status.State
        if state = ClusterStateTerminated ∨ state = ClusterStateTerminatedWithErrors then
          (none, d.SetId "", r.2)
        else
          rest cluster
            { d with cluster_state := some state, arn := some (StringValue cluster.ClusterArn) }
            r.2
      | none => rest cluster d r.2

/-! ## Update (lines 1125-1371) -/

/-- Go's sequencing with early return: when the step so far ended with an error
or a panic that is how the function ends, otherwise the next step runs. -/
def andThen (r : Exit × World) (next : World → Exit × World) : Exit × World :=
  match r.1 with
  | Exit.returned none => next r.2
  | e => (e, r.2)

/-- A step that ends with its `error` result and cannot panic. -/
def returning (r : Option GoError × World) : Exit × World :=
  (Exit.returned r.1, r.2)

/-- The function `fetchAllEMRInstanceGroups` (lines 2125-2138): the groups of all
pages, in order, and the error of the paged call. -/
def fetchAllEMRInstanceGroups (env : Env) (clusterID : String) (w : World) :
    (List InstanceGroup × Option ClientError) × World :=
  let r := ListInstanceGroupsPages env { ClusterId := some clusterID } w
  ((r.1.1.flatten, r.1.2), r.2)

/-- The function `emrCoreInstanceGroup` (lines 1760-1767): the first group of
type CORE. -/
def emrCoreInstanceGroup : List InstanceGroup → Option InstanceGroup
  | [] => none
  | grp :: grps =>
    if StringValue grp.InstanceGroupType = InstanceGroupTypeCore then some grp
    else emrCoreInstanceGroup grps

/-- Lines 1163-1176: the wait configuration after a change of
`core_instance_count` (40 minutes, 10 seconds, 5 seconds). -/
def updateStateConf : StateChangeConf :=
  { Pending := [ClusterStateBootstrapping, ClusterStateStarting],
    Target := [ClusterStateRunning, ClusterStateWaiting],
    Timeout := 2400000,
    MinTimeout := 10000,
    Delay := 5000 }

/-- Lines 1286-1297: the wait configuration after a change of
`core_instance_group.0.instance_count` (20 minutes, 10 seconds delay); the
states are the values of the SDK constants `emr.InstanceGroupState...`. -/
def instanceGroupStateConf : StateChangeConf :=
  { Pending := ["BOOTSTRAPPING", "PROVISIONING", "RECONFIGURING", "RESIZING"],
    Target := ["RUNNING"],
    Timeout := 1200000,
    MinTimeout := 0,
    Delay := 10000 }

/-- Lines 1130-1182: the facet `core_instance_count`. -/
def updateCoreInstanceCount (env : Env) (d : ResourceData) (w : World) :
    Option GoError × World :=
  if d.HasChange "core_instance_count" then
    let g := fetchAllEMRInstanceGroups env d.Id w
    match g.1.2 with
    | some err => (some (GoError.client err), g.2)
    | none =>
      let coreInstanceCount := d.core_instance_count
      match emrCoreInstanceGroup g.1.1 with
      | none => (some (GoError.errorf "Error finding core group"), g.2)
      | some coreGroup =>
        let params : ModifyInstanceGroupsInput :=
          { InstanceGroups :=
              [{ InstanceGroupId := coreGroup.Id, InstanceCount := some (coreInstanceCount - 1) }] }
        let m := ModifyInstanceGroups env params g.2
        match m.1 with
        | some errModify => (some (GoError.client errModify), m.2)
        | none =>
          let s := WaitForState updateStateConf (resourceAwsEMRClusterStateRefreshFunc env d) m.2
          match s.1 with
          | Except.error err =>
            (some (GoError.wrapf
              "Error waiting for EMR Cluster state to be \"WAITING\" or \"RUNNING\" after modification: "
              err), s.2)
          | Except.ok _ => (none, s.2)
  else (none, w)

/-- Lines 1184-1194: the facet `visible_to_all_users`. -/
def updateVisibleToAllUsers (env : Env) (d : ResourceData) (w : World) :
    Option GoError × World :=
  if d.HasChange "visible_to_all_users" then
    let m := SetVisibleToAllUsers env
      { JobFlowIds := [some d.Id], VisibleToAllUsers := some d.visible_to_all_users } w
    match m.1 with
    | some errModify => (some (GoError.client errModify), m.2)
    | none => (none, m.2)
  else (none, w)

/-- Lines 1196-1206: the facet `termination_protection`. -/
def updateTerminationProtection (env : Env) (d : ResourceData) (w : World) :
    Option GoError × World :=
  if d.HasChange "termination_protection" then
    let m := SetTerminationProtection env
      { JobFlowIds := [some d.Id],
        TerminationProtected := some (BoolValue d.termination_protection) } w
    match m.1 with
    | some errModify => (some (GoError.client errModify), m.2)
    | none => (none, m.2)
  else (none, w)

/-- Lines 1270-1302: the facet `core_instance_group.0.instance_count`;
`instanceGroupStateRefresh` (not among the sources) is the refresh function of
its wait, given the cluster and the instance group. -/
def updateCoreInstanceGroupCount (env : Env)
    (instanceGroupStateRefresh : String → String → World → RefreshResult × World)
    (d : ResourceData) (w : World) : Option GoError × World :=
  if d.HasChange "core_instance_group.0.instance_count" then
    let instanceGroupID := d.core_instance_group_0_id
    let input : ModifyInstanceGroupsInput :=
      { InstanceGroups :=
          [{ InstanceGroupId := some instanceGroupID,
             InstanceCount := some d.core_instance_group_0_instance_count }] }
    let m := ModifyInstanceGroups env input w
    match m.1 with
    | some err =>
      (some (GoError.wrapf
        ("error modifying EMR Cluster (" ++ d.Id ++ ") Instance Group (" ++ instanceGroupID ++ "): ")
        (GoError.client err)), m.2)
    | none =>
      let s := WaitForState instanceGroupStateConf (instanceGroupStateRefresh d.Id instanceGroupID)
        m.2
      match s.1 with
      | Except.error err =>
        (some (GoError.wrapf
          ("error waiting for EMR Cluster (" ++ d.Id ++ ") Instance Group (" ++ instanceGroupID
            ++ ") modification: ") err), s.2)
      | Except.ok _ => (none, s.2)
  else (none, w)

/-- Lines 1356-1366: the facet `step_concurrency_level`. -/
def updateStepConcurrencyLevel (env : Env) (d : ResourceData) (w : World) :
    Option GoError × World :=
  if d.HasChange "step_concurrency_level" then
    let m := ModifyCluster env
      { ClusterId := some d.Id, StepConcurrencyLevel := some d.step_concurrency_level } w
    match m.1 with
    | some errModify => (some (GoError.client errModify), m.2)
    | none => (none, m.2)
  else (none, w)

/-- The function `getEmrCoreInstanceGroupAutoscalingPolicy` (lines 2109-2123): the
autoscaling policy of the core instance group. -/
def getEmrCoreInstanceGroupAutoscalingPolicy (env : Env) (clusterID : String) (w : World) :
    Except GoError (Option AutoScalingPolicyDescription) × World :=
  let g := fetchAllEMRInstanceGroups env clusterID w
  match g.1.2 with
  | some err => (Except.error (GoError.client err), g.2)
  | none =>
    match emrCoreInstanceGroup g.1.1 with
    | none =>
      (Except.error
        (GoError.errorf ("EMR Cluster (" ++ clusterID ++ ") Core Instance Group not found")), g.2)
    | some coreGroup => (Except.ok coreGroup.AutoScalingPolicy, g.2)

/-- Lines 1240-1252: one attempt of the retried closure that looks whether the
core autoscaling policy is gone; it captures no variable it assigns. -/
def policyRemovalAttempt (env : Env) (d : ResourceData) (instanceGroupID : String)
    (_captured : Unit) (w : World) : Option RetryError × Unit × World :=
  let r := getEmrCoreInstanceGroupAutoscalingPolicy env d.Id w
  match r.1 with
  | Except.error err => (some (RetryError.NonRetryableError err), (), r.2)
  | Except.ok (some _) =>
    (some (RetryError.RetryableError
      (GoError.errorf ("EMR Cluster (" ++ d.Id ++ ") Instance Group (" ++ instanceGroupID
        ++ ") Auto Scaling Policy still exists"))), (), r.2)
  | Except.ok none => (none, (), r.2)

/-- Lines 1240-1262: the retry (one minute) until the core autoscaling policy is
removed, and the last look after a timeout. -/
def waitPolicyRemoved (env : Env) (d : ResourceData) (instanceGroupID : String) (w : World) :
    Option GoError × World :=
  let r := Retry 60000 (policyRemovalAttempt env d instanceGroupID) () w
  if isResourceTimeoutError r.1 then
    let g := getEmrCoreInstanceGroupAutoscalingPolicy env d.Id r.2.2
    match g.1 with
    | Except.ok (some _) =>
      (some (GoError.errorf ("EMR Cluster (" ++ d.Id ++ ") Instance Group (" ++ instanceGroupID
        ++ ") Auto Scaling Policy still exists")), g.2)
    | Except.ok none => (none, g.2)
    | Except.error err => (some err, g.2)
  else (r.1, r.2.2)

/-- Lines 1208-1268: the facet `core_instance_group.0.autoscaling_policy`;
`unmarshal` stands for `json.Unmarshal` into an `*emr.AutoScalingPolicy`. -/
def updateCoreInstanceGroupAutoscalingPolicy (env : Env)
    (unmarshal : String → Except GoError (Option AutoScalingPolicy))
    (d : ResourceData) (w : World) : Option GoError × World :=
  if d.HasChange "core_instance_group.0.autoscaling_policy" then
    let autoscalingPolicyStr := d.core_instance_group_0_autoscaling_policy
    let instanceGroupID := d.core_instance_group_0_id
    if autoscalingPolicyStr ≠ "" then
      match unmarshal autoscalingPolicyStr with
      | Except.error err =>
        (some (GoError.wrapf "error parsing core_instance_group Auto Scaling Policy JSON: " err),
          w)
      | Except.ok autoScalingPolicy =>
        let p := PutAutoScalingPolicy env
          { ClusterId := some d.Id, AutoScalingPolicy := autoScalingPolicy,
            InstanceGroupId := some instanceGroupID } w
        match p.1 with
        | some err =>
          (some (GoError.wrapf
            ("error updating EMR Cluster (" ++ d.Id ++ ") Instance Group (" ++ instanceGroupID
              ++ ") Auto Scaling Policy: ") (GoError.client err)), p.2)
        | none => (none, p.2)
    else
      let r := RemoveAutoScalingPolicy env
        { ClusterId := some d.Id, InstanceGroupId := some instanceGroupID } w
      match r.1 with
      | some err =>
        (some (GoError.wrapf
          ("error removing EMR Cluster (" ++ d.Id ++ ") Instance Group (" ++ instanceGroupID
            ++ ") Auto Scaling Policy: ") (GoError.client err)), r.2)
      | none =>
        let s := waitPolicyRemoved env d instanceGroupID r.2
        match s.1 with
        | some err =>
          (some (GoError.wrapf
            ("error waiting for EMR Cluster (" ++ d.Id ++ ") Instance Group (" ++ instanceGroupID
              ++ ") Auto Scaling Policy removal: ") err), s.2)
        | none => (none, s.2)
  else (none, w)

/-- How the body of the inner loop of the facet `instance_group` (lines 1310-1342)
ends for one pair of groups: with `continue` or by falling through, with `break`
after the policy has been put, with a returned error, or with a panic (the type
assertion on an absent key). -/
inductive GroupStep where
  | next
  | stop
  | fail (err : GoError)
  | crash (what : String)
  deriving DecidableEq, Repr

/-- Lines 1310-1342: the body of the inner loop for the old group `o` and the new
group `n`. The `%q` of line 1338 is written as the id between double quotes. -/
def putGroupPolicy (env : Env) (unmarshal : String → Except GoError (Option AutoScalingPolicy))
    (d : ResourceData) (o n : InstanceGroupMap) (w : World) : GroupStep × World :=
  if o.instance_role ≠ n.instance_role then (GroupStep.next, w)
  else
    match o.name, n.name with
    | some oName, some nName =>
      if oName ≠ nName then (GroupStep.next, w)
      else if n.id = some d.core_instance_group_0_id ∧
          d.HasChange "core_instance_group.0.autoscaling_policy" = true then (GroupStep.next, w)
      else
        match n.autoscaling_policy with
        | some v =>
          if v ≠ "" then
            match unmarshal v with
            | Except.error err =>
              (GroupStep.fail (GoError.wrapf
                ("error parsing EMR Auto Scaling Policy JSON for update: \n\n" ++ v ++ "\n\n")
                err), w)
            | Except.ok autoScalingPolicy =>
              match o.id with
              | none => (GroupStep.crash "interface conversion", w)
              | some oId =>
                let p := PutAutoScalingPolicy env
                  { ClusterId := some d.Id, AutoScalingPolicy := autoScalingPolicy,
                    InstanceGroupId := some oId } w
                match p.1 with
                | some errModify =>
                  (GroupStep.fail (GoError.wrapf
                    ("error updating autoscaling policy for instance group \"" ++ oId ++ "\": ")
                    (GoError.client errModify)), p.2)
                | none => (GroupStep.stop, p.2)
          else (GroupStep.next, w)
        | none => (GroupStep.next, w)
    | _, _ => (GroupStep.crash "interface conversion", w)

/-- Lines 1309-1343: the inner loop over the new groups for one old group; it ends
with the first pair that does not go on to the next one. -/
def putPolicyForOld (env : Env) (unmarshal : String → Except GoError (Option AutoScalingPolicy))
    (d : ResourceData) (o : InstanceGroupMap) : List InstanceGroupMap → World → GroupStep × World
  | [], w => (GroupStep.next, w)
  | n :: ns, w =>
    let r := putGroupPolicy env unmarshal d o n w
    match r.1 with
    | GroupStep.next => putPolicyForOld env unmarshal d o ns r.2
    | _ => r

/-- Lines 1308-1345: the outer loop over the old groups. -/
def putPolicies (env : Env) (unmarshal : String → Except GoError (Option AutoScalingPolicy))
    (d : ResourceData) : List InstanceGroupMap → World → Exit × World
  | [], w => (Exit.returned none, w)
  | o :: os, w =>
    let r := putPolicyForOld env unmarshal d o d.instance_group_new w
    match r.1 with
    | GroupStep.next => putPolicies env unmarshal d os r.2
    | GroupStep.stop => putPolicies env unmarshal d os r.2
    | GroupStep.fail err => (Exit.returned (some err), r.2)
    | GroupStep.crash what => (Exit.crashed what, r.2)

/-- Lines 1304-1346: the facet `instance_group`. -/
def updateInstanceGroups (env : Env)
    (unmarshal : String → Except GoError (Option AutoScalingPolicy))
    (d : ResourceData) (w : World) : Exit × World :=
  if d.HasChange "instance_group" then putPolicies env unmarshal d d.instance_group_old w
  else (Exit.returned none, w)

/-- Lines 1348-1354: the facet `tags`. -/
def updateTags (env : Env) (d : ResourceData) (w : World) : Option GoError × World :=
  if d.HasChange "tags" then
    let r := EmrUpdateTags env d.Id d.tags_old d.tags_new w
    match r.1 with
    | some err =>
      (some (GoError.wrapf ("error updating EMR Cluster (" ++ d.Id ++ ") tags: ") err), r.2)
    | none => (none, r.2)
  else (none, w)

/-- The parts of Update that are not among the sources and are passed in: the
refresh function `instanceGroupStateRefresh` of the instance group wait (given
the cluster and the instance group), `json.Unmarshal` into an
`*emr.AutoScalingPolicy`, and `read`, which stands for
`resourceAwsEMRClusterRead`. -/
structure UpdateParts where
  instanceGroupStateRefresh : String → String → World → RefreshResult × World
  unmarshalPolicy : String → Except GoError (Option AutoScalingPolicy)
  read : ResourceData → World → Option GoError × ResourceData × World

/-- Lines 1130-1366 of `resourceAwsEMRClusterUpdate`: the facets in source order,
each behind its `d.HasChange` test, up to the final Read. (`d.Partial` and
`d.SetPartial` only mark attributes for the state file and are left out.) -/
def updateFacets (env : Env) (parts : UpdateParts) (d : ResourceData) (w : World) :
    Exit × World :=
  andThen (returning (updateCoreInstanceCount env d w)) fun w1 =>
  andThen (returning (updateVisibleToAllUsers env d w1)) fun w2 =>
  andThen (returning (updateTerminationProtection env d w2)) fun w3 =>
  andThen (returning
    (updateCoreInstanceGroupAutoscalingPolicy env parts.unmarshalPolicy d w3)) fun w4 =>
  andThen (returning
    (updateCoreInstanceGroupCount env parts.instanceGroupStateRefresh d w4)) fun w5 =>
  andThen (updateInstanceGroups env parts.unmarshalPolicy d w5) fun w6 =>
  andThen (returning (updateTags env d w6)) fun w7 =>
  returning (updateStepConcurrencyLevel env d w7)

/-- The function `resourceAwsEMRClusterUpdate`. -/
def resourceAwsEMRClusterUpdate (env : Env) (parts : UpdateParts) (d : ResourceData)
    (w : World) : Exit × ResourceData × World :=
  let r := updateFacets env parts d w
  match r.1 with
  | Exit.returned none =>
    let z := parts.read d r.2
    (Exit.returned z.1, z.2.1, z.2.2)
  | e => (e, d, r.2)

/-! ## Delete (lines 1373-1417) -/

/-- Lines 1393-1410: the closure handed to `resource.Retry`. It polls
`DescribeCluster` once; the captured variables are `describeResp` and `state`. -/
def deletePoll (env : Env) (d : ResourceData) (captured : Option DescribeClusterOutput × String)
    (w : World) : Option RetryError × (Option DescribeClusterOutput × String) × World :=
  let r := DescribeCluster env { ClusterId := some d.Id } w
  match r.1 with
  | Except.error describeErr =>
    (some (RetryError.NonRetryableError (GoError.client describeErr)), (none, captured.2), r.2)
  | Except.ok describeResp =>
    match describeResp.Cluster with
    | none =>
      (some (RetryError.RetryableError
        (GoError.errorf ("Continuing to retrieve EMR Cluster (" ++ d.Id ++ ") state"))),
        (some describeResp, captured.2), r.2)
    | some cluster =>
      match cluster.Status with
      | none =>
        (some (RetryError.RetryableError
          (GoError.errorf ("Continuing to retrieve EMR Cluster (" ++ d.Id ++ ") state"))),
          (some describeResp, captured.2), r.2)
      | some status =>
        let state := StringValue status.State
        if state ≠ ClusterStateTerminated ∧ state ≠ ClusterStateTerminatedWithErrors then
          (some (RetryError.RetryableError
            (GoError.errorf ("EMR Cluster (" ++ d.Id ++ ") has (" ++ state ++ ") state"))),
            (some describeResp, state), r.2)
        else (none, (some describeResp, state), r.2)

/-- Lines 1391-1410: the polling of Delete under its 20 minute budget, with
`describeResp` nil and `state` empty at the start. -/
def deletePolling (env : Env) (d : ResourceData) (w : World) :
    Option GoError × (Option DescribeClusterOutput × String) × World :=
  Retry 1200000 (deletePoll env d) (none, "") w

/-- The function `resourceAwsEMRClusterDelete`: the terminate call, then the
polling; a timeout is reported with the captured `state`. -/
def resourceAwsEMRClusterDelete (env : Env) (d : ResourceData) (w : World) :
    Option GoError × World :=
  let t := TerminateJobFlows env { JobFlowIds := [some d.Id] } w
  match t.1 with
  | some err => (some (GoError.client err), t.2)
  | none =>
    let a := deletePolling env d t.2
    if isResourceTimeoutError a.1 then
      (some (GoError.errorf ("EMR Cluster (" ++ d.Id ++ ") has (" ++ a.2.1.2 ++ ") state")), a.2.2)
    else (a.1, a.2.2)

/-- The state captured after `n` further polls of Delete, when the next poll is
`DescribeCluster` call number `c` and `s` is captured so far: each poll whose
answer carries a status replaces it. -/
def lastCarriedState (env : Env) : Nat → String → Nat → String
  | _, s, 0 => s
  | c, s, n + 1 =>
    lastCarriedState env (c + 1)
      (match observedState (env.describeCluster c) with
        | some x => x
        | none => s) n

/-- Clock reading at which the `k`-th further poll of Delete starts, when the
next poll is `DescribeCluster` call number `c` and starts at time `t`, and every
poll before it asks for a retry: a poll takes its latency and is followed by the
minimum delay. -/
def deletePollStart (env : Env) : Nat → Nat → Nat → Nat
  | _, t, 0 => t
  | c, t, k + 1 =>
    deletePollStart env (c + 1) (t + env.describeClusterLatency c + retryMinDelay) k


/-- Resource data of a cluster that exists. -/
def existingData : ResourceData :=
  { Id := "j-2AXXXXXXGAPLF", termination_protection := none,
    keep_job_flow_alive_when_no_steps := none }

/-- A remainder of Read that changes nothing, for running Read on concrete
inputs. -/
def restNothing (_c : Cluster) (d : ResourceData) (w : World) :
    Option GoError × ResourceData × World :=
  (none, d, w)

/-- A control plane that answers `DescribeCluster` from a list, each call taking
`latency` milliseconds, and every other call with success. -/
def describeEnv (dc : List (Except ClientError DescribeClusterOutput)) (latency : Nat) : Env :=
  { runJobFlow := fun _ => Except.error (ClientError.other "no answer"),
    runJobFlowLatency := fun _ => 0,
    describeCluster := fun k => dc.getD k (Except.ok { Cluster := none }),
    describeClusterLatency := fun _ => latency,
    setTerminationProtection := fun _ => none,
    setTerminationProtectionLatency := fun _ => 0 }

/-- The delete scenario of the spec with a nil `Cluster` as the not-found
observation, followed by the terminated cluster. -/
def deleteNilClusterScenario : Env :=
  describeEnv
    [describes ClusterStateTerminating, describes ClusterStateTerminating,
      Except.ok { Cluster := none }, describes ClusterStateTerminated] 0

/-- The delete scenario of the spec with the "ClusterNotFound" error as the
not-found observation. -/
def deleteNotFoundErrorScenario : Env :=
  describeEnv
    [describes ClusterStateTerminating, describes ClusterStateTerminating,
      Except.error (ClientError.aws "ClusterNotFound" "no such cluster")] 0

/-- A cluster that is observed TERMINATING twice and then no longer shows a
status, every poll taking 400 seconds. -/
def deleteStuckScenario : Env :=
  describeEnv [describes ClusterStateTerminating, describes ClusterStateTerminating] 400000

/-- Parts of Update for running it on concrete inputs: an instance group that is
RUNNING at once, a `json.Unmarshal` that yields a policy without rules, and a
Read that changes nothing. -/
def partsNothing : UpdateParts :=
  { instanceGroupStateRefresh := fun _ _ w =>
      ({ obj := RefreshObj.nil, state := "RUNNING", err := none }, w),
    unmarshalPolicy := fun _ => Except.ok (some { Rules := [] }),
    read := readNothing }

structure InstanceGroupConfig where
  InstanceCount : Option Int
  InstanceRole : Option String
  InstanceType : Option String
  deriving DecidableEq, Repr

/-- Lines 733-751 of `resourceAwsEMRClusterCreate`: the check of the deprecated
attributes `core_instance_count` and `core_instance_type`. `instanceGroups` is
`instanceConfig.InstanceGroups` as built so far; the result is that list after
the section, or the error the section returns. `d.GetOk` reports a value only
when it is not the zero value, so the two locals keep their zero value
otherwise. -/
def createCoreInstanceGroup (d : ResourceData) (instanceGroups : List InstanceGroupConfig) :
    Except GoError (List InstanceGroupConfig) :=
  let coreInstanceType : String := if d.core_instance_type ≠ "" then d.core_instance_type else ""
  let coreInstanceCount : Int := if d.core_instance_count ≠ 0 then d.core_instance_count else 0
  if (coreInstanceCount = 0 ∧ coreInstanceType ≠ "") ∨
      (coreInstanceCount > 0 ∧ coreInstanceType = "") then
    Except.error
      (GoError.errorf "Must specify both `core_instance_count` and `core_instance_type`")
  else if coreInstanceCount > 0 ∧ coreInstanceType ≠ "" then
    Except.ok (instanceGroups ++
      [{ InstanceCount := some d.core_instance_count,
         InstanceRole := some "CORE",
         InstanceType := some d.core_instance_type }])
  else Except.ok instanceGroups

/-- The function `resourceAwsEMRClusterCreate` from line 733 on. `instanceGroups`
is the list built on lines 667-731, `finish` stands for lines 753-892, which
build the request from the instance groups or return an error and issue no
remote call, and `read` stands for `resourceAwsEMRClusterRead`. -/
def createFromCoreInstances (env : Env)
    (read : ResourceData → World → Option GoError × ResourceData × World)
    (finish : List InstanceGroupConfig → Except GoError RunJobFlowInput)
    (instanceGroups : List InstanceGroupConfig) (d : ResourceData) (w : World) :
    Exit × ResourceData × World :=
  match createCoreInstanceGroup d instanceGroups with
  | Except.error err => (Exit.returned (some err), d, w)
  | Except.ok groups =>
    match finish groups with
    | Except.error err => (Exit.returned (some err), d, w)
    | Except.ok params => resourceAwsEMRClusterCreate env read params d w

/-! ## Read: core instances and steps (lines 1002-1012, 1095-1108) -/

/-- Lines 1002-1012 of `resourceAwsEMRClusterRead`, the attributes of the core
group: both are reset and then written from the core group when there is one
(`d.Set` with a nil pointer stores the zero value). -/
def readCoreInstances (instanceGroups : List InstanceGroup) (d : ResourceData) : ResourceData :=
  let coreGroup := emrCoreInstanceGroup instanceGroups
  let d1 := { d with core_instance_count := 0, core_instance_type := "" }
  match coreGroup with
  | some grp =>
    { d1 with core_instance_type := StringValue grp.InstanceType,
              core_instance_count := grp.RequestedInstanceCount.getD 0 }
  | none => d1

/-- Whether a call is a `ListStepsPages` call. -/
def Call.isListStepsPages : Call → Bool
  | Call.ListStepsPages _ => true
  | _ => false

/-- The call `emrconn.ListStepsPages(input, fn)`: the pages handed to the callback
one after the other, and the error of the paged call. The callback of line 1099
returns `!lastPage`, so it is handed every page. -/
def ListStepsPages (env : Env) (input : ListStepsInput) (w : World) :
    (List (List StepSummary) × Option ClientError) × World :=
  let k := callCount Call.isListStepsPages w.trace
  (env.listStepsPages k,
    { now := w.now + env.listStepsPagesLatency k,
      trace := w.trace ++ [Call.ListStepsPages input] })

/-- Lines 1101-1103, the body of the callback: each step of the page, in order, is
put in front of the steps collected so far. -/
def prependSteps (stepSummaries : List StepSummary) (page : List StepSummary) :
    List StepSummary :=
  page.foldl (fun acc step => [step] ++ acc) stepSummaries

/-- Lines 1095-1108 of `resourceAwsEMRClusterRead`: the step summaries collected
from the pages of `ListSteps`, or the error of line 1107. -/
def listStepSummaries (env : Env) (d : ResourceData) (w : World) :
    Except GoError (List StepSummary) × World :=
  let r := ListStepsPages env { ClusterId := some d.Id } w
  let stepSummaries := r.1.1.foldl prependSteps []
  match r.1.2 with
  | some err => (Except.error (GoError.wrapf "error listing steps: " (GoError.client err)), r.2)
  | none => (Except.ok stepSummaries, r.2)

/-! ## Results of functions that can panic -/

/-- How a Go function with a result ends: it returns the result, or the goroutine
panics. -/
inductive Outcome (α : Type) where
  | done (value : α)
  | crashed (what : String)
  deriving DecidableEq, Repr

/-! ## Remaining instances (lines 1419-1444) -/

structure InstanceStatus where
  State : Option String
  deriving DecidableEq, Repr

structure Instance where
  Ec2InstanceId : Option String
  Status : Option InstanceStatus
  deriving DecidableEq, Repr

structure ListInstancesOutput where
  Instances : List Instance
  deriving DecidableEq, Repr

/-- Value of the SDK constant `emr.InstanceStateTerminated`. -/
def InstanceStateTerminated : String := "TERMINATED"

/-- Lines 1430-1439 of `countEMRRemainingInstances`: the loop that collects the
ids of the terminated instances into `terminated`. `*i.Ec2InstanceId` panics on a
nil id, both when the id is appended and when it is logged. -/
def collectTerminated : List Instance → List String → Outcome (List String)
  | [], terminated => Outcome.done terminated
  | i :: rest, terminated =>
    match i.Status with
    | some status =>
      if StringValue status.State = InstanceStateTerminated then
        match i.Ec2InstanceId with
        | some id => collectTerminated rest (terminated ++ [id])
        | none => Outcome.crashed "nil pointer dereference"
      else collectTerminated rest terminated
    | none =>
      match i.Ec2InstanceId with
      | some _ => collectTerminated rest terminated
      | none => Outcome.crashed "nil pointer dereference"

/-- The function `countEMRRemainingInstances`. Line 1420 reads `resp.Instances`
before line 1422 tests `resp == nil`, so a nil `resp` panics there; past that
line `resp` is not nil and the test of line 1422 is `instanceCount == 0`. -/
def countEMRRemainingInstances (resp : Option ListInstancesOutput) (_emrClusterId : String) :
    Outcome Nat :=
  match resp with
  | none => Outcome.crashed "nil pointer dereference"
  | some r =>
    let instanceCount := r.Instances.length
    if instanceCount = 0 then Outcome.done 0
    else
      match collectTerminated r.Instances [] with
      | Outcome.crashed what => Outcome.crashed what
      | Outcome.done terminated =>
        if terminated.length = instanceCount then Outcome.done 0
        else Outcome.done r.Instances.length

/-! ## Autoscaling policy dimensions (lines 1505-1524) -/

/-- Lines 1515-1520, the inner loop over the dimensions of one rule. Go evaluates
the range expression once, so the loop runs over the indices of the slice as it
was at the start (`remaining` of them are left, `j` is the next one) and reads
element `j` from the shared backing array `arr`; `len` is the current length of
`policy.Rules[i]...Dimensions`, which the body shortens; the backing array keeps
its length, so element `j` is always there. On a "JobFlowId" key the
body evaluates `Dimensions[:j]` and `Dimensions[j+1:]`, which panics when
`j+1 > len`, and `append` copies the tail one place down inside the backing
array, whose last element stays where it was. The result is the backing array
and the final length. -/
def removeJobFlowIdLoop : Nat → Nat → List MetricDimension → Nat →
    Outcome (List MetricDimension × Nat)
  | 0, _, arr, len => Outcome.done (arr, len)
  | remaining + 1, j, arr, len =>
    match arr.get? j with
    | none => Outcome.crashed "index out of range"
    | some dimension =>
      match dimension.Key with
      | none => Outcome.crashed "nil pointer dereference"
      | some key =>
        if key = "JobFlowId" then
          if j + 1 > len then Outcome.crashed "slice bounds out of range"
          else
            removeJobFlowIdLoop remaining (j + 1)
              (arr.take j ++ (arr.take len).drop (j + 1) ++ arr.drop (len - 1)) (len - 1)
        else removeJobFlowIdLoop remaining (j + 1) arr len

/-- Lines 1514-1524 for one rule: the inner loop, then an empty slice is replaced
by nil. -/
def removeJobFlowIdDimensions (rule : ScalingRule) : Outcome ScalingRule :=
  let dims := rule.Dimensions.getD []
  match removeJobFlowIdLoop dims.length 0 dims dims.length with
  | Outcome.crashed what => Outcome.crashed what
  | Outcome.done (arr, len) =>
    if len = 0 then Outcome.done { rule with Dimensions := none }
    else Outcome.done { rule with Dimensions := some (arr.take len) }

/-- Lines 1514-1524 of `flattenEmrAutoScalingPolicyDescription`: the outer loop
over `policy.Rules`; the result is the rules that lines 1526-1559 turn into
JSON. -/
def removeJobFlowIdRules : List ScalingRule → Outcome (List ScalingRule)
  | [] => Outcome.done []
  | rule :: rules =>
    match removeJobFlowIdDimensions rule with
    | Outcome.crashed what => Outcome.crashed what
    | Outcome.done r =>
      match removeJobFlowIdRules rules with
      | Outcome.crashed what => Outcome.crashed what
      | Outcome.done rs => Outcome.done (r :: rs)

/-! ## The `log_uri` diff suppression (lines 145-151) -/

/-- The call `strings.Replace(s, old, new, -1)` for a non-empty `old`, on
character lists: every non-overlapping occurrence of `pat`, from the left, is
replaced by `rep`. The first argument counts the characters still to be skipped
of an occurrence that has been replaced. -/
def replaceAllChars (pat rep : List Char) : Nat → List Char → List Char
  | _, [] => []
  | skip + 1, _ :: cs => replaceAllChars pat rep skip cs
  | 0, c :: cs =>
    if pat.isPrefixOf (c :: cs) then rep ++ replaceAllChars pat rep (pat.length - 1) cs
    else c :: replaceAllChars pat rep 0 cs

/-- The `DiffSuppressFunc` of `log_uri` (lines 145-151): `old` with every "s3n://"
replaced by "s3://" is compared with `new` as it is. -/
def logUriDiffSuppress (old new : String) : Bool :=
  let old1 := String.mk (replaceAllChars "s3n://".data "s3://".data 0 old.data)
  decide (old1 = new)

/-! ## The `instance_group` set hash and CustomizeDiff (lines 36-85, 2061-2107) -/

/-- The function `resourceAwsEMRClusterEBSConfigHash`; `hashcode` stands for
`hashcode.String` of the plugin SDK. -/
def resourceAwsEMRClusterEBSConfigHash (hashcode : String → Int) (m : EbsConfigMap) : Int :=
  let buf := toString m.size ++ "-"
  let buf := buf ++ (m.type ++ "-")
  let buf := buf ++ (toString m.volumes_per_instance ++ "-")
  let buf :=
    match m.iops with
    | some v => if v ≠ 0 then buf ++ (toString v ++ "-") else buf
    | none => buf
  hashcode buf

/-- The function `resourceAwsEMRClusterInstanceGroupHash`; `normalize` stands for
`structure.NormalizeJsonString` (its string and its error) and `hashcode` for
`hashcode.String`, both of the plugin SDK. -/
def resourceAwsEMRClusterInstanceGroupHash (normalize : String → String × Option GoError)
    (hashcode : String → Int) (m : InstanceGroupMap) : Int :=
  let buf := m.instance_role ++ "-"
  let buf := buf ++ (m.instance_type ++ "-")
  let buf := buf ++ (toString m.instance_count ++ "-")
  let buf :=
    match m.name with
    | some v => buf ++ (v ++ "-")
    | none => buf
  let buf :=
    match m.bid_price with
    | some v => buf ++ (v ++ "-")
    | none => buf
  let buf :=
    match m.autoscaling_policy with
    | some v => buf ++ ((normalize v).1 ++ "-")
    | none => buf
  let buf :=
    match m.ebs_config with
    | some configs =>
      if configs.length > 1 then
        configs.foldl
          (fun b ebsConfigs =>
            b ++ (toString (resourceAwsEMRClusterEBSConfigHash hashcode ebsConfigs) ++ "-"))
          buf
      else buf
    | none => buf
  hashcode buf

/-- The part of `*schema.ResourceDiff` the CustomizeDiff function uses:
`diff.HasChange("instance_group")`, the two lists of `diff.GetChange` and
`diff.GetChangedKeysPrefix`. -/
structure ResourceDiff where
  hasChangeInstanceGroup : Bool
  oldInstanceGroups : List InstanceGroupMap
  newInstanceGroups : List InstanceGroupMap
  GetChangedKeysPrefix : String → List String

/-- Lines 76-78: a key that ends in ".#" loses that suffix. -/
def trimCountSuffix (k : String) : String :=
  match k.data.reverse with
  | '#' :: '.' :: rest => String.mk rest.reverse
  | _ => k

/-- How the body of the inner loop (lines 48-81) ends for one pair of groups:
with `continue`, with the keys it forced followed by `break`, with a returned
error, or with a panic (the type assertion on an absent key). -/
inductive PairStep where
  | next
  | stop (keys : List String)
  | fail (err : GoError)
  | crash (what : String)
  deriving DecidableEq, Repr

/-- Lines 48-81: the body of the inner loop for the old group `o` and the new
group `n`. -/
def comparePair (normalize : String → String × Option GoError) (hashcode : String → Int)
    (diff : ResourceDiff) (o n : InstanceGroupMap) : PairStep :=
  if o.instance_role ≠ n.instance_role then PairStep.next
  else
    match o.name, n.name with
    | some oName, some nName =>
      if oName ≠ nName then PairStep.next
      else
        match o.autoscaling_policy, n.autoscaling_policy with
        | some oAutoScalingPolicy, some nAutoScalingPolicy =>
          if oAutoScalingPolicy = "" ∧ nAutoScalingPolicy = "" then PairStep.next
          else
            match (normalize oAutoScalingPolicy).2 with
            | some err => PairStep.fail (GoError.wrapf "error reading old json value: " err)
            | none =>
              match (normalize nAutoScalingPolicy).2 with
              | some err => PairStep.fail (GoError.wrapf "error reading new json value: " err)
              | none =>
                if (normalize oAutoScalingPolicy).1 ≠ (normalize nAutoScalingPolicy).1 then
                  PairStep.next
                else
                  PairStep.stop
                    ((diff.GetChangedKeysPrefix
                      ("instance_group." ++
                        toString (resourceAwsEMRClusterInstanceGroupHash normalize hashcode o))).map
                      trimCountSuffix)
        | _, _ => PairStep.crash "interface conversion"
    | _, _ => PairStep.crash "interface conversion"

/-- Lines 47-82: the inner loop over the new groups for one old group; it ends
with the first pair that does not `continue`. -/
def compareWithNew (normalize : String → String × Option GoError) (hashcode : String → Int)
    (diff : ResourceDiff) (o : InstanceGroupMap) : List InstanceGroupMap → PairStep
  | [] => PairStep.next
  | n :: ns =>
    match comparePair normalize hashcode diff o n with
    | PairStep.next => compareWithNew normalize hashcode diff o ns
    | r => r

/-- Lines 46-83: the outer loop over the old groups; `forced` collects the keys
handed to `diff.ForceNew`. -/
def forceNewLoop (normalize : String → String × Option GoError) (hashcode : String → Int)
    (diff : ResourceDiff) : List InstanceGroupMap → List String → Exit × List String
  | [], forced => (Exit.returned none, forced)
  | o :: os, forced =>
    match compareWithNew normalize hashcode diff o diff.newInstanceGroups with
    | PairStep.next => forceNewLoop normalize hashcode diff os forced
    | PairStep.stop keys => forceNewLoop normalize hashcode diff os (forced ++ keys)
    | PairStep.fail err => (Exit.returned (some err), forced)
    | PairStep.crash what => (Exit.crashed what, forced)

/-- The `CustomizeDiff` function of the resource (lines 36-85): how it ends, and
the keys handed to `diff.ForceNew`, in order. -/
def resourceAwsEMRClusterCustomizeDiff (normalize : String → String × Option GoError)
    (hashcode : String → Int) (diff : ResourceDiff) : Exit × List String :=
  if diff.hasChangeInstanceGroup then
    if diff.oldInstanceGroups.length ≠ diff.newInstanceGroups.length then
      (Exit.returned none, [])
    else forceNewLoop normalize hashcode diff diff.oldInstanceGroups []
  else (Exit.returned none, [])

/-! ## Sample inputs for the instance group functions -/

/-- A stand-in for `structure.NormalizeJsonString` that returns its argument. -/
def normalizeNothing (s : String) : String × Option GoError := (s, none)

/-- A stand-in for `hashcode.String`: the length of the string. -/
def hashLength (s : String) : Int := s.length

/-- A task instance group with an autoscaling policy. -/
def taskGroup : InstanceGroupMap :=
  { instance_role := "TASK", instance_type := "m4.large", instance_count := 2,
    name := some "workers", bid_price := some "",
    autoscaling_policy := some "\x7b\"Constraints\":\x7b\"MinCapacity\":1\x7d\x7d",
    ebs_config := some [] }

/-- An automatically configured `ebs_config` entry. -/
def defaultEbsConfig : EbsConfigMap :=
  { size := 32, type := "gp2", volumes_per_instance := 1, iops := none }

/-- A diff that changes the instance count of `taskGroup` from 2 to 3 and leaves
its autoscaling policy as it is. -/
def taskGroupDiff : ResourceDiff :=
  { hasChangeInstanceGroup := true,
    oldInstanceGroups := [taskGroup],
    newInstanceGroups := [{ taskGroup with instance_count := 3 }],
    GetChangedKeysPrefix := fun k => [k ++ ".instance_count", k ++ ".ebs_config.#"] }

/-- Resource data of an update that changes `core_instance_count` to 3. -/
def coreCountUpdate : ResourceData :=
  { Id := "j-2AXXXXXXGAPLF", termination_protection := none,
    keep_job_flow_alive_when_no_steps := none, changed := ["core_instance_count"],
    core_instance_count := 3, core_instance_type := "m4.large" }

/-- The core instance group of the cluster, as listed. -/
def listedCoreGroup (requested : Int) : InstanceGroup :=
  { Id := some "ig-CORE", InstanceGroupType := some "CORE",
    RequestedInstanceCount := some requested, InstanceType := some "m4.large" }

/-- A control plane on which the cluster is WAITING and has a master group and a
core group of two instances. -/
def coreGroupEnv : Env :=
  { describeEnv [describes ClusterStateWaiting] 0 with
    listInstanceGroupsPages := fun _ =>
      ([[{ Id := some "ig-MASTER", InstanceGroupType := some "MASTER",
           RequestedInstanceCount := some 1, InstanceType := some "m4.large" },
         listedCoreGroup 2]], none) }

/-- A dimension with the given key. -/
def dimension (key : String) : MetricDimension := { Key := some key, Value := some "v" }

end EMR

/-! # CloudTrail event data store

A shallow embedding of `internal/service/cloudtrail/event_data_store.go`. Remote
calls are answered by a script `Env`, indexed by the number of calls of the same
kind already in `World.trace`. -/

namespace CloudTrail

open EMR (ClientError StringValue)

/-! ## Errors and diagnostics -/

/-- Go `error` values that occur in the package: an error of the AWS SDK client,
a `*resource.NotFoundError` with its `LastError` and `Message`, or another
error (wait engine, tag helpers). -/
inductive Err where
  | client (e : ClientError)
  | notFound (lastError : Option ClientError) (message : String)
  | other (text : String)
  deriving DecidableEq, Repr

/-- One error diagnostic built by `diag.Errorf(format, ..., err)`: the formatted
text in front of the error, and the error. -/
structure Diagnostic where
  text : String
  cause : Err
  deriving DecidableEq, Repr

/-- Modelled from the spec: `tfawserr.ErrCodeEquals(err, code)` (not among the
sources): the error is an AWS error with that symbolic code. -/
def ErrCodeEquals (err : ClientError) (code : String) : Bool :=
  match err with
  | ClientError.aws c _ => c == code
  | ClientError.other _ => false

/-- Modelled from the spec: the repository helper `tfresource.NotFound(err)` (not
among the sources): the error is the not-found sentinel, a
`*resource.NotFoundError`. -/
def NotFound : Err → Bool
  | Err.notFound _ _ => true
  | _ => false

/-- Modelled from the spec: value of the SDK constant
`cloudtrail.ErrCodeEventDataStoreNotFoundException`. -/
def ErrCodeEventDataStoreNotFoundException : String := "EventDataStoreNotFoundException"

/-- Modelled from the spec: value of the SDK constant
`cloudtrail.EventDataStoreStatusCreated`. -/
def EventDataStoreStatusCreated : String := "CREATED"

/-- Modelled from the spec: value of the SDK constant
`cloudtrail.EventDataStoreStatusEnabled`. -/
def EventDataStoreStatusEnabled : String := "ENABLED"

/-- Modelled from the spec: value of the SDK constant
`cloudtrail.EventDataStoreStatusPendingDeletion`. -/
def EventDataStoreStatusPendingDeletion : String := "PENDING_DELETION"

/-! ## SDK data shapes and configuration -/

structure AdvancedFieldSelector where
  EndsWith : List String
  Equals : List String
  Field : Option String
  NotEndsWith : List String
  NotEquals : List String
  NotStartsWith : List String
  StartsWith : List String
  deriving DecidableEq, Repr

structure AdvancedEventSelector where
  FieldSelectors : List AdvancedFieldSelector
  Name : Option String
  deriving DecidableEq, Repr

structure GetEventDataStoreInput where
  EventDataStore : Option String
  deriving DecidableEq, Repr

structure GetEventDataStoreOutput where
  AdvancedEventSelectors : List AdvancedEventSelector
  EventDataStoreArn : Option String
  KmsKeyId : Option String
  MultiRegionEnabled : Option Bool
  Name : Option String
  OrganizationEnabled : Option Bool
  RetentionPeriod : Option Int
  Status : Option String
  TerminationProtectionEnabled : Option Bool
  deriving DecidableEq, Repr

structure UpdateEventDataStoreInput where
  AdvancedEventSelectors : Option (List AdvancedEventSelector)
  EventDataStore : Option String
  MultiRegionEnabled : Option Bool
  Name : Option String
  OrganizationEnabled : Option Bool
  RetentionPeriod : Option Int
  TerminationProtectionEnabled : Option Bool
  deriving DecidableEq, Repr

structure DeleteEventDataStoreInput where
  EventDataStore : Option String
  deriving DecidableEq, Repr

/-- One `field_selector` block of the schema. -/
structure FieldSelectorConfig where
  ends_with : List String
  equals : List String
  field : String
  not_ends_with : List String
  not_equals : List String
  not_starts_with : List String
  starts_with : List String
  deriving DecidableEq, Repr

/-- One `advanced_event_selector` block of the schema. -/
structure AdvancedEventSelectorConfig where
  field_selector : List FieldSelectorConfig
  name : String
  deriving DecidableEq, Repr

/-- The attributes of the schema (lines 41-173). -/
structure Attributes where
  advanced_event_selector : List AdvancedEventSelectorConfig
  arn : String
  kms_key_id : String
  multi_region_enabled : Bool
  name : String
  organization_enabled : Bool
  retention_period : Int
  tags : List (String × String)
  tags_all : List (String × String)
  termination_protection_enabled : Bool
  deriving DecidableEq, Repr

/-- The part of `*schema.ResourceData` the code uses: the identity, whether the
resource has just been created, the attributes in the prior state and in the
desired configuration, and the timeouts (milliseconds). -/
structure ResourceData where
  Id : String
  IsNewResource : Bool
  state : Attributes
  config : Attributes
  timeoutUpdate : Nat := 300000
  timeoutDelete : Nat := 300000
  deriving DecidableEq, Repr

/-- The method `d.SetId`. -/
def ResourceData.SetId (d : ResourceData) (id : String) : ResourceData :=
  { d with Id := id }

/-- The method `d.HasChange(key)`: the attribute differs between state and
configuration. -/
def ResourceData.HasChange (d : ResourceData) (key : String) : Bool :=
  match key with
  | "advanced_event_selector" =>
    decide (d.state.advanced_event_selector ≠ d.config.advanced_event_selector)
  | "arn" => decide (d.state.arn ≠ d.config.arn)
  | "kms_key_id" => decide (d.state.kms_key_id ≠ d.config.kms_key_id)
  | "multi_region_enabled" =>
    decide (d.state.multi_region_enabled ≠ d.config.multi_region_enabled)
  | "name" => decide (d.state.name ≠ d.config.name)
  | "organization_enabled" =>
    decide (d.state.organization_enabled ≠ d.config.organization_enabled)
  | "retention_period" => decide (d.state.retention_period ≠ d.config.retention_period)
  | "tags" => decide (d.state.tags ≠ d.config.tags)
  | "tags_all" => decide (d.state.tags_all ≠ d.config.tags_all)
  | "termination_protection_enabled" =>
    decide (d.state.termination_protection_enabled ≠ d.config.termination_protection_enabled)
  | _ => false

/-- The keys of the schema (lines 41-173). -/
def storeSchemaKeys : List String :=
  ["advanced_event_selector", "arn", "kms_key_id", "multi_region_enabled", "name",
    "organization_enabled", "retention_period", "tags", "tags_all",
    "termination_protection_enabled"]

/-- The method `d.HasChangesExcept(keys...)` of the plugin SDK: some attribute of
the schema other than the listed ones has a change. -/
def ResourceData.HasChangesExcept (d : ResourceData) (except : List String) : Bool :=
  storeSchemaKeys.any fun k => !(except.contains k) && d.HasChange k

/-! ## The remote control plane and the world -/

structure StateChangeConf where
  Pending : List String
  Target : List String
  Timeout : Nat
  deriving DecidableEq, Repr

/-- One remote call or engine invocation, as recorded in the trace. -/
inductive Call where
  | GetEventDataStore (input : GetEventDataStoreInput)
  | UpdateEventDataStore (input : UpdateEventDataStoreInput)
  | DeleteEventDataStore (input : DeleteEventDataStoreInput)
  | UpdateTags (identifier : String) (oldTags newTags : List (String × String))
  | WaitForStateContext (conf : StateChangeConf)
  deriving DecidableEq, Repr

/-- Whether a call is a `GetEventDataStore` call. -/
def Call.isGetEventDataStore : Call → Bool
  | Call.GetEventDataStore _ => true
  | _ => false

/-- Whether a call is an `UpdateEventDataStore` call. -/
def Call.isUpdateEventDataStore : Call → Bool
  | Call.UpdateEventDataStore _ => true
  | _ => false

/-- Whether a call is a `DeleteEventDataStore` call. -/
def Call.isDeleteEventDataStore : Call → Bool
  | Call.DeleteEventDataStore _ => true
  | _ => false

/-- Whether a call is an `UpdateTags` call. -/
def Call.isUpdateTags : Call → Bool
  | Call.UpdateTags _ _ _ => true
  | _ => false

/-- Whether a trace entry is the start of a wait. -/
def Call.isWaitForStateContext : Call → Bool
  | Call.WaitForStateContext _ => true
  | _ => false

/-- The script of the remote control plane: the answer to the `k`-th call of each
kind (counted from 0). -/
structure Env where
  getEventDataStore : Nat → Except ClientError GetEventDataStoreOutput
  updateEventDataStore : Nat → Option ClientError
  deleteEventDataStore : Nat → Option ClientError
  updateTags : Nat → Option Err

/-- The calls issued so far, oldest first. -/
structure World where
  trace : List Call
  deriving DecidableEq, Repr

/-- The call `conn.GetEventDataStoreWithContext(ctx, &input)`. -/
def GetEventDataStore (env : Env) (input : GetEventDataStoreInput) (w : World) :
    Except ClientError GetEventDataStoreOutput × World :=
  (env.getEventDataStore (w.trace.countP Call.isGetEventDataStore),
    { trace := w.trace ++ [Call.GetEventDataStore input] })

/-- The call `conn.UpdateEventDataStoreWithContext(ctx, input)`; only the error is
used. -/
def UpdateEventDataStore (env : Env) (input : UpdateEventDataStoreInput) (w : World) :
    Option ClientError × World :=
  (env.updateEventDataStore (w.trace.countP Call.isUpdateEventDataStore),
    { trace := w.trace ++ [Call.UpdateEventDataStore input] })

/-- The call `conn.DeleteEventDataStoreWithContext(ctx, input)`; only the error is
used. -/
def DeleteEventDataStore (env : Env) (input : DeleteEventDataStoreInput) (w : World) :
    Option ClientError × World :=
  (env.deleteEventDataStore (w.trace.countP Call.isDeleteEventDataStore),
    { trace := w.trace ++ [Call.DeleteEventDataStore input] })

/-- The generated helper `UpdateTags(ctx, conn, identifier, oldTags, newTags)` (not
among the sources), taken as one remote step answered by the script. -/
def UpdateTags (env : Env) (identifier : String) (oldTags newTags : List (String × String))
    (w : World) : Option Err × World :=
  (env.updateTags (w.trace.countP Call.isUpdateTags),
    { trace := w.trace ++ [Call.UpdateTags identifier oldTags newTags] })

/-! ## Finder, status and waiters (lines 343-411) -/

/-- The function `FindEventDataStoreByARN`. -/
def FindEventDataStoreByARN (env : Env) (arn : String) (w : World) :
    Except Err GetEventDataStoreOutput × World :=
  let r := GetEventDataStore env { EventDataStore := some arn } w
  match r.1 with
  | Except.error err =>
    if ErrCodeEquals err ErrCodeEventDataStoreNotFoundException then
      (Except.error (Err.notFound (some err) ""), r.2)
    else (Except.error (Err.client err), r.2)
  | Except.ok output =>
    let status := StringValue output.Status
    if status = EventDataStoreStatusPendingDeletion then
      (Except.error (Err.notFound none status), r.2)
    else (Except.ok output, r.2)

/-- The triple a `resource.StateRefreshFunc` returns. -/
structure StatusResult where
  obj : Option GetEventDataStoreOutput
  state : String
  err : Option Err
  deriving DecidableEq, Repr

/-- The function `statusEventDataStore`: the refresh closure it builds. -/
def statusEventDataStore (env : Env) (arn : String) (w : World) : StatusResult × World :=
  let r := FindEventDataStoreByARN env arn w
  match r.1 with
  | Except.error err =>
    if NotFound err then ({ obj := none, state := "", err := none }, r.2)
    else ({ obj := none, state := "", err := some err }, r.2)
  | Except.ok eventDataStore =>
    ({ obj := some eventDataStore, state := StringValue eventDataStore.Status, err := none }, r.2)

/-- The wait engine `StateChangeConf.WaitForStateContext` of the plugin SDK (not
among the sources), passed in: given the configuration and the refresh function
it returns the error of the wait. -/
abbrev Engine := StateChangeConf → (World → StatusResult × World) → World → Option Err × World

/-- The call `stateConf.WaitForStateContext(ctx)`: the start of the wait is
recorded in the trace and the engine runs. -/
def WaitForStateContext (engine : Engine) (conf : StateChangeConf)
    (refresh : World → StatusResult × World) (w : World) : Option Err × World :=
  engine conf refresh { trace := w.trace ++ [Call.WaitForStateContext conf] }

/-- The function `waitEventDataStoreAvailable`. -/
def waitEventDataStoreAvailable (engine : Engine) (env : Env) (arn : String) (timeout : Nat)
    (w : World) : Option Err × World :=
  WaitForStateContext engine
    { Pending := [EventDataStoreStatusCreated],
      Target := [EventDataStoreStatusEnabled],
      Timeout := timeout }
    (statusEventDataStore env arn) w

/-- The function `waitEventDataStoreDeleted`. -/
def waitEventDataStoreDeleted (engine : Engine) (env : Env) (arn : String) (timeout : Nat)
    (w : World) : Option Err × World :=
  WaitForStateContext engine
    { Pending := [EventDataStoreStatusCreated, EventDataStoreStatusEnabled],
      Target := [],
      Timeout := timeout }
    (statusEventDataStore env arn) w

/-! ## Read, Update, Delete -/

/-- The function `resourceEventDataStoreRead`; `rest` stands for lines 235-263
(the attributes written back and the tags), which run only when the store was
found. -/
def resourceEventDataStoreRead (env : Env)
    (rest : GetEventDataStoreOutput → ResourceData → World →
      List Diagnostic × ResourceData × World)
    (d : ResourceData) (w : World) : List Diagnostic × ResourceData × World :=
  let r := FindEventDataStoreByARN env d.Id w
  match r.1 with
  | Except.error err =>
    if !d.IsNewResource && NotFound err then ([], d.SetId "", r.2)
    else
      ([{ text := "reading CloudTrail Event Data Store (" ++ d.Id ++ "): ", cause := err }],
        d, r.2)
  | Except.ok eventDataStore => rest eventDataStore d r.2

/-- Lines 270-296: the update request; `expand` stands for
`expandAdvancedEventSelector` (not among the sources). -/
def updateEventDataStoreInput
    (expand : List AdvancedEventSelectorConfig → List AdvancedEventSelector)
    (d : ResourceData) : UpdateEventDataStoreInput :=
  { EventDataStore := some d.Id,
    AdvancedEventSelectors :=
      if d.HasChange "advanced_event_selector" then
        some (expand d.config.advanced_event_selector)
      else none,
    MultiRegionEnabled :=
      if d.HasChange "multi_region_enabled" then some d.config.multi_region_enabled else none,
    Name := if d.HasChange "name" then some d.config.name else none,
    OrganizationEnabled :=
      if d.HasChange "organization_enabled" then some d.config.organization_enabled else none,
    RetentionPeriod :=
      if d.HasChange "retention_period" then some d.config.retention_period else none,
    TerminationProtectionEnabled :=
      if d.HasChange "termination_protection_enabled" then
        some d.config.termination_protection_enabled
      else none }

/-- Lines 309-317: the tags step and the final Read; `read` stands for
`resourceEventDataStoreRead`. -/
def updateTagsAndRead (env : Env)
    (read : ResourceData → World → List Diagnostic × ResourceData × World)
    (d : ResourceData) (w : World) : List Diagnostic × ResourceData × World :=
  if d.HasChange "tags_all" then
    let t := UpdateTags env d.Id d.state.tags_all d.config.tags_all w
    match t.1 with
    | some err =>
      ([{ text := "updating CloudTrail Event Data Store (" ++ d.Id ++ ") tags: ", cause := err }],
        d, t.2)
    | none => read d t.2
  else read d w

/-- Lines 304-317: the wait after an accepted update request, then the tags step
and Read. -/
def updateAfterCall (engine : Engine) (env : Env)
    (read : ResourceData → World → List Diagnostic × ResourceData × World)
    (d : ResourceData) (w : World) : List Diagnostic × ResourceData × World :=
  let s := waitEventDataStoreAvailable engine env d.Id d.timeoutUpdate w
  match s.1 with
  | some err =>
    ([{ text := "waiting for CloudTrail Event Data Store (" ++ d.Id ++ ") update: ",
        cause := err }], d, s.2)
  | none => updateTagsAndRead env read d s.2

/-- The function `resourceEventDataStoreUpdate`. -/
def resourceEventDataStoreUpdate (engine : Engine) (env : Env)
    (expand : List AdvancedEventSelectorConfig → List AdvancedEventSelector)
    (read : ResourceData → World → List Diagnostic × ResourceData × World)
    (d : ResourceData) (w : World) : List Diagnostic × ResourceData × World :=
  if d.HasChangesExcept ["tags", "tags_all"] then
    let u := UpdateEventDataStore env (updateEventDataStoreInput expand d) w
    match u.1 with
    | some err =>
      ([{ text := "updating CloudTrail Event Data Store (" ++ d.Id ++ "): ",
          cause := Err.client err }], d, u.2)
    | none => updateAfterCall engine env read d u.2
  else updateTagsAndRead env read d w

/-- The function `resourceEventDataStoreDelete`. -/
def resourceEventDataStoreDelete (engine : Engine) (env : Env) (d : ResourceData) (w : World) :
    List Diagnostic × World :=
  let r := DeleteEventDataStore env { EventDataStore := some d.Id } w
  match r.1 with
  | some err =>
    if ErrCodeEquals err ErrCodeEventDataStoreNotFoundException then ([], r.2)
    else
      ([{ text := "deleting CloudTrail Event Data Store (" ++ d.Id ++ "): ",
          cause := Err.client err }], r.2)
  | none =>
    let s := waitEventDataStoreDeleted engine env d.Id d.timeoutDelete r.2
    match s.1 with
    | some err =>
      ([{ text := "waiting for CloudTrail Event Data Store (" ++ d.Id ++ ") delete: ",
          cause := err }], s.2)
    | none => ([], s.2)

/-! ## Sample inputs -/

/-- The attributes of a store with default settings. -/
def storeAttributes : Attributes :=
  { advanced_event_selector := [],
    arn := "arn:aws:cloudtrail:eu-west-1:123456789012:eventdatastore/e1",
    kms_key_id := "", multi_region_enabled := true, name := "store",
    organization_enabled := false, retention_period := 2555, tags := [], tags_all := [],
    termination_protection_enabled := true }

/-- Resource data of an existing store without changes. -/
def existingStore : ResourceData :=
  { Id := "arn:aws:cloudtrail:eu-west-1:123456789012:eventdatastore/e1", IsNewResource := false,
    state := storeAttributes, config := storeAttributes }

/-- Resource data of the same store right after its creation. -/
def newStore : ResourceData :=
  { existingStore with IsNewResource := true }

/-- Resource data of an update that changes `tags` and `tags_all` only. -/
def tagsOnlyUpdate : ResourceData :=
  { existingStore with
    config := { storeAttributes with tags := [("team", "audit")], tags_all := [("team", "audit")] } }

/-- Resource data of an update that changes `retention_period` only. -/
def retentionUpdate : ResourceData :=
  { existingStore with config := { storeAttributes with retention_period := 90 } }

/-- A control plane that accepts every call and shows the store ENABLED. -/
def storeAcceptingEnv : Env :=
  { getEventDataStore := fun _ =>
      Except.ok
        { AdvancedEventSelectors := [], EventDataStoreArn := some existingStore.Id,
          KmsKeyId := none, MultiRegionEnabled := some true, Name := some "store",
          OrganizationEnabled := some false, RetentionPeriod := some 2555,
          Status := some "ENABLED", TerminationProtectionEnabled := some true },
    updateEventDataStore := fun _ => none,
    deleteEventDataStore := fun _ => none,
    updateTags := fun _ => none }

/-- A Read that changes nothing. -/
def storeReadNothing (d : ResourceData) (w : World) : List Diagnostic × ResourceData × World :=
  ([], d, w)

/-- An `expandAdvancedEventSelector` that keeps the names only. -/
def expandNames (l : List AdvancedEventSelectorConfig) : List AdvancedEventSelector :=
  l.map fun s => { FieldSelectors := [], Name := some s.name }

/-- A control plane on which the store is gone: every call answers
`EventDataStoreNotFoundException`. -/
def storeGoneEnv : Env :=
  { getEventDataStore := fun _ =>
      Except.error (ClientError.aws "EventDataStoreNotFoundException" "not found"),
    updateEventDataStore := fun _ =>
      some (ClientError.aws "EventDataStoreNotFoundException" "not found"),
    deleteEventDataStore := fun _ =>
      some (ClientError.aws "EventDataStoreNotFoundException" "not found"),
    updateTags := fun _ => none }

/-- A remainder of Read that changes nothing. -/
def storeRestNothing (_o : GetEventDataStoreOutput) (d : ResourceData) (w : World) :
    List Diagnostic × ResourceData × World :=
  ([], d, w)

/-- A wait engine that returns at once without error. -/
def engineNothing : Engine := fun _ _ w => (none, w)

/-- The store as `GetEventDataStore` shows it while it waits for its deletion. -/
def pendingDeletionStore : GetEventDataStoreOutput :=
  { AdvancedEventSelectors := [], EventDataStoreArn := some existingStore.Id,
    KmsKeyId := none, MultiRegionEnabled := some true, Name := some "store",
    OrganizationEnabled := some false, RetentionPeriod := some 2555,
    Status := some "PENDING_DELETION", TerminationProtectionEnabled := some false }

/-- A control plane on which the store is pending deletion. -/
def storePendingDeletionEnv : Env :=
  { getEventDataStore := fun _ => Except.ok pendingDeletionStore,
    updateEventDataStore := fun _ => none,
    deleteEventDataStore := fun _ => none,
    updateTags := fun _ => none }

end CloudTrail

/-! # SSM maintenance window

A shallow embedding of `internal/service/ssm/maintenance_window.go`, Create,
Update and Delete. -/

namespace SSM

open EMR (ClientError StringValue)

/-- One error diagnostic built by `sdkdiag.AppendErrorf(diags, format, ..., err)`:
the formatted text in front of the error, and the error. -/
structure Diagnostic where
  text : String
  cause : ClientError
  deriving DecidableEq, Repr

structure UpdateMaintenanceWindowInput where
  AllowUnassociatedTargets : Option Bool
  Cutoff : Option Int
  Description : Option String
  Duration : Option Int
  Enabled : Option Bool
  EndDate : Option String
  Name : Option String
  Replace : Option Bool
  Schedule : Option String
  ScheduleOffset : Option Int
  ScheduleTimezone : Option String
  StartDate : Option String
  WindowId : Option String
  deriving DecidableEq, Repr

structure DeleteMaintenanceWindowInput where
  WindowId : Option String
  deriving DecidableEq, Repr

/-- The attributes of the schema (lines 38-88). -/
structure Attributes where
  allow_unassociated_targets : Bool
  cutoff : Int
  description : String
  duration : Int
  enabled : Bool
  end_date : String
  name : String
  schedule : String
  schedule_offset : Int
  schedule_timezone : String
  start_date : String
  tags : List (String × String)
  tags_all : List (String × String)
  deriving DecidableEq, Repr

/-- The part of `*schema.ResourceData` the code uses: the identity and the
attributes in the prior state and in the desired configuration. -/
structure ResourceData where
  Id : String
  state : Attributes
  config : Attributes
  deriving DecidableEq, Repr

/-- The method `d.HasChange(key)`: the attribute differs between state and
configuration. -/
def ResourceData.HasChange (d : ResourceData) (key : String) : Bool :=
  match key with
  | "allow_unassociated_targets" =>
    decide (d.state.allow_unassociated_targets ≠ d.config.allow_unassociated_targets)
  | "cutoff" => decide (d.state.cutoff ≠ d.config.cutoff)
  | "description" => decide (d.state.description ≠ d.config.description)
  | "duration" => decide (d.state.duration ≠ d.config.duration)
  | "enabled" => decide (d.state.enabled ≠ d.config.enabled)
  | "end_date" => decide (d.state.end_date ≠ d.config.end_date)
  | "name" => decide (d.state.name ≠ d.config.name)
  | "schedule" => decide (d.state.schedule ≠ d.config.schedule)
  | "schedule_offset" => decide (d.state.schedule_offset ≠ d.config.schedule_offset)
  | "schedule_timezone" => decide (d.state.schedule_timezone ≠ d.config.schedule_timezone)
  | "start_date" => decide (d.state.start_date ≠ d.config.start_date)
  | "tags" => decide (d.state.tags ≠ d.config.tags)
  | "tags_all" => decide (d.state.tags_all ≠ d.config.tags_all)
  | _ => false

/-- The keys of the schema (lines 38-88). -/
def windowSchemaKeys : List String :=
  ["allow_unassociated_targets", "cutoff", "description", "duration", "enabled", "end_date",
    "name", "schedule", "schedule_offset", "schedule_timezone", "start_date", "tags", "tags_all"]

/-- The method `d.HasChangesExcept(keys...)` of the plugin SDK: some attribute of
the schema other than the listed ones has a change. -/
def ResourceData.HasChangesExcept (d : ResourceData) (except : List String) : Bool :=
  windowSchemaKeys.any fun k => !(except.contains k) && d.HasChange k

/-- The method `d.GetOk` on a string attribute: the value when it is not the zero
value. -/
def GetOkString (v : String) : Option String :=
  if v = "" then none else some v

/-- The method `d.GetOk` on an integer attribute: the value when it is not the
zero value. -/
def GetOkInt (v : Int) : Option Int :=
  if v = 0 then none else some v

structure CreateMaintenanceWindowInput where
  AllowUnassociatedTargets : Option Bool
  Cutoff : Option Int
  Description : Option String
  Duration : Option Int
  EndDate : Option String
  Name : Option String
  Schedule : Option String
  ScheduleOffset : Option Int
  ScheduleTimezone : Option String
  StartDate : Option String
  Tags : List (String × String)
  deriving DecidableEq, Repr

structure CreateMaintenanceWindowOutput where
  WindowId : Option String
  deriving DecidableEq, Repr

/-- One remote call, as recorded in the trace. -/
inductive Call where
  | UpdateMaintenanceWindow (input : UpdateMaintenanceWindowInput)
  | DeleteMaintenanceWindow (input : DeleteMaintenanceWindowInput)
  | CreateMaintenanceWindow (input : CreateMaintenanceWindowInput)
  deriving DecidableEq, Repr

/-- Whether a call is an `UpdateMaintenanceWindow` call. -/
def Call.isUpdateMaintenanceWindow : Call → Bool
  | Call.UpdateMaintenanceWindow _ => true
  | _ => false

/-- Whether a call is a `DeleteMaintenanceWindow` call. -/
def Call.isDeleteMaintenanceWindow : Call → Bool
  | Call.DeleteMaintenanceWindow _ => true
  | _ => false

/-- The script of the remote control plane: the answer to the `k`-th call of each
kind (counted from 0). -/
structure Env where
  updateMaintenanceWindow : Nat → Option ClientError
  deleteMaintenanceWindow : Nat → Option ClientError
  createMaintenanceWindow : Nat → Except ClientError CreateMaintenanceWindowOutput :=
    fun _ => Except.ok { WindowId := none }

/-- The calls issued so far, oldest first. -/
structure World where
  trace : List Call
  deriving DecidableEq, Repr

/-- The call `conn.UpdateMaintenanceWindowWithContext(ctx, input)`; only the error
is used. -/
def UpdateMaintenanceWindow (env : Env) (input : UpdateMaintenanceWindowInput) (w : World) :
    Option ClientError × World :=
  (env.updateMaintenanceWindow (w.trace.countP Call.isUpdateMaintenanceWindow),
    { trace := w.trace ++ [Call.UpdateMaintenanceWindow input] })

/-- The call `conn.DeleteMaintenanceWindowWithContext(ctx, input)`; only the error
is used. -/
def DeleteMaintenanceWindow (env : Env) (input : DeleteMaintenanceWindowInput) (w : World) :
    Option ClientError × World :=
  (env.deleteMaintenanceWindow (w.trace.countP Call.isDeleteMaintenanceWindow),
    { trace := w.trace ++ [Call.DeleteMaintenanceWindow input] })

/-- Lines 190-219: the update request. -/
def updateMaintenanceWindowInput (d : ResourceData) : UpdateMaintenanceWindowInput :=
  { AllowUnassociatedTargets := some d.config.allow_unassociated_targets,
    Cutoff := some d.config.cutoff,
    Duration := some d.config.duration,
    Enabled := some d.config.enabled,
    Name := some d.config.name,
    Replace := some true,
    Schedule := some d.config.schedule,
    WindowId := some d.Id,
    Description := GetOkString d.config.description,
    EndDate := GetOkString d.config.end_date,
    ScheduleOffset := GetOkInt d.config.schedule_offset,
    ScheduleTimezone := GetOkString d.config.schedule_timezone,
    StartDate := GetOkString d.config.start_date }

/-- The function `resourceMaintenanceWindowUpdate`; `read` stands for
`resourceMaintenanceWindowRead`, whose diagnostics are appended. -/
def resourceMaintenanceWindowUpdate (env : Env)
    (read : ResourceData → World → List Diagnostic × ResourceData × World)
    (d : ResourceData) (w : World) : List Diagnostic × ResourceData × World :=
  if d.HasChangesExcept ["tags", "tags_all"] then
    let u := UpdateMaintenanceWindow env (updateMaintenanceWindowInput d) w
    match u.1 with
    | some err =>
      ([{ text := "updating SSM Maintenance Window (" ++ d.Id ++ "): ", cause := err }], d, u.2)
    | none => read d u.2
  else read d w

/-- The function `resourceMaintenanceWindowDelete`. -/
def resourceMaintenanceWindowDelete (env : Env) (d : ResourceData) (w : World) :
    List Diagnostic × World :=
  let r := DeleteMaintenanceWindow env { WindowId := some d.Id } w
  match r.1 with
  | some err =>
    ([{ text := "deleting SSM Maintenance Window (" ++ d.Id ++ "): ", cause := err }], r.2)
  | none => ([], r.2)

/-! ## Create (lines 94-150) -/

/-- Whether a call is a `CreateMaintenanceWindow` call. -/
def Call.isCreateMaintenanceWindow : Call → Bool
  | Call.CreateMaintenanceWindow _ => true
  | _ => false

/-- The call `conn.CreateMaintenanceWindowWithContext(ctx, input)`. -/
def CreateMaintenanceWindow (env : Env) (input : CreateMaintenanceWindowInput) (w : World) :
    Except ClientError CreateMaintenanceWindowOutput × World :=
  (env.createMaintenanceWindow (w.trace.countP Call.isCreateMaintenanceWindow),
    { trace := w.trace ++ [Call.CreateMaintenanceWindow input] })

/-- Lines 99-126: the create request; `tagsIn` stands for `getTagsIn(ctx)`. -/
def createMaintenanceWindowInput (tagsIn : List (String × String)) (d : ResourceData) :
    CreateMaintenanceWindowInput :=
  { AllowUnassociatedTargets := some d.config.allow_unassociated_targets,
    Cutoff := some d.config.cutoff,
    Duration := some d.config.duration,
    Name := some d.config.name,
    Schedule := some d.config.schedule,
    Tags := tagsIn,
    Description := GetOkString d.config.description,
    EndDate := GetOkString d.config.end_date,
    ScheduleOffset := GetOkInt d.config.schedule_offset,
    ScheduleTimezone := GetOkString d.config.schedule_timezone,
    StartDate := GetOkString d.config.start_date }

/-- Lines 137-140: the request that disables the window `id`; every other field
is left nil. -/
def disableMaintenanceWindowInput (id : String) : UpdateMaintenanceWindowInput :=
  { AllowUnassociatedTargets := none, Cutoff := none, Description := none, Duration := none,
    Enabled := some false, EndDate := none, Name := none, Replace := none, Schedule := none,
    ScheduleOffset := none, ScheduleTimezone := none, StartDate := none, WindowId := some id }

/-- The function `resourceMaintenanceWindowCreate`; `tagsIn` stands for
`getTagsIn(ctx)` and `read` for `resourceMaintenanceWindowRead`, whose
diagnostics are appended. -/
def resourceMaintenanceWindowCreate (env : Env) (tagsIn : List (String × String))
    (read : ResourceData → World → List Diagnostic × ResourceData × World)
    (d : ResourceData) (w : World) : List Diagnostic × ResourceData × World :=
  let name := d.config.name
  let c := CreateMaintenanceWindow env (createMaintenanceWindowInput tagsIn d) w
  match c.1 with
  | Except.error err =>
    ([{ text := "creating SSM Maintenance Window (" ++ name ++ "): ", cause := err }], d, c.2)
  | Except.ok output =>
    let d1 := { d with Id := StringValue output.WindowId }
    if !d1.config.enabled then
      let u := UpdateMaintenanceWindow env (disableMaintenanceWindowInput d1.Id) c.2
      match u.1 with
      | some err =>
        ([{ text := "disabling SSM Maintenance Window (" ++ d1.Id ++ "): ", cause := err }],
          d1, u.2)
      | none => read d1 u.2
    else read d1 c.2

/-! ## Sample inputs -/

/-- The attributes of a weekly window. -/
def windowAttributes : Attributes :=
  { allow_unassociated_targets := false, cutoff := 1, description := "", duration := 3,
    enabled := true, end_date := "", name := "weekly", schedule := "cron(0 16 ? * TUE *)",
    schedule_offset := 0, schedule_timezone := "", start_date := "", tags := [], tags_all := [] }

/-- Resource data of an update that changes `cutoff` from 1 to 2 and nothing
else. -/
def cutoffUpdate : ResourceData :=
  { Id := "mw-0c50858d01EXAMPLE", state := windowAttributes,
    config := { windowAttributes with cutoff := 2 } }

/-- A control plane on which the window is gone: `DeleteMaintenanceWindow` answers
`DoesNotExistException`. -/
def windowGoneEnv : Env :=
  { updateMaintenanceWindow := fun _ => none,
    deleteMaintenanceWindow := fun _ =>
      some (ClientError.aws "DoesNotExistException" "Maintenance window does not exist") }

/-- A control plane that accepts every call. -/
def windowAcceptingEnv : Env :=
  { updateMaintenanceWindow := fun _ => none, deleteMaintenanceWindow := fun _ => none }

/-- A Read that changes nothing. -/
def windowReadNothing (d : ResourceData) (w : World) : List Diagnostic × ResourceData × World :=
  ([], d, w)

/-- Resource data of a window that is to be created disabled. -/
def disabledWindow : ResourceData :=
  { Id := "", state := windowAttributes, config := { windowAttributes with enabled := false } }

/-- A control plane that creates the window "mw-0c50858d01EXAMPLE" and refuses
every `UpdateMaintenanceWindow` call. -/
def windowCreatedEnv : Env :=
  { updateMaintenanceWindow := fun _ => some (ClientError.aws "InternalServerError" "try again"),
    deleteMaintenanceWindow := fun _ => none,
    createMaintenanceWindow := fun _ => Except.ok { WindowId := some "mw-0c50858d01EXAMPLE" } }

end SSM

namespace EMR

/-! ## Counting calls in a trace -/

theorem runJobFlowCount_append (t u : List Call) :
    runJobFlowCount (t ++ u) = runJobFlowCount t + runJobFlowCount u := by
  induction t with
  | nil => simp [runJobFlowCount]
  | cons c t ih => cases c <;> simp [runJobFlowCount, ih]; omega

theorem describeClusterCount_append (t u : List Call) :
    describeClusterCount (t ++ u) = describeClusterCount t + describeClusterCount u := by
  induction t with
  | nil => simp [describeClusterCount]
  | cons c t ih => cases c <;> simp [describeClusterCount, ih]; omega

theorem waitForStateCount_append (t u : List Call) :
    waitForStateCount (t ++ u) = waitForStateCount t + waitForStateCount u := by
  induction t with
  | nil => simp [waitForStateCount]
  | cons c t ih => cases c <;> simp [waitForStateCount, ih]; omega

theorem runJobFlowCount_replicate (n : Nat) (p : RunJobFlowInput) :
    runJobFlowCount (List.replicate n (Call.RunJobFlow p)) = n := by
  induction n with
  | zero => rfl
  | succ n ih => simp [List.replicate_succ, runJobFlowCount, ih]

theorem describeClusterCount_replicate (n : Nat) (p : DescribeClusterInput) :
    describeClusterCount (List.replicate n (Call.DescribeCluster p)) = n := by
  induction n with
  | zero => rfl
  | succ n ih => simp [List.replicate_succ, describeClusterCount, ih]

/-! ## Time lines -/

theorem attemptStart_lower (env : Env) (k c t : Nat) :
    t + k * retryMinDelay ≤ attemptStart env c t k := by
  induction k generalizing c t with
  | zero => simp [attemptStart]
  | succ k ih =>
    have h := ih (c + 1) (t + env.runJobFlowLatency c + retryMinDelay)
    simp only [attemptStart]
    have e : t + (k + 1) * retryMinDelay = t + retryMinDelay + k * retryMinDelay := by ring
    omega

theorem pollStart_lower (env : Env) (interval k c t : Nat) :
    t + k * interval ≤ pollStart env interval c t k := by
  induction k generalizing c t with
  | zero => simp [pollStart]
  | succ k ih =>
    have h := ih (c + 1) (t + env.describeClusterLatency c + interval)
    simp only [pollStart]
    have e : t + (k + 1) * interval = t + interval + k * interval := by ring
    omega

/-! ## The retry loop around `RunJobFlow` -/

theorem runJobFlowAttempt_retryable (env : Env) (params : RunJobFlowInput)
    (resp : Option RunJobFlowOutput) (w : World) (e : ClientError)
    (he : env.runJobFlow (runJobFlowCount w.trace) = Except.error e)
    (hre : isAWSErr e "ValidationException" "Invalid InstanceProfile:" = true ∨
      isAWSErr e "AccessDeniedException" "Failed to authorize instance profile" = true) :
    runJobFlowAttempt env params resp w
      = (some (RetryError.RetryableError (GoError.client e)), none,
          { now := w.now + env.runJobFlowLatency (runJobFlowCount w.trace),
            trace := w.trace ++ [Call.RunJobFlow params] }) := by
  unfold runJobFlowAttempt RunJobFlow
  simp only [he]
  by_cases h1 : isAWSErr e "ValidationException" "Invalid InstanceProfile:" = true
  · simp [h1]
  · have h2 : isAWSErr e "AccessDeniedException" "Failed to authorize instance profile" = true := by
      rcases hre with h | h
      · exact absurd h h1
      · exact h
    simp [h1, h2]

theorem runJobFlowAttempt_fatal (env : Env) (params : RunJobFlowInput)
    (resp : Option RunJobFlowOutput) (w : World) (e : ClientError)
    (he : env.runJobFlow (runJobFlowCount w.trace) = Except.error e)
    (h1 : isAWSErr e "ValidationException" "Invalid InstanceProfile:" = false)
    (h2 : isAWSErr e "AccessDeniedException" "Failed to authorize instance profile" = false) :
    runJobFlowAttempt env params resp w
      = (some (RetryError.NonRetryableError (GoError.client e)), none,
          { now := w.now + env.runJobFlowLatency (runJobFlowCount w.trace),
            trace := w.trace ++ [Call.RunJobFlow params] }) := by
  unfold runJobFlowAttempt RunJobFlow
  simp [he, h1, h2]

theorem runJobFlowAttempt_ok (env : Env) (params : RunJobFlowInput)
    (resp : Option RunJobFlowOutput) (w : World) (out : RunJobFlowOutput)
    (hok : env.runJobFlow (runJobFlowCount w.trace) = Except.ok out) :
    runJobFlowAttempt env params resp w
      = (none, some out,
          { now := w.now + env.runJobFlowLatency (runJobFlowCount w.trace),
            trace := w.trace ++ [Call.RunJobFlow params] }) := by
  unfold runJobFlowAttempt RunJobFlow
  simp [hok]

/-- Retryable failures followed by a success: the loop makes one attempt per
failure and one more, and returns the successful response. -/
theorem retryLoop_success (env : Env) (params : RunJobFlowInput) (deadline : Nat)
    (out : RunJobFlowOutput) (k : Nat) :
    ∀ (fuel : Nat) (resp : Option RunJobFlowOutput) (w : World),
      k < fuel →
      (∀ i, i < k → ∃ e, env.runJobFlow (runJobFlowCount w.trace + i) = Except.error e ∧
        (isAWSErr e "ValidationException" "Invalid InstanceProfile:" = true ∨
          isAWSErr e "AccessDeniedException" "Failed to authorize instance profile" = true)) →
      env.runJobFlow (runJobFlowCount w.trace + k) = Except.ok out →
      attemptStart env (runJobFlowCount w.trace) w.now k < deadline →
      retryLoop (runJobFlowAttempt env params) deadline fuel resp w
        = (none, some out,
            { now := attemptStart env (runJobFlowCount w.trace) w.now k
                + env.runJobFlowLatency (runJobFlowCount w.trace + k),
              trace := w.trace ++ List.replicate (k + 1) (Call.RunJobFlow params) }) := by
  induction k with
  | zero =>
    intro fuel resp w hf _ hok _
    obtain ⟨fuel, rfl⟩ : ∃ f, fuel = f + 1 := ⟨fuel - 1, by omega⟩
    simp only [Nat.add_zero] at hok
    simp [retryLoop, runJobFlowAttempt_ok env params resp w out hok, attemptStart]
  | succ k ih =>
    intro fuel resp w hf hfail hok ht
    obtain ⟨fuel, rfl⟩ : ∃ f, fuel = f + 1 := ⟨fuel - 1, by omega⟩
    obtain ⟨e, he, hre⟩ := hfail 0 (by omega)
    simp only [Nat.add_zero] at he
    have hlow := attemptStart_lower env k (runJobFlowCount w.trace + 1)
      (w.now + env.runJobFlowLatency (runJobFlowCount w.trace) + retryMinDelay)
    simp only [attemptStart] at ht
    have hmin : min retryMinDelay (deadline - (w.now + env.runJobFlowLatency (runJobFlowCount w.trace)))
        = retryMinDelay := by omega
    have hnot : ¬ deadline ≤ w.now + env.runJobFlowLatency (runJobFlowCount w.trace) + retryMinDelay := by
      omega
    have hcount : runJobFlowCount (w.trace ++ [Call.RunJobFlow params]) = runJobFlowCount w.trace + 1 := by
      simp [runJobFlowCount_append, runJobFlowCount]
    have hstep := ih fuel none
      { now := w.now + env.runJobFlowLatency (runJobFlowCount w.trace) + retryMinDelay,
        trace := w.trace ++ [Call.RunJobFlow params] } (by omega)
      (by
        intro i hi
        obtain ⟨e2, he2, hr2⟩ := hfail (i + 1) (by omega)
        refine ⟨e2, ?_, hr2⟩
        rw [hcount]
        rw [← he2]
        congr 1
        omega)
      (by
        rw [hcount, ← hok]
        congr 1
        omega)
      (by
        rw [hcount]
        exact ht)
    have hidx : runJobFlowCount w.trace + 1 + k = runJobFlowCount w.trace + (k + 1) := by omega
    rw [hcount, hidx] at hstep
    simp only [retryLoop, runJobFlowAttempt_retryable env params resp w e he hre, sleep, hmin, hnot,
      if_false]
    rw [hstep]
    simp [List.replicate_succ, attemptStart]

/-- Retryable failures until the budget is used up: the loop makes one attempt
per failure and ends with the timeout error. -/
theorem retryLoop_timeout (env : Env) (params : RunJobFlowInput) (deadline : Nat) (k : Nat) :
    ∀ (fuel : Nat) (resp : Option RunJobFlowOutput) (w : World),
      k < fuel →
      (∀ i, i ≤ k → ∃ e, env.runJobFlow (runJobFlowCount w.trace + i) = Except.error e ∧
        (isAWSErr e "ValidationException" "Invalid InstanceProfile:" = true ∨
          isAWSErr e "AccessDeniedException" "Failed to authorize instance profile" = true)) →
      attemptStart env (runJobFlowCount w.trace) w.now k < deadline →
      deadline ≤ attemptStart env (runJobFlowCount w.trace) w.now (k + 1) →
      ∃ w1, retryLoop (runJobFlowAttempt env params) deadline fuel resp w
          = (some (GoError.timeoutError ""), none, w1) ∧
        w1.trace = w.trace ++ List.replicate (k + 1) (Call.RunJobFlow params) := by
  induction k with
  | zero =>
    intro fuel resp w hf hfail _ hd
    obtain ⟨fuel, rfl⟩ : ∃ f, fuel = f + 1 := ⟨fuel - 1, by omega⟩
    obtain ⟨e, he, hre⟩ := hfail 0 (by omega)
    simp only [Nat.add_zero] at he
    simp only [attemptStart] at hd
    have hyes : deadline ≤ w.now + env.runJobFlowLatency (runJobFlowCount w.trace)
        + min retryMinDelay (deadline - (w.now + env.runJobFlowLatency (runJobFlowCount w.trace))) := by
      omega
    refine ⟨sleep
      (min retryMinDelay (deadline - (w.now + env.runJobFlowLatency (runJobFlowCount w.trace))))
      (RunJobFlow env params w).2, ?_, ?_⟩
    · simp only [retryLoop, runJobFlowAttempt_retryable env params resp w e he hre, sleep, hyes,
        if_true, RunJobFlow]
    · simp [sleep, RunJobFlow]
  | succ k ih =>
    intro fuel resp w hf hfail ht hd
    obtain ⟨fuel, rfl⟩ : ∃ f, fuel = f + 1 := ⟨fuel - 1, by omega⟩
    obtain ⟨e, he, hre⟩ := hfail 0 (by omega)
    simp only [Nat.add_zero] at he
    have hlow := attemptStart_lower env k (runJobFlowCount w.trace + 1)
      (w.now + env.runJobFlowLatency (runJobFlowCount w.trace) + retryMinDelay)
    rw [attemptStart] at ht
    rw [attemptStart] at hd
    have hmin : min retryMinDelay (deadline - (w.now + env.runJobFlowLatency (runJobFlowCount w.trace)))
        = retryMinDelay := by omega
    have hnot : ¬ deadline ≤ w.now + env.runJobFlowLatency (runJobFlowCount w.trace) + retryMinDelay := by
      omega
    have hcount : runJobFlowCount (w.trace ++ [Call.RunJobFlow params]) = runJobFlowCount w.trace + 1 := by
      simp [runJobFlowCount_append, runJobFlowCount]
    obtain ⟨w1, hw1, htr⟩ := ih fuel none
      { now := w.now + env.runJobFlowLatency (runJobFlowCount w.trace) + retryMinDelay,
        trace := w.trace ++ [Call.RunJobFlow params] } (by omega)
      (by
        intro i hi
        obtain ⟨e2, he2, hr2⟩ := hfail (i + 1) (by omega)
        refine ⟨e2, ?_, hr2⟩
        rw [hcount]
        rw [← he2]
        congr 1
        omega)
      (by
        rw [hcount]
        exact ht)
      (by
        rw [hcount]
        exact hd)
    refine ⟨w1, ?_, ?_⟩
    · simp only [retryLoop, runJobFlowAttempt_retryable env params resp w e he hre, sleep, hmin, hnot,
        if_false]
      exact hw1
    · rw [htr]
      simp [List.replicate_succ]

/-! ## The refresh function on a cluster that is there -/

theorem refresh_live (env : Env) (d : ResourceData) (w : World) (c : Cluster)
    (st : ClusterStatus)
    (h : env.describeCluster (describeClusterCount w.trace) = Except.ok { Cluster := some c })
    (hst : c.Status = some st)
    (h1 : StringValue st.State ≠ ClusterStateTerminating)
    (h2 : StringValue st.State ≠ ClusterStateTerminatedWithErrors) :
    resourceAwsEMRClusterStateRefreshFunc env d w
      = ({ obj := RefreshObj.cluster c, state := StringValue st.State, err := none },
          { now := w.now + env.describeClusterLatency (describeClusterCount w.trace),
            trace := w.trace ++ [Call.DescribeCluster { ClusterId := some d.Id }] }) := by
  simp [resourceAwsEMRClusterStateRefreshFunc, DescribeCluster, refreshOutcome, h, hst, h1, h2]

theorem create_pending_facts (s : String)
    (h : s = ClusterStateStarting ∨ s = ClusterStateBootstrapping) :
    s ∈ createStateConf.Pending ∧ s ∉ createStateConf.Target ∧
      s ≠ ClusterStateTerminating ∧ s ≠ ClusterStateTerminatedWithErrors := by
  rcases h with h | h <;> subst h <;> decide

theorem create_target_facts (s : String)
    (h : s = ClusterStateRunning ∨ s = ClusterStateWaiting) :
    s ∈ createStateConf.Target ∧
      s ≠ ClusterStateTerminating ∧ s ≠ ClusterStateTerminatedWithErrors := by
  rcases h with h | h <;> subst h <;> decide

/-- Pending observations followed by a target observation inside the budget: the
create wait polls once per observation and returns the cluster last observed. -/
theorem pollUntil_create_reaches (env : Env) (d : ResourceData) (deadline : Nat)
    (c : Cluster) (st : ClusterStatus) (k : Nat) :
    ∀ (fuel : Nat) (last : String) (w : World),
      k < fuel →
      (∀ i, i < k → ∃ ci sti,
        env.describeCluster (describeClusterCount w.trace + i) = Except.ok { Cluster := some ci } ∧
        ci.Status = some sti ∧
        (StringValue sti.State = ClusterStateStarting ∨
          StringValue sti.State = ClusterStateBootstrapping)) →
      env.describeCluster (describeClusterCount w.trace + k) = Except.ok { Cluster := some c } →
      c.Status = some st →
      (StringValue st.State = ClusterStateRunning ∨ StringValue st.State = ClusterStateWaiting) →
      pollStart env createStateConf.MinTimeout (describeClusterCount w.trace) w.now k < deadline →
      pollUntil createStateConf (resourceAwsEMRClusterStateRefreshFunc env d) deadline fuel last w
        = (Except.ok (RefreshObj.cluster c),
            { now := pollStart env createStateConf.MinTimeout (describeClusterCount w.trace) w.now k
                + env.describeClusterLatency (describeClusterCount w.trace + k),
              trace := w.trace
                ++ List.replicate (k + 1) (Call.DescribeCluster { ClusterId := some d.Id }) }) := by
  induction k with
  | zero =>
    intro fuel last w hf _ hok hst htgt _
    obtain ⟨fuel, rfl⟩ : ∃ f, fuel = f + 1 := ⟨fuel - 1, by omega⟩
    simp only [Nat.add_zero] at hok
    obtain ⟨ht1, ht2, ht3⟩ := create_target_facts _ htgt
    simp [pollUntil, refresh_live env d w c st hok hst ht2 ht3, ht1, pollStart]
  | succ k ih =>
    intro fuel last w hf hpend hok hst htgt ht
    obtain ⟨fuel, rfl⟩ : ∃ f, fuel = f + 1 := ⟨fuel - 1, by omega⟩
    obtain ⟨ci, sti, hci, hsti, hp⟩ := hpend 0 (by omega)
    simp only [Nat.add_zero] at hci
    obtain ⟨hp1, hp2, hp3, hp4⟩ := create_pending_facts _ hp
    have hlow := pollStart_lower env createStateConf.MinTimeout k (describeClusterCount w.trace + 1)
      (w.now + env.describeClusterLatency (describeClusterCount w.trace) + createStateConf.MinTimeout)
    rw [pollStart] at ht
    have hmin : min createStateConf.MinTimeout
        (deadline - (w.now + env.describeClusterLatency (describeClusterCount w.trace)))
        = createStateConf.MinTimeout := by omega
    have hnot : ¬ deadline ≤ w.now + env.describeClusterLatency (describeClusterCount w.trace)
        + createStateConf.MinTimeout := by omega
    have hcount : describeClusterCount (w.trace ++ [Call.DescribeCluster { ClusterId := some d.Id }])
        = describeClusterCount w.trace + 1 := by
      simp [describeClusterCount_append, describeClusterCount]
    have hstep := ih fuel (StringValue sti.State)
      { now := w.now + env.describeClusterLatency (describeClusterCount w.trace)
          + createStateConf.MinTimeout,
        trace := w.trace ++ [Call.DescribeCluster { ClusterId := some d.Id }] } (by omega)
      (by
        intro i hi
        obtain ⟨c2, s2, hc2, hs2, hp2⟩ := hpend (i + 1) (by omega)
        refine ⟨c2, s2, ?_, hs2, hp2⟩
        rw [hcount, ← hc2]
        congr 1
        omega)
      (by
        rw [hcount, ← hok]
        congr 1
        omega)
      hst htgt
      (by
        rw [hcount]
        exact ht)
    have hidx : describeClusterCount w.trace + 1 + k = describeClusterCount w.trace + (k + 1) := by
      omega
    rw [hcount, hidx] at hstep
    simp only [pollUntil, refresh_live env d w ci sti hci hsti hp3 hp4, hp1, hp2, sleep, hmin, hnot,
      if_false, if_true]
    rw [hstep]
    simp [List.replicate_succ, pollStart]

/-- The create wait as a whole, for pending observations followed by a target
observation inside the 75 minute budget. -/
theorem createWait_reaches (env : Env) (d : ResourceData) (w : World)
    (c : Cluster) (st : ClusterStatus) (k : Nat)
    (hpend : ∀ i, i < k → ∃ ci sti,
      env.describeCluster (describeClusterCount w.trace + i) = Except.ok { Cluster := some ci } ∧
      ci.Status = some sti ∧
      (StringValue sti.State = ClusterStateStarting ∨
        StringValue sti.State = ClusterStateBootstrapping))
    (hok : env.describeCluster (describeClusterCount w.trace + k) = Except.ok { Cluster := some c })
    (hst : c.Status = some st)
    (htgt : StringValue st.State = ClusterStateRunning ∨ StringValue st.State = ClusterStateWaiting)
    (ht : pollStart env createStateConf.MinTimeout (describeClusterCount w.trace)
      (w.now + createStateConf.Delay) k < w.now + createStateConf.Timeout) :
    WaitForState createStateConf (resourceAwsEMRClusterStateRefreshFunc env d) w
      = (Except.ok (RefreshObj.cluster c),
          { now := pollStart env createStateConf.MinTimeout (describeClusterCount w.trace)
                (w.now + createStateConf.Delay) k
              + env.describeClusterLatency (describeClusterCount w.trace + k),
            trace := w.trace ++ [Call.WaitForState]
              ++ List.replicate (k + 1) (Call.DescribeCluster { ClusterId := some d.Id }) }) := by
  have hlow := pollStart_lower env createStateConf.MinTimeout k (describeClusterCount w.trace)
    (w.now + createStateConf.Delay)
  have hcount : describeClusterCount (w.trace ++ [Call.WaitForState])
      = describeClusterCount w.trace := by
    simp [describeClusterCount_append, describeClusterCount]
  have hk : k < createStateConf.Timeout + 1 := by
    have h1 : createStateConf.MinTimeout = 10000 := rfl
    have h2 : createStateConf.Timeout = 4500000 := rfl
    rw [h1] at hlow ht
    omega
  have h := pollUntil_create_reaches env d (w.now + createStateConf.Timeout) c st k
    (createStateConf.Timeout + 1) ""
    (sleep createStateConf.Delay { w with trace := w.trace ++ [Call.WaitForState] }) hk
    (by simpa [sleep, hcount] using hpend)
    (by simpa [sleep, hcount] using hok) hst htgt
    (by simpa [sleep, hcount] using ht)
  simp only [sleep, hcount] at h
  simp only [WaitForState, sleep]
  exact h

/-! ## The steps after `RunJobFlow` issue no further `RunJobFlow` call -/

theorem refresh_trace (env : Env) (d : ResourceData) (w : World) :
    (resourceAwsEMRClusterStateRefreshFunc env d w).2.trace
      = w.trace ++ [Call.DescribeCluster { ClusterId := some d.Id }] := by
  simp [resourceAwsEMRClusterStateRefreshFunc, DescribeCluster]

theorem pollUntil_runJobFlowCount (env : Env) (d : ResourceData) (conf : StateChangeConf)
    (deadline : Nat) :
    ∀ (fuel : Nat) (last : String) (w : World),
      runJobFlowCount
          (pollUntil conf (resourceAwsEMRClusterStateRefreshFunc env d) deadline fuel last w).2.trace
        = runJobFlowCount w.trace := by
  intro fuel
  induction fuel with
  | zero => intro last w; simp [pollUntil]
  | succ fuel ih =>
    intro last w
    have hr : runJobFlowCount (resourceAwsEMRClusterStateRefreshFunc env d w).2.trace
        = runJobFlowCount w.trace := by
      rw [refresh_trace, runJobFlowCount_append]
      simp [runJobFlowCount]
    simp only [pollUntil]
    split
    · exact hr
    · split
      · exact hr
      · split
        · split
          · simpa [sleep] using hr
          · rw [ih]
            simpa [sleep] using hr
        · exact hr

theorem waitForState_runJobFlowCount (env : Env) (d : ResourceData) (conf : StateChangeConf)
    (w : World) :
    runJobFlowCount (WaitForState conf (resourceAwsEMRClusterStateRefreshFunc env d) w).2.trace
      = runJobFlowCount w.trace := by
  simp only [WaitForState]
  rw [pollUntil_runJobFlowCount]
  simp [sleep, runJobFlowCount_append, runJobFlowCount]

theorem matchTerminationProtection_trace (env : Env) (d : ResourceData) (desired : Bool)
    (cluster : Cluster) (w : World) :
    (matchTerminationProtection env d desired cluster w).2.trace
      = w.trace ++
          (if BoolValue cluster.TerminationProtected = desired then []
           else [Call.SetTerminationProtection
              { JobFlowIds := [some d.Id], TerminationProtected := some desired }]) := by
  unfold matchTerminationProtection
  by_cases h : BoolValue cluster.TerminationProtected = desired
  · simp [h]
  · simp only [bne_iff_ne, ne_eq, h, not_false_eq_true, if_true, if_false, SetTerminationProtection]
    split <;> rfl

theorem createAfterSetId_runJobFlowCount (env : Env)
    (read : ResourceData → World → Option GoError × ResourceData × World)
    (hread : ∀ d w, runJobFlowCount (read d w).2.2.trace = runJobFlowCount w.trace)
    (params : RunJobFlowInput) (desired : Bool) (d1 : ResourceData) (w : World) :
    runJobFlowCount (createAfterSetId env read params desired d1 w).2.2.trace
      = runJobFlowCount w.trace := by
  have hm : ∀ d c w0, runJobFlowCount (matchTerminationProtection env d desired c w0).2.trace
      = runJobFlowCount w0.trace := by
    intro d c w0
    rw [matchTerminationProtection_trace, runJobFlowCount_append]
    split <;> simp [runJobFlowCount]
  simp only [createAfterSetId]
  split
  · exact waitForState_runJobFlowCount env _ _ w
  · split
    · split
      · simp only [hm]
        exact waitForState_runJobFlowCount env _ _ w
      · simp only [hread, hm]
        exact waitForState_runJobFlowCount env _ _ w
    · exact waitForState_runJobFlowCount env _ _ w

/-! ## What a `DescribeCluster` answer shows -/

theorem observedState_some (r : Except ClientError DescribeClusterOutput) (s : String)
    (h : observedState r = some s) :
    ∃ c st, r = Except.ok { Cluster := some c } ∧ c.Status = some st ∧ StringValue st.State = s := by
  unfold observedState at h
  split at h
  · cases h
  · rename_i resp
    cases resp with
    | mk cl =>
      cases cl with
      | none => simp at h
      | some c =>
        cases hs : c.Status with
        | none => simp [hs] at h
        | some st =>
          simp [hs] at h
          exact ⟨c, st, rfl, hs, h⟩

/-! ## State refresh function -/

/-- C1: when `DescribeCluster` signals that the cluster is absent (an AWS error
with code "ClusterNotFound", or a successful response whose `Cluster` is nil),
the refresh function returns the object 42, the status "destroyed" and a nil
error. -/
theorem refresh_absent_is_destroyed (env : Env) (d : ResourceData) (w : World)
    (h : (∃ m, env.describeCluster (describeClusterCount w.trace)
            = Except.error (ClientError.aws "ClusterNotFound" m)) ∨
         env.describeCluster (describeClusterCount w.trace) = Except.ok { Cluster := none }) :
    (resourceAwsEMRClusterStateRefreshFunc env d w).1
      = { obj := RefreshObj.int 42, state := "destroyed", err := none } := by
  rcases h with ⟨m, h⟩ | h <;>
    simp [resourceAwsEMRClusterStateRefreshFunc, DescribeCluster, refreshOutcome, h]

theorem refresh_absent_is_destroyed_witness :
    ((∃ m, (scriptEnv [] 0 [Except.error (ClientError.aws "ClusterNotFound" "no such cluster")]
              []).describeCluster (describeClusterCount startWorld.trace)
            = Except.error (ClientError.aws "ClusterNotFound" m)) ∨
        (scriptEnv [] 0 [Except.error (ClientError.aws "ClusterNotFound" "no such cluster")]
              []).describeCluster (describeClusterCount startWorld.trace)
            = Except.ok { Cluster := none }) ∧
      (resourceAwsEMRClusterStateRefreshFunc
          (scriptEnv [] 0 [Except.error (ClientError.aws "ClusterNotFound" "no such cluster")] [])
          freshData startWorld).1
        = { obj := RefreshObj.int 42, state := "destroyed", err := none } :=
  ⟨Or.inl ⟨"no such cluster", rfl⟩,
    refresh_absent_is_destroyed _ freshData startWorld (Or.inl ⟨"no such cluster", rfl⟩)⟩

/-- C2: when the response carries a cluster whose `Status` is nil, the refresh
function returns the cluster, an empty status and the error "cluster status not
provided"; a wait that polls with it aborts with that error right after this
poll, whatever its configuration, deadline and remaining rounds. -/
theorem refresh_status_missing (env : Env) (d : ResourceData) (w : World) (c : Cluster)
    (h : env.describeCluster (describeClusterCount w.trace) = Except.ok { Cluster := some c })
    (hst : c.Status = none) :
    (resourceAwsEMRClusterStateRefreshFunc env d w).1
        = { obj := RefreshObj.cluster c, state := "",
            err := some (GoError.errorf "cluster status not provided") } ∧
      ∀ (conf : StateChangeConf) (deadline fuel : Nat) (last : String),
        pollUntil conf (resourceAwsEMRClusterStateRefreshFunc env d) deadline (fuel + 1) last w
          = (Except.error (GoError.errorf "cluster status not provided"),
              (DescribeCluster env { ClusterId := some d.Id } w).2) := by
  have hr : (resourceAwsEMRClusterStateRefreshFunc env d w).1
      = { obj := RefreshObj.cluster c, state := "",
          err := some (GoError.errorf "cluster status not provided") } := by
    simp [resourceAwsEMRClusterStateRefreshFunc, DescribeCluster, refreshOutcome, h, hst]
  refine ⟨hr, ?_⟩
  intro conf deadline fuel last
  simp only [pollUntil, hr]
  rfl

theorem refresh_status_missing_witness :
    (scriptEnv [] 0
          [Except.ok { Cluster := some { Status := none, TerminationProtected := none } }]
          []).describeCluster (describeClusterCount startWorld.trace)
        = Except.ok { Cluster := some { Status := none, TerminationProtected := none } } ∧
      (resourceAwsEMRClusterStateRefreshFunc
          (scriptEnv [] 0
            [Except.ok { Cluster := some { Status := none, TerminationProtected := none } }] [])
          freshData startWorld).1
        = { obj := RefreshObj.cluster { Status := none, TerminationProtected := none },
            state := "", err := some (GoError.errorf "cluster status not provided") } :=
  ⟨rfl, (refresh_status_missing _ freshData startWorld
    { Status := none, TerminationProtected := none } rfl rfl).1⟩

/-- C3: when `DescribeCluster` fails with an error that is not an AWS error with
code "ClusterNotFound", the refresh function returns a nil object, an empty
status and that same error. -/
theorem refresh_other_error_propagates (env : Env) (d : ResourceData) (w : World)
    (e : ClientError)
    (h : env.describeCluster (describeClusterCount w.trace) = Except.error e)
    (hnf : ∀ m, e ≠ ClientError.aws "ClusterNotFound" m) :
    (resourceAwsEMRClusterStateRefreshFunc env d w).1
      = { obj := RefreshObj.nil, state := "", err := some (GoError.client e) } := by
  cases e with
  | aws code m =>
    have hc : code ≠ "ClusterNotFound" := by
      intro hc
      exact hnf m (by rw [hc])
    simp [resourceAwsEMRClusterStateRefreshFunc, DescribeCluster, refreshOutcome, h, hc]
  | other t =>
    simp [resourceAwsEMRClusterStateRefreshFunc, DescribeCluster, refreshOutcome, h]

theorem refresh_other_error_propagates_witness :
    (scriptEnv [] 0 [Except.error (ClientError.aws "ThrottlingException" "Rate exceeded")]
          []).describeCluster (describeClusterCount startWorld.trace)
        = Except.error (ClientError.aws "ThrottlingException" "Rate exceeded") ∧
      (∀ m, ClientError.aws "ThrottlingException" "Rate exceeded"
        ≠ ClientError.aws "ClusterNotFound" m) ∧
      (resourceAwsEMRClusterStateRefreshFunc
          (scriptEnv [] 0 [Except.error (ClientError.aws "ThrottlingException" "Rate exceeded")] [])
          freshData startWorld).1
        = { obj := RefreshObj.nil, state := "",
            err := some (GoError.client (ClientError.aws "ThrottlingException" "Rate exceeded")) } :=
  ⟨rfl, fun m => by simp,
    refresh_other_error_propagates _ freshData startWorld
      (ClientError.aws "ThrottlingException" "Rate exceeded") rfl (fun m => by simp)⟩

/-- C4: for a cluster whose status shows TERMINATING or TERMINATED_WITH_ERRORS the
refresh function returns the cluster, that state and an error whose message
starts with the state and contains the reason's code and message when a
`StateChangeReason` is present, and the text "reason code and message not
provided" when it is absent; for every other state it returns the cluster, the
state and a nil error. -/
theorem refresh_terminating_is_error (env : Env) (d : ResourceData) (w : World) (c : Cluster)
    (st : ClusterStatus)
    (h : env.describeCluster (describeClusterCount w.trace) = Except.ok { Cluster := some c })
    (hst : c.Status = some st) :
    ((StringValue st.State = ClusterStateTerminating ∨
        StringValue st.State = ClusterStateTerminatedWithErrors) →
      ∃ msg, (resourceAwsEMRClusterStateRefreshFunc env d w).1
          = { obj := RefreshObj.cluster c, state := StringValue st.State,
              err := some (GoError.errorf msg) } ∧
        (StringValue st.State).data <+: msg.data ∧
        (match st.StateChangeReason with
          | some reason =>
            (StringValue reason.Code).data <:+: msg.data ∧
            (StringValue reason.Message).data <:+: msg.data
          | none => "reason code and message not provided".data <:+: msg.data)) ∧
    (StringValue st.State ≠ ClusterStateTerminating →
      StringValue st.State ≠ ClusterStateTerminatedWithErrors →
      (resourceAwsEMRClusterStateRefreshFunc env d w).1
        = { obj := RefreshObj.cluster c, state := StringValue st.State, err := none }) := by
  constructor
  · intro hs
    cases hr : st.StateChangeReason with
    | none =>
      refine ⟨StringValue st.State ++ ": reason code and message not provided", ?_, ?_, ?_⟩
      · simp [resourceAwsEMRClusterStateRefreshFunc, DescribeCluster, refreshOutcome, h, hst, hs, hr]
      · exact ⟨_, (String.data_append _ _).symm⟩
      · simp only [String.data_append]
        exact ⟨(StringValue st.State).data ++ ": ".data, [], by simp⟩
    | some reason =>
      refine ⟨StringValue st.State ++ ": " ++ StringValue reason.Code ++ ": "
        ++ StringValue reason.Message, ?_, ?_, ?_, ?_⟩
      · simp [resourceAwsEMRClusterStateRefreshFunc, DescribeCluster, refreshOutcome, h, hst, hs, hr]
      · simp only [String.data_append, List.append_assoc]
        exact ⟨_, rfl⟩
      · simp only [String.data_append]
        exact ⟨(StringValue st.State).data ++ ": ".data,
          ": ".data ++ (StringValue reason.Message).data, by simp⟩
      · simp only [String.data_append]
        exact ⟨(StringValue st.State).data ++ ": ".data ++ (StringValue reason.Code).data
          ++ ": ".data, [], by simp⟩
  · intro h1 h2
    simp [resourceAwsEMRClusterStateRefreshFunc, DescribeCluster, refreshOutcome, h, hst, h1, h2]

theorem refresh_terminating_is_error_witness :
    (scriptEnv [] 0 [Except.ok { Cluster := some sampleFailedCluster }] []).describeCluster
        (describeClusterCount startWorld.trace)
        = Except.ok { Cluster := some sampleFailedCluster } ∧
      sampleFailedCluster.Status = some sampleFailedStatus ∧
      ∃ msg, (resourceAwsEMRClusterStateRefreshFunc
            (scriptEnv [] 0 [Except.ok { Cluster := some sampleFailedCluster }] [])
            freshData startWorld).1
          = { obj := RefreshObj.cluster sampleFailedCluster,
              state := StringValue sampleFailedStatus.State,
              err := some (GoError.errorf msg) } ∧
        (StringValue sampleFailedStatus.State).data <+: msg.data ∧
        (match sampleFailedStatus.StateChangeReason with
          | some reason =>
            (StringValue reason.Code).data <:+: msg.data ∧
            (StringValue reason.Message).data <:+: msg.data
          | none => "reason code and message not provided".data <:+: msg.data) :=
  ⟨rfl, rfl,
    (refresh_terminating_is_error
      (scriptEnv [] 0 [Except.ok { Cluster := some sampleFailedCluster }] [])
      freshData startWorld sampleFailedCluster sampleFailedStatus rfl rfl).1 (Or.inr rfl)⟩

/-! ## Create: the retried `RunJobFlow` -/

/-- The retry of `RunJobFlow` under the 30 second budget, for retryable failures
followed by a success inside the budget. -/
theorem retry_runJobFlow_success (env : Env) (params : RunJobFlowInput) (w : World) (k : Nat)
    (out : RunJobFlowOutput)
    (hfail : ∀ i, i < k → ∃ e, env.runJobFlow (runJobFlowCount w.trace + i) = Except.error e ∧
      (isAWSErr e "ValidationException" "Invalid InstanceProfile:" = true ∨
        isAWSErr e "AccessDeniedException" "Failed to authorize instance profile" = true))
    (hok : env.runJobFlow (runJobFlowCount w.trace + k) = Except.ok out)
    (ht : attemptStart env (runJobFlowCount w.trace) w.now k < w.now + 30000) :
    runJobFlowWithRetry env params w
      = (none, some out,
          { now := attemptStart env (runJobFlowCount w.trace) w.now k
              + env.runJobFlowLatency (runJobFlowCount w.trace + k),
            trace := w.trace ++ List.replicate (k + 1) (Call.RunJobFlow params) }) := by
  have hlow := attemptStart_lower env k (runJobFlowCount w.trace) w.now
  have hk : k < 30000 + 1 := by
    have h1 : retryMinDelay = 500 := rfl
    rw [h1] at hlow
    omega
  have h := retryLoop_success env params (w.now + 30000) out k (30000 + 1) none w hk hfail hok ht
  simp only [runJobFlowWithRetry, Retry, h, isResourceTimeoutError]
  simp

/-- C5: if `RunJobFlow` fails `k` times with a retryable error (ValidationException
with "Invalid InstanceProfile:" in the message, or AccessDeniedException with
"Failed to authorize instance profile") and the next attempt, started before the
30 second deadline, succeeds, then exactly `k + 1` attempts are made, the
successful response is the one used, and Create goes on with its `JobFlowId` as
the identity; Create as a whole makes `k + 1` `RunJobFlow` calls. -/
theorem create_retries_until_success (env : Env)
    (read : ResourceData → World → Option GoError × ResourceData × World)
    (params : RunJobFlowInput) (d : ResourceData) (w : World) (k : Nat)
    (out : RunJobFlowOutput) (id : String)
    (hfail : ∀ i, i < k → ∃ e, env.runJobFlow (runJobFlowCount w.trace + i) = Except.error e ∧
      (isAWSErr e "ValidationException" "Invalid InstanceProfile:" = true ∨
        isAWSErr e "AccessDeniedException" "Failed to authorize instance profile" = true))
    (hok : env.runJobFlow (runJobFlowCount w.trace + k) = Except.ok out)
    (hid : out.JobFlowId = some id)
    (ht : attemptStart env (runJobFlowCount w.trace) w.now k < w.now + 30000)
    (hread : ∀ d0 w0, runJobFlowCount (read d0 w0).2.2.trace = runJobFlowCount w0.trace) :
    ∃ w1,
      runJobFlowWithRetry env params w = (none, some out, w1) ∧
      w1.trace = w.trace ++ List.replicate (k + 1) (Call.RunJobFlow params) ∧
      resourceAwsEMRClusterCreate env read params d w
        = createAfterSetId env read params (terminationProtection d) (d.SetId id) w1 ∧
      (d.SetId id).Id = id ∧
      runJobFlowCount (resourceAwsEMRClusterCreate env read params d w).2.2.trace
        = runJobFlowCount w.trace + (k + 1) := by
  have h := retry_runJobFlow_success env params w k out hfail hok ht
  have hc : resourceAwsEMRClusterCreate env read params d w
      = createAfterSetId env read params (terminationProtection d) (d.SetId id)
          { now := attemptStart env (runJobFlowCount w.trace) w.now k
              + env.runJobFlowLatency (runJobFlowCount w.trace + k),
            trace := w.trace ++ List.replicate (k + 1) (Call.RunJobFlow params) } := by
    simp only [resourceAwsEMRClusterCreate, h, hid]
  refine ⟨_, h, rfl, hc, rfl, ?_⟩
  rw [hc, createAfterSetId_runJobFlowCount env read hread]
  simp [runJobFlowCount_append, runJobFlowCount_replicate]

theorem create_retries_until_success_witness :
    (∀ i, i < 2 → ∃ e, iamScenario.runJobFlow (runJobFlowCount startWorld.trace + i)
        = Except.error e ∧
      (isAWSErr e "ValidationException" "Invalid InstanceProfile:" = true ∨
        isAWSErr e "AccessDeniedException" "Failed to authorize instance profile" = true)) ∧
    iamScenario.runJobFlow (runJobFlowCount startWorld.trace + 2)
      = Except.ok { JobFlowId := some "j-2AXXXXXXGAPLF" } ∧
    attemptStart iamScenario (runJobFlowCount startWorld.trace) startWorld.now 2
      < startWorld.now + 30000 ∧
    ∃ w1,
      runJobFlowWithRetry iamScenario sampleParams startWorld
        = (none, some { JobFlowId := some "j-2AXXXXXXGAPLF" }, w1) ∧
      w1.trace = startWorld.trace ++ List.replicate (2 + 1) (Call.RunJobFlow sampleParams) ∧
      resourceAwsEMRClusterCreate iamScenario readNothing sampleParams freshData startWorld
        = createAfterSetId iamScenario readNothing sampleParams (terminationProtection freshData)
            (freshData.SetId "j-2AXXXXXXGAPLF") w1 ∧
      (freshData.SetId "j-2AXXXXXXGAPLF").Id = "j-2AXXXXXXGAPLF" ∧
      runJobFlowCount
          (resourceAwsEMRClusterCreate iamScenario readNothing sampleParams freshData
            startWorld).2.2.trace
        = runJobFlowCount startWorld.trace + (2 + 1) := by
  have hfail : ∀ i, i < 2 → ∃ e, iamScenario.runJobFlow (runJobFlowCount startWorld.trace + i)
        = Except.error e ∧
      (isAWSErr e "ValidationException" "Invalid InstanceProfile:" = true ∨
        isAWSErr e "AccessDeniedException" "Failed to authorize instance profile" = true) := by
    intro i hi
    interval_cases i
    · exact ⟨invalidInstanceProfile, rfl, Or.inl (by decide)⟩
    · exact ⟨invalidInstanceProfile, rfl, Or.inl (by decide)⟩
  exact ⟨hfail, rfl, by decide,
    create_retries_until_success iamScenario readNothing sampleParams freshData startWorld 2
      { JobFlowId := some "j-2AXXXXXXGAPLF" } "j-2AXXXXXXGAPLF" hfail rfl rfl (by decide)
      (fun _ _ => rfl)⟩

/-- C6: if the first `RunJobFlow` attempt fails with an error that matches
neither retryable pattern, exactly one attempt is made, Create returns an error
(wrapping that one) and the resource data, identity included, is unchanged. -/
theorem create_fatal_error_single_attempt (env : Env)
    (read : ResourceData → World → Option GoError × ResourceData × World)
    (params : RunJobFlowInput) (d : ResourceData) (w : World) (e : ClientError)
    (he : env.runJobFlow (runJobFlowCount w.trace) = Except.error e)
    (h1 : isAWSErr e "ValidationException" "Invalid InstanceProfile:" = false)
    (h2 : isAWSErr e "AccessDeniedException" "Failed to authorize instance profile" = false) :
    resourceAwsEMRClusterCreate env read params d w
        = (Exit.returned (some (GoError.wrapf "error running EMR Job Flow: " (GoError.client e))),
            d, (RunJobFlow env params w).2) ∧
      (RunJobFlow env params w).2.trace = w.trace ++ [Call.RunJobFlow params] ∧
      runJobFlowCount (RunJobFlow env params w).2.trace = runJobFlowCount w.trace + 1 := by
  have ha := runJobFlowAttempt_fatal env params none w e he h1 h2
  have hr : runJobFlowWithRetry env params w
      = (some (GoError.client e), none, (RunJobFlow env params w).2) := by
    simp only [runJobFlowWithRetry, Retry, retryLoop, ha, isResourceTimeoutError]
    simp [RunJobFlow]
  refine ⟨?_, rfl, ?_⟩
  · simp only [resourceAwsEMRClusterCreate, hr]
  · simp [RunJobFlow, runJobFlowCount_append, runJobFlowCount]

theorem create_fatal_error_single_attempt_witness :
    (scriptEnv [Except.error (ClientError.aws "ValidationException" "Release label is invalid")]
        0 [] []).runJobFlow (runJobFlowCount startWorld.trace)
      = Except.error (ClientError.aws "ValidationException" "Release label is invalid") ∧
    isAWSErr (ClientError.aws "ValidationException" "Release label is invalid")
      "ValidationException" "Invalid InstanceProfile:" = false ∧
    isAWSErr (ClientError.aws "ValidationException" "Release label is invalid")
      "AccessDeniedException" "Failed to authorize instance profile" = false ∧
    resourceAwsEMRClusterCreate
        (scriptEnv [Except.error (ClientError.aws "ValidationException" "Release label is invalid")]
          0 [] [])
        readNothing sampleParams freshData startWorld
      = (Exit.returned (some (GoError.wrapf "error running EMR Job Flow: "
            (GoError.client (ClientError.aws "ValidationException" "Release label is invalid")))),
          freshData, { now := 0, trace := [Call.RunJobFlow sampleParams] }) :=
  ⟨rfl, by decide, by decide,
    (create_fatal_error_single_attempt _ readNothing sampleParams freshData startWorld
      (ClientError.aws "ValidationException" "Release label is invalid") rfl (by decide)
      (by decide)).1⟩

/-- The retry of `RunJobFlow` under the 30 second budget ends with the timeout
error when every attempt fails with a retryable error until the budget is used
up; it has then made one attempt per failure. -/
theorem retry_runJobFlow_timeout (env : Env) (params : RunJobFlowInput) (w : World) (k : Nat)
    (hfail : ∀ i, i ≤ k → ∃ e, env.runJobFlow (runJobFlowCount w.trace + i) = Except.error e ∧
      (isAWSErr e "ValidationException" "Invalid InstanceProfile:" = true ∨
        isAWSErr e "AccessDeniedException" "Failed to authorize instance profile" = true))
    (ht : attemptStart env (runJobFlowCount w.trace) w.now k < w.now + 30000)
    (hd : w.now + 30000 ≤ attemptStart env (runJobFlowCount w.trace) w.now (k + 1)) :
    isResourceTimeoutError (Retry 30000 (runJobFlowAttempt env params) none w).1 = true ∧
      (Retry 30000 (runJobFlowAttempt env params) none w).2.2.trace
        = w.trace ++ List.replicate (k + 1) (Call.RunJobFlow params) := by
  have hlow := attemptStart_lower env k (runJobFlowCount w.trace) w.now
  have hk : k < 30000 + 1 := by
    have h1 : retryMinDelay = 500 := rfl
    rw [h1] at hlow
    omega
  obtain ⟨w1, h, htr⟩ :=
    retryLoop_timeout env params (w.now + 30000) k (30000 + 1) none w hk hfail ht hd
  simp only [Retry, h, isResourceTimeoutError, htr]
  simp

/-- C7: when the retry of `RunJobFlow` ends with a timeout, exactly one further
`RunJobFlow` call is made, whatever the earlier errors were, and its outcome
decides: on success Create goes on with that response's `JobFlowId` as the
identity, on failure Create returns that attempt's error (wrapped in "error
running EMR Job Flow: ") with the resource data unchanged. -/
theorem create_timeout_one_last_attempt (env : Env)
    (read : ResourceData → World → Option GoError × ResourceData × World)
    (params : RunJobFlowInput) (d : ResourceData) (w : World)
    (hto : isResourceTimeoutError (Retry 30000 (runJobFlowAttempt env params) none w).1 = true) :
    (RunJobFlow env params (Retry 30000 (runJobFlowAttempt env params) none w).2.2).2.trace
        = (Retry 30000 (runJobFlowAttempt env params) none w).2.2.trace
            ++ [Call.RunJobFlow params] ∧
      (∀ out id,
        env.runJobFlow
            (runJobFlowCount (Retry 30000 (runJobFlowAttempt env params) none w).2.2.trace)
          = Except.ok out →
        out.JobFlowId = some id →
        resourceAwsEMRClusterCreate env read params d w
          = createAfterSetId env read params (terminationProtection d) (d.SetId id)
              (RunJobFlow env params
                (Retry 30000 (runJobFlowAttempt env params) none w).2.2).2) ∧
      (∀ e,
        env.runJobFlow
            (runJobFlowCount (Retry 30000 (runJobFlowAttempt env params) none w).2.2.trace)
          = Except.error e →
        resourceAwsEMRClusterCreate env read params d w
          = (Exit.returned
              (some (GoError.wrapf "error running EMR Job Flow: " (GoError.client e))),
              d,
              (RunJobFlow env params
                (Retry 30000 (runJobFlowAttempt env params) none w).2.2).2)) := by
  refine ⟨rfl, ?_, ?_⟩
  · intro out id hok hid
    have hr : (RunJobFlow env params
        (Retry 30000 (runJobFlowAttempt env params) none w).2.2).1 = Except.ok out := hok
    simp only [resourceAwsEMRClusterCreate, runJobFlowWithRetry, hto, if_true, hr, hid]
  · intro e he
    have hr : (RunJobFlow env params
        (Retry 30000 (runJobFlowAttempt env params) none w).2.2).1 = Except.error e := he
    simp only [resourceAwsEMRClusterCreate, runJobFlowWithRetry, hto, if_true, hr]

theorem create_timeout_one_last_attempt_witness :
    isResourceTimeoutError
        (Retry 30000 (runJobFlowAttempt slowScenario sampleParams) none startWorld).1 = true ∧
      (Retry 30000 (runJobFlowAttempt slowScenario sampleParams) none startWorld).2.2.trace
        = [Call.RunJobFlow sampleParams] ∧
      resourceAwsEMRClusterCreate slowScenario readNothing sampleParams freshData startWorld
        = createAfterSetId slowScenario readNothing sampleParams (terminationProtection freshData)
            (freshData.SetId "j-2AXXXXXXGAPLF")
            (RunJobFlow slowScenario sampleParams
              (Retry 30000 (runJobFlowAttempt slowScenario sampleParams) none startWorld).2.2).2 :=
  ⟨by decide, by decide,
    (create_timeout_one_last_attempt slowScenario readNothing sampleParams freshData startWorld
      (by decide)).2.1 { JobFlowId := some "j-2AXXXXXXGAPLF" } "j-2AXXXXXXGAPLF" rfl rfl⟩

/-! ## Create: the wait -/

/-- C8: the create wait is configured with pending = {STARTING, BOOTSTRAPPING} and
target = {RUNNING, WAITING}; when the first `k` polls observe pending statuses and
the next poll, started before the 75 minute deadline, observes a target status,
the wait returns that cluster without error after `k + 1` polls, and the
cluster's status is in the target set. -/
theorem create_wait_reaches_target (env : Env) (d : ResourceData) (w : World) (k : Nat)
    (hpend : ∀ i, i < k → ∃ s,
      observedState (env.describeCluster (describeClusterCount w.trace + i)) = some s ∧
      s ∈ createStateConf.Pending)
    (htgt : ∃ s, observedState (env.describeCluster (describeClusterCount w.trace + k)) = some s ∧
      s ∈ createStateConf.Target)
    (ht : pollStart env createStateConf.MinTimeout (describeClusterCount w.trace)
      (w.now + createStateConf.Delay) k < w.now + createStateConf.Timeout) :
    (∀ s, s ∈ createStateConf.Pending ↔ s = "STARTING" ∨ s = "BOOTSTRAPPING") ∧
      (∀ s, s ∈ createStateConf.Target ↔ s = "RUNNING" ∨ s = "WAITING") ∧
      ∃ c st w1,
        WaitForState createStateConf (resourceAwsEMRClusterStateRefreshFunc env d) w
          = (Except.ok (RefreshObj.cluster c), w1) ∧
        env.describeCluster (describeClusterCount w.trace + k) = Except.ok { Cluster := some c } ∧
        c.Status = some st ∧
        StringValue st.State ∈ createStateConf.Target ∧
        describeClusterCount w1.trace = describeClusterCount w.trace + (k + 1) := by
  have hP : ∀ s, s ∈ createStateConf.Pending ↔ s = "STARTING" ∨ s = "BOOTSTRAPPING" := by
    intro s
    simp only [createStateConf, ClusterStateBootstrapping, ClusterStateStarting, List.mem_cons,
      List.mem_singleton, List.not_mem_nil, or_false]
    exact or_comm
  have hT : ∀ s, s ∈ createStateConf.Target ↔ s = "RUNNING" ∨ s = "WAITING" := by
    intro s
    simp only [createStateConf, ClusterStateRunning, ClusterStateWaiting, List.mem_cons,
      List.mem_singleton, List.not_mem_nil, or_false]
  refine ⟨hP, hT, ?_⟩
  obtain ⟨s, hs, hsT⟩ := htgt
  obtain ⟨c, st, hc, hst, hss⟩ := observedState_some _ _ hs
  have hpend2 : ∀ i, i < k → ∃ ci sti,
      env.describeCluster (describeClusterCount w.trace + i) = Except.ok { Cluster := some ci } ∧
      ci.Status = some sti ∧
      (StringValue sti.State = ClusterStateStarting ∨
        StringValue sti.State = ClusterStateBootstrapping) := by
    intro i hi
    obtain ⟨si, hsi, hsP⟩ := hpend i hi
    obtain ⟨ci, sti, hci, hsti, hssi⟩ := observedState_some _ _ hsi
    refine ⟨ci, sti, hci, hsti, ?_⟩
    rw [hssi]
    exact ((hP si).1 hsP)
  have htgt2 : StringValue st.State = ClusterStateRunning ∨
      StringValue st.State = ClusterStateWaiting := by
    rw [hss]
    exact (hT s).1 hsT
  have h := createWait_reaches env d w c st k hpend2 hc hst htgt2 ht
  refine ⟨c, st, _, h, hc, hst, ?_, ?_⟩
  · rw [hss]
    exact hsT
  · simp [describeClusterCount_append, describeClusterCount_replicate, describeClusterCount]

theorem create_wait_reaches_target_witness :
    (∀ i, i < 3 → ∃ s,
      observedState (iamScenario.describeCluster (describeClusterCount startWorld.trace + i))
        = some s ∧ s ∈ createStateConf.Pending) ∧
    (∃ s, observedState (iamScenario.describeCluster (describeClusterCount startWorld.trace + 3))
        = some s ∧ s ∈ createStateConf.Target) ∧
    pollStart iamScenario createStateConf.MinTimeout (describeClusterCount startWorld.trace)
      (startWorld.now + createStateConf.Delay) 3 < startWorld.now + createStateConf.Timeout ∧
    ∃ c st w1,
      WaitForState createStateConf (resourceAwsEMRClusterStateRefreshFunc iamScenario freshData)
          startWorld
        = (Except.ok (RefreshObj.cluster c), w1) ∧
      iamScenario.describeCluster (describeClusterCount startWorld.trace + 3)
        = Except.ok { Cluster := some c } ∧
      c.Status = some st ∧
      StringValue st.State ∈ createStateConf.Target ∧
      describeClusterCount w1.trace = describeClusterCount startWorld.trace + (3 + 1) := by
  have hpend : ∀ i, i < 3 → ∃ s,
      observedState (iamScenario.describeCluster (describeClusterCount startWorld.trace + i))
        = some s ∧ s ∈ createStateConf.Pending := by
    intro i hi
    interval_cases i
    · exact ⟨"STARTING", rfl, by decide⟩
    · exact ⟨"BOOTSTRAPPING", rfl, by decide⟩
    · exact ⟨"BOOTSTRAPPING", rfl, by decide⟩
  have htgt : ∃ s,
      observedState (iamScenario.describeCluster (describeClusterCount startWorld.trace + 3))
        = some s ∧ s ∈ createStateConf.Target := ⟨"RUNNING", rfl, by decide⟩
  exact ⟨hpend, htgt, by decide,
    (create_wait_reaches_target iamScenario freshData startWorld 3 hpend htgt (by decide)).2.2⟩

/-- C9 (as stated, refuted): on the scenario whose successive polls observe
STARTING, BOOTSTRAPPING, BOOTSTRAPPING, RUNNING at the fixed 10 second interval,
the create wait returns the RUNNING cluster after 4 polls, not after 3. -/
theorem create_wait_scenario_not_three_polls :
    (WaitForState createStateConf (resourceAwsEMRClusterStateRefreshFunc iamScenario freshData)
        startWorld).1
      = Except.ok (RefreshObj.cluster (clusterInState "RUNNING" none)) ∧
    describeClusterCount
        (WaitForState createStateConf (resourceAwsEMRClusterStateRefreshFunc iamScenario freshData)
          startWorld).2.trace = 4 ∧
    ¬ describeClusterCount
        (WaitForState createStateConf (resourceAwsEMRClusterStateRefreshFunc iamScenario freshData)
          startWorld).2.trace = 3 :=
  ⟨rfl, by decide, by decide⟩

/-- C9 (amended): when the statuses observed by successive polls of the create
wait are STARTING, BOOTSTRAPPING, BOOTSTRAPPING, RUNNING and the fourth poll starts
before the deadline, the wait returns after 4 polls with a cluster whose status
is "RUNNING". -/
theorem create_wait_scenario_four_polls (env : Env) (d : ResourceData) (w : World)
    (hobs : (List.range 4).map
        (fun i => observedState (env.describeCluster (describeClusterCount w.trace + i)))
      = [some "STARTING", some "BOOTSTRAPPING", some "BOOTSTRAPPING", some "RUNNING"])
    (ht : pollStart env createStateConf.MinTimeout (describeClusterCount w.trace)
      (w.now + createStateConf.Delay) 3 < w.now + createStateConf.Timeout) :
    ∃ c st w1,
      WaitForState createStateConf (resourceAwsEMRClusterStateRefreshFunc env d) w
        = (Except.ok (RefreshObj.cluster c), w1) ∧
      c.Status = some st ∧
      StringValue st.State = "RUNNING" ∧
      describeClusterCount w1.trace = describeClusterCount w.trace + 4 := by
  simp only [List.range, List.range.loop, List.map_cons, List.map_nil, List.cons.injEq,
    and_true, Nat.add_zero] at hobs
  obtain ⟨h0, h1, h2, h3⟩ := hobs
  obtain ⟨c0, s0, hc0, hs0, hv0⟩ := observedState_some _ _ h0
  obtain ⟨c1, s1, hc1, hs1, hv1⟩ := observedState_some _ _ h1
  obtain ⟨c2, s2, hc2, hs2, hv2⟩ := observedState_some _ _ h2
  obtain ⟨c, st, hc, hst, hv⟩ := observedState_some _ _ h3
  have hpend : ∀ i, i < 3 → ∃ ci sti,
      env.describeCluster (describeClusterCount w.trace + i) = Except.ok { Cluster := some ci } ∧
      ci.Status = some sti ∧
      (StringValue sti.State = ClusterStateStarting ∨
        StringValue sti.State = ClusterStateBootstrapping) := by
    intro i hi
    interval_cases i
    · exact ⟨c0, s0, hc0, hs0, Or.inl hv0⟩
    · exact ⟨c1, s1, hc1, hs1, Or.inr hv1⟩
    · exact ⟨c2, s2, hc2, hs2, Or.inr hv2⟩
  have h := createWait_reaches env d w c st 3 hpend hc hst (Or.inl hv) ht
  refine ⟨c, st, _, h, hst, hv, ?_⟩
  simp [describeClusterCount_append, describeClusterCount_replicate, describeClusterCount]

theorem create_wait_scenario_four_polls_witness :
    (List.range 4).map
        (fun i => observedState
          (iamScenario.describeCluster (describeClusterCount startWorld.trace + i)))
      = [some "STARTING", some "BOOTSTRAPPING", some "BOOTSTRAPPING", some "RUNNING"] ∧
    pollStart iamScenario createStateConf.MinTimeout (describeClusterCount startWorld.trace)
      (startWorld.now + createStateConf.Delay) 3 < startWorld.now + createStateConf.Timeout ∧
    ∃ c st w1,
      WaitForState createStateConf (resourceAwsEMRClusterStateRefreshFunc iamScenario freshData)
          startWorld
        = (Except.ok (RefreshObj.cluster c), w1) ∧
      c.Status = some st ∧
      StringValue st.State = "RUNNING" ∧
      describeClusterCount w1.trace = describeClusterCount startWorld.trace + 4 :=
  ⟨by decide, by decide,
    create_wait_scenario_four_polls iamScenario freshData startWorld (by decide) (by decide)⟩

/-! ## Create: matching termination protection -/

/-- C10: after the create wait has returned the cluster, Create issues a
`SetTerminationProtection` call exactly when the cluster's `TerminationProtected`
(nil read as false) differs from the desired `termination_protection`; that is
the only call added before Read (one call at most, for the resource identity and
carrying the desired value), no further wait is started, and Create then either
returns the corrective call's error or ends with Read. -/
theorem create_matches_termination_protection (env : Env)
    (read : ResourceData → World → Option GoError × ResourceData × World)
    (params : RunJobFlowInput) (d d1 : ResourceData) (w w3 : World) (c : Cluster)
    (hwait : WaitForState createStateConf
        (resourceAwsEMRClusterStateRefreshFunc env (setKeepJobFlowAlive params d1)) w
      = (Except.ok (RefreshObj.cluster c), w3)) :
    terminationProtection d = BoolValue d.termination_protection ∧
    (matchTerminationProtection env (setKeepJobFlowAlive params d1) (terminationProtection d)
        c w3).2.trace
      = w3.trace ++
          (if BoolValue c.TerminationProtected = terminationProtection d then []
           else [Call.SetTerminationProtection
              { JobFlowIds := [some d1.Id],
                TerminationProtected := some (terminationProtection d) }]) ∧
    waitForStateCount
        (matchTerminationProtection env (setKeepJobFlowAlive params d1) (terminationProtection d)
          c w3).2.trace
      = waitForStateCount w3.trace ∧
    createAfterSetId env read params (terminationProtection d) d1 w
      = (match (matchTerminationProtection env (setKeepJobFlowAlive params d1)
            (terminationProtection d) c w3).1 with
        | some err =>
          (Exit.returned (some err), setKeepJobFlowAlive params d1,
            (matchTerminationProtection env (setKeepJobFlowAlive params d1)
              (terminationProtection d) c w3).2)
        | none =>
          (Exit.returned
            (read (setKeepJobFlowAlive params d1)
              (matchTerminationProtection env (setKeepJobFlowAlive params d1)
                (terminationProtection d) c w3).2).1,
            (read (setKeepJobFlowAlive params d1)
              (matchTerminationProtection env (setKeepJobFlowAlive params d1)
                (terminationProtection d) c w3).2).2.1,
            (read (setKeepJobFlowAlive params d1)
              (matchTerminationProtection env (setKeepJobFlowAlive params d1)
                (terminationProtection d) c w3).2).2.2)) := by
  have htr := matchTerminationProtection_trace env (setKeepJobFlowAlive params d1)
    (terminationProtection d) c w3
  refine ⟨?_, htr, ?_, ?_⟩
  · cases hd : d.termination_protection with
    | none => simp [terminationProtection, GetOkBool, BoolValue, hd]
    | some b => cases b <;> simp [terminationProtection, GetOkBool, BoolValue, hd]
  · rw [htr, waitForStateCount_append]
    split <;> simp [waitForStateCount]
  · simp only [createAfterSetId, hwait]

theorem create_matches_termination_protection_witness :
    WaitForState createStateConf
        (resourceAwsEMRClusterStateRefreshFunc protectedScenario
          (setKeepJobFlowAlive sampleParams (freshData.SetId "j-2AXXXXXXGAPLF")))
        { now := 0, trace := [Call.RunJobFlow sampleParams] }
      = (Except.ok (RefreshObj.cluster (clusterInState "WAITING" (some true))),
          { now := 30000,
            trace := [Call.RunJobFlow sampleParams, Call.WaitForState,
              Call.DescribeCluster { ClusterId := some "j-2AXXXXXXGAPLF" }] }) ∧
    (matchTerminationProtection protectedScenario
        (setKeepJobFlowAlive sampleParams (freshData.SetId "j-2AXXXXXXGAPLF"))
        (terminationProtection freshData) (clusterInState "WAITING" (some true))
        { now := 30000,
          trace := [Call.RunJobFlow sampleParams, Call.WaitForState,
            Call.DescribeCluster { ClusterId := some "j-2AXXXXXXGAPLF" }] }).2.trace
      = [Call.RunJobFlow sampleParams, Call.WaitForState,
          Call.DescribeCluster { ClusterId := some "j-2AXXXXXXGAPLF" }] ++
          (if BoolValue (clusterInState "WAITING" (some true)).TerminationProtected
              = terminationProtection freshData then []
           else [Call.SetTerminationProtection
              { JobFlowIds := [some (freshData.SetId "j-2AXXXXXXGAPLF").Id],
                TerminationProtected := some (terminationProtection freshData) }]) :=
  ⟨rfl,
    (create_matches_termination_protection protectedScenario readNothing sampleParams freshData
      (freshData.SetId "j-2AXXXXXXGAPLF") { now := 0, trace := [Call.RunJobFlow sampleParams] }
      { now := 30000,
        trace := [Call.RunJobFlow sampleParams, Call.WaitForState,
          Call.DescribeCluster { ClusterId := some "j-2AXXXXXXGAPLF" }] }
      (clusterInState "WAITING" (some true)) rfl).2.1⟩

/-! ## Read -/

/-- C12 (the code at the failing input): when `DescribeCluster` fails with the AWS
error "ClusterNotFound", Read returns the error "Error reading EMR cluster: ..."
and leaves the identity in place; only a response with nil `Cluster` clears the
identity and returns nil. -/
theorem read_clusterNotFound_is_returned_as_error :
    resourceAwsEMRClusterRead
        (describeEnv [Except.error (ClientError.aws "ClusterNotFound" "no such cluster")] 0)
        restNothing existingData startWorld
      = (some (GoError.wrapf "Error reading EMR cluster: "
            (GoError.client (ClientError.aws "ClusterNotFound" "no such cluster"))),
          existingData,
          { now := 0, trace := [Call.DescribeCluster { ClusterId := some "j-2AXXXXXXGAPLF" }] }) ∧
    existingData.Id = "j-2AXXXXXXGAPLF" ∧
    resourceAwsEMRClusterRead (describeEnv [Except.ok { Cluster := none }] 0)
        restNothing existingData startWorld
      = (none, existingData.SetId "",
          { now := 0, trace := [Call.DescribeCluster { ClusterId := some "j-2AXXXXXXGAPLF" }] }) := by
  decide

/-- C13: when the response shows a cluster whose state is TERMINATED or
TERMINATED_WITH_ERRORS, Read returns nil with the identity cleared and every
other attribute as it was, after the single `DescribeCluster` call; the rest of
Read does not run. -/
theorem read_terminated_clears_identity (env : Env)
    (rest : Cluster → ResourceData → World → Option GoError × ResourceData × World)
    (d : ResourceData) (w : World) (c : Cluster) (st : ClusterStatus)
    (h : env.describeCluster (describeClusterCount w.trace) = Except.ok { Cluster := some c })
    (hst : c.Status = some st)
    (hs : StringValue st.State = "TERMINATED" ∨ StringValue st.State = "TERMINATED_WITH_ERRORS") :
    resourceAwsEMRClusterRead env rest d w
        = (none, { d with Id := "" }, (DescribeCluster env { ClusterId := some d.Id } w).2) ∧
      (DescribeCluster env { ClusterId := some d.Id } w).2.trace
        = w.trace ++ [Call.DescribeCluster { ClusterId := some d.Id }] := by
  refine ⟨?_, rfl⟩
  have hs2 : StringValue st.State = ClusterStateTerminated ∨
      StringValue st.State = ClusterStateTerminatedWithErrors := hs
  simp [resourceAwsEMRClusterRead, DescribeCluster, h, hst, hs2, ResourceData.SetId]

theorem read_terminated_clears_identity_witness :
    (describeEnv [describes "TERMINATED"] 0).describeCluster
        (describeClusterCount startWorld.trace)
      = Except.ok { Cluster := some (clusterInState "TERMINATED" none) } ∧
    (clusterInState "TERMINATED" none).Status
      = some { State := some "TERMINATED", StateChangeReason := none } ∧
    resourceAwsEMRClusterRead (describeEnv [describes "TERMINATED"] 0) restNothing existingData
        startWorld
      = (none, { existingData with Id := "" },
          (DescribeCluster (describeEnv [describes "TERMINATED"] 0)
            { ClusterId := some existingData.Id } startWorld).2) :=
  ⟨rfl, rfl,
    (read_terminated_clears_identity (describeEnv [describes "TERMINATED"] 0) restNothing
      existingData startWorld (clusterInState "TERMINATED" none)
      { State := some "TERMINATED", StateChangeReason := none } rfl rfl (Or.inl rfl)).1⟩

/-! ## Delete: one poll -/

theorem deletePoll_trace (env : Env) (d : ResourceData)
    (cap : Option DescribeClusterOutput × String) (w : World) :
    (deletePoll env d cap w).2.2
      = { now := w.now + env.describeClusterLatency (describeClusterCount w.trace),
          trace := w.trace ++ [Call.DescribeCluster { ClusterId := some d.Id }] } := by
  unfold deletePoll DescribeCluster
  simp only
  split
  · rfl
  · split
    · rfl
    · split
      · rfl
      · split <;> rfl

theorem deletePoll_state (env : Env) (d : ResourceData)
    (cap : Option DescribeClusterOutput × String) (w : World) :
    (deletePoll env d cap w).2.1.2
      = (match observedState (env.describeCluster (describeClusterCount w.trace)) with
          | some x => x
          | none => cap.2) := by
  cases hr : env.describeCluster (describeClusterCount w.trace) with
  | error e => simp [deletePoll, DescribeCluster, observedState, hr]
  | ok resp =>
    cases hc : resp.Cluster with
    | none => simp [deletePoll, DescribeCluster, observedState, hr, hc]
    | some cl =>
      cases hs : cl.Status with
      | none => simp [deletePoll, DescribeCluster, observedState, hr, hc, hs]
      | some st =>
        simp only [deletePoll, DescribeCluster, observedState, hr, hc, hs]
        split <;> rfl

theorem deletePoll_retry (env : Env) (d : ResourceData)
    (cap : Option DescribeClusterOutput × String) (w : World)
    (hok : ∃ resp, env.describeCluster (describeClusterCount w.trace) = Except.ok resp)
    (hnot : ∀ s, observedState (env.describeCluster (describeClusterCount w.trace)) = some s →
      s ≠ ClusterStateTerminated ∧ s ≠ ClusterStateTerminatedWithErrors) :
    ∃ e, (deletePoll env d cap w).1 = some (RetryError.RetryableError e) := by
  obtain ⟨resp, hresp⟩ := hok
  rw [hresp] at hnot
  cases hc : resp.Cluster with
  | none =>
    exact ⟨GoError.errorf ("Continuing to retrieve EMR Cluster (" ++ d.Id ++ ") state"), by
      simp only [deletePoll, DescribeCluster, hresp, hc]⟩
  | some cl =>
    cases hs : cl.Status with
    | none =>
      exact ⟨GoError.errorf ("Continuing to retrieve EMR Cluster (" ++ d.Id ++ ") state"), by
        simp only [deletePoll, DescribeCluster, hresp, hc, hs]⟩
    | some st =>
      have h := hnot (StringValue st.State) (by simp [observedState, hc, hs])
      exact ⟨GoError.errorf
          ("EMR Cluster (" ++ d.Id ++ ") has (" ++ StringValue st.State ++ ") state"), by
        simp only [deletePoll, DescribeCluster, hresp, hc, hs, h.1, h.2, ne_eq,
          not_false_eq_true, and_self, if_true]⟩

theorem deletePoll_done (env : Env) (d : ResourceData)
    (cap : Option DescribeClusterOutput × String) (w : World) (s : String)
    (hobs : observedState (env.describeCluster (describeClusterCount w.trace)) = some s)
    (hs : s = ClusterStateTerminated ∨ s = ClusterStateTerminatedWithErrors) :
    (deletePoll env d cap w).1 = none := by
  obtain ⟨c, st, hc, hst, hv⟩ := observedState_some _ _ hobs
  unfold deletePoll DescribeCluster
  simp only [hc, hst, hv]
  rcases hs with hs | hs <;> simp [hs]

theorem deletePoll_error (env : Env) (d : ResourceData)
    (cap : Option DescribeClusterOutput × String) (w : World) (e : ClientError)
    (he : env.describeCluster (describeClusterCount w.trace) = Except.error e) :
    (deletePoll env d cap w).1 = some (RetryError.NonRetryableError (GoError.client e)) := by
  unfold deletePoll DescribeCluster
  simp only [he]

/-! ## The retry loop, one round at a time -/

theorem retryLoop_round_done {ρ : Type} (f : ρ → World → Option RetryError × ρ × World)
    (deadline fuel : Nat) (r : ρ) (w : World) (h : (f r w).1 = none) :
    retryLoop f deadline (fuel + 1) r w = (none, (f r w).2.1, (f r w).2.2) := by
  simp only [retryLoop, h]

theorem retryLoop_round_fatal {ρ : Type} (f : ρ → World → Option RetryError × ρ × World)
    (deadline fuel : Nat) (r : ρ) (w : World) (e : GoError)
    (h : (f r w).1 = some (RetryError.NonRetryableError e)) :
    retryLoop f deadline (fuel + 1) r w = (some e, (f r w).2.1, (f r w).2.2) := by
  simp only [retryLoop, h]

theorem retryLoop_round_retry {ρ : Type} (f : ρ → World → Option RetryError × ρ × World)
    (deadline fuel : Nat) (r : ρ) (w : World) (e : GoError)
    (h : (f r w).1 = some (RetryError.RetryableError e)) :
    retryLoop f deadline (fuel + 1) r w
      = (if deadline ≤ (sleep (min retryMinDelay (deadline - (f r w).2.2.now)) (f r w).2.2).now
          then (some (GoError.timeoutError ""), (f r w).2.1,
            sleep (min retryMinDelay (deadline - (f r w).2.2.now)) (f r w).2.2)
          else retryLoop f deadline fuel (f r w).2.1
            (sleep (min retryMinDelay (deadline - (f r w).2.2.now)) (f r w).2.2)) := by
  simp only [retryLoop, h]

/-! ## Delete: the polling loop -/

theorem deletePollStart_lower (env : Env) (k c t : Nat) :
    t + k * retryMinDelay ≤ deletePollStart env c t k := by
  induction k generalizing c t with
  | zero => simp [deletePollStart]
  | succ k ih =>
    have h := ih (c + 1) (t + env.describeClusterLatency c + retryMinDelay)
    simp only [deletePollStart]
    have e : t + (k + 1) * retryMinDelay = t + retryMinDelay + k * retryMinDelay := by ring
    omega

theorem describeClusterCount_snoc (t : List Call) (p : DescribeClusterInput) :
    describeClusterCount (t ++ [Call.DescribeCluster p]) = describeClusterCount t + 1 := by
  simp [describeClusterCount_append, describeClusterCount]

/-- Polls that ask for a retry followed by a poll that shows the terminated
cluster inside the budget: the loop polls once per observation and succeeds. -/
theorem deleteLoop_success (env : Env) (d : ResourceData) (deadline : Nat) (k : Nat) :
    ∀ (fuel : Nat) (cap : Option DescribeClusterOutput × String) (w : World),
      k < fuel →
      (∀ i, i < k →
        (∃ resp, env.describeCluster (describeClusterCount w.trace + i) = Except.ok resp) ∧
        (∀ s, observedState (env.describeCluster (describeClusterCount w.trace + i)) = some s →
          s ≠ ClusterStateTerminated ∧ s ≠ ClusterStateTerminatedWithErrors)) →
      (∃ s, observedState (env.describeCluster (describeClusterCount w.trace + k)) = some s ∧
        (s = ClusterStateTerminated ∨ s = ClusterStateTerminatedWithErrors)) →
      deletePollStart env (describeClusterCount w.trace) w.now k < deadline →
      (retryLoop (deletePoll env d) deadline fuel cap w).1 = none ∧
        (retryLoop (deletePoll env d) deadline fuel cap w).2.2.trace
          = w.trace ++ List.replicate (k + 1) (Call.DescribeCluster { ClusterId := some d.Id }) := by
  induction k with
  | zero =>
    intro fuel cap w hf _ hdone _
    obtain ⟨fuel, rfl⟩ : ∃ f, fuel = f + 1 := ⟨fuel - 1, by omega⟩
    obtain ⟨s, hobs, hs⟩ := hdone
    simp only [Nat.add_zero] at hobs
    rw [retryLoop_round_done _ _ _ _ _ (deletePoll_done env d cap w s hobs hs)]
    simp [deletePoll_trace]
  | succ k ih =>
    intro fuel cap w hf hretry hdone ht
    obtain ⟨fuel, rfl⟩ : ∃ f, fuel = f + 1 := ⟨fuel - 1, by omega⟩
    obtain ⟨hok0, hnot0⟩ := hretry 0 (by omega)
    simp only [Nat.add_zero] at hok0 hnot0
    obtain ⟨e, he⟩ := deletePoll_retry env d cap w hok0 hnot0
    have hlow := deletePollStart_lower env k (describeClusterCount w.trace + 1)
      (w.now + env.describeClusterLatency (describeClusterCount w.trace) + retryMinDelay)
    rw [deletePollStart] at ht
    have hmin : min retryMinDelay
        (deadline - (w.now + env.describeClusterLatency (describeClusterCount w.trace)))
        = retryMinDelay := by omega
    have hnot : ¬ deadline ≤ w.now + env.describeClusterLatency (describeClusterCount w.trace)
        + retryMinDelay := by omega
    have hcount := describeClusterCount_snoc w.trace { ClusterId := some d.Id }
    have hstep := ih fuel (deletePoll env d cap w).2.1
      { now := w.now + env.describeClusterLatency (describeClusterCount w.trace) + retryMinDelay,
        trace := w.trace ++ [Call.DescribeCluster { ClusterId := some d.Id }] } (by omega)
      (by
        intro i hi
        have h := hretry (i + 1) (by omega)
        rw [hcount]
        have hidx : describeClusterCount w.trace + 1 + i = describeClusterCount w.trace + (i + 1) := by
          omega
        rw [hidx]
        exact h)
      (by
        rw [hcount]
        have hidx : describeClusterCount w.trace + 1 + k = describeClusterCount w.trace + (k + 1) := by
          omega
        rw [hidx]
        exact hdone)
      (by
        rw [hcount]
        exact ht)
    rw [retryLoop_round_retry _ _ _ _ _ e he]
    simp only [deletePoll_trace, sleep, hmin, hnot, if_false]
    refine ⟨hstep.1, ?_⟩
    rw [hstep.2]
    simp [List.replicate_succ]

/-- Whatever the answers, the loop only adds `DescribeCluster` polls to the trace
and ends with `state` holding the state of the last poll that carried a
status. -/
theorem deleteLoop_captures_last_state (env : Env) (d : ResourceData) (deadline : Nat) :
    ∀ (fuel : Nat) (cap : Option DescribeClusterOutput × String) (w : World),
      ∃ n,
        (retryLoop (deletePoll env d) deadline fuel cap w).2.2.trace
          = w.trace ++ List.replicate n (Call.DescribeCluster { ClusterId := some d.Id }) ∧
        (retryLoop (deletePoll env d) deadline fuel cap w).2.1.2
          = lastCarriedState env (describeClusterCount w.trace) cap.2 n := by
  intro fuel
  induction fuel with
  | zero =>
    intro cap w
    exact ⟨0, by simp [retryLoop], by simp [retryLoop, lastCarriedState]⟩
  | succ fuel ih =>
    intro cap w
    have hone : (deletePoll env d cap w).2.1.2
        = lastCarriedState env (describeClusterCount w.trace) cap.2 1 := by
      rw [deletePoll_state]
      simp only [lastCarriedState]
    cases ha : (deletePoll env d cap w).1 with
    | none =>
      refine ⟨1, ?_, ?_⟩
      · rw [retryLoop_round_done _ _ _ _ _ ha]
        simp [deletePoll_trace]
      · rw [retryLoop_round_done _ _ _ _ _ ha]
        exact hone
    | some re =>
      cases re with
      | NonRetryableError e =>
        refine ⟨1, ?_, ?_⟩
        · rw [retryLoop_round_fatal _ _ _ _ _ e ha]
          simp [deletePoll_trace]
        · rw [retryLoop_round_fatal _ _ _ _ _ e ha]
          exact hone
      | RetryableError e =>
        rw [retryLoop_round_retry _ _ _ _ _ e ha]
        split
        · refine ⟨1, ?_, hone⟩
          simp [deletePoll_trace, sleep]
        · obtain ⟨n, htr, hst⟩ := ih (deletePoll env d cap w).2.1
            (sleep (min retryMinDelay (deadline - (deletePoll env d cap w).2.2.now))
              (deletePoll env d cap w).2.2)
          refine ⟨n + 1, ?_, ?_⟩
          · rw [htr]
            simp [deletePoll_trace, sleep, List.replicate_succ]
          · rw [hst]
            simp only [deletePoll_trace, sleep, describeClusterCount_snoc, deletePoll_state,
              lastCarriedState]

theorem lastCarriedState_none (env : Env) (n : Nat) :
    ∀ (c : Nat) (s : String),
      (∀ i, i < n → observedState (env.describeCluster (c + i)) = none) →
      lastCarriedState env c s n = s := by
  induction n with
  | zero => intro c s _; rfl
  | succ n ih =>
    intro c s h
    have h0 := h 0 (by omega)
    simp only [Nat.add_zero] at h0
    simp only [lastCarriedState, h0]
    apply ih
    intro i hi
    have hi2 := h (i + 1) (by omega)
    rw [show c + 1 + i = c + (i + 1) by omega]
    exact hi2

theorem lastCarriedState_last (env : Env) (n : Nat) :
    ∀ (c : Nat) (s : String) (i : Nat) (x : String),
      i < n → observedState (env.describeCluster (c + i)) = some x →
      (∀ j, i < j → j < n → observedState (env.describeCluster (c + j)) = none) →
      lastCarriedState env c s n = x := by
  induction n with
  | zero => intro c s i x hi; omega
  | succ n ih =>
    intro c s i x hi hx hlater
    simp only [lastCarriedState]
    cases i with
    | zero =>
      simp only [Nat.add_zero] at hx
      simp only [hx]
      apply lastCarriedState_none
      intro j hj
      have h := hlater (j + 1) (by omega) (by omega)
      rw [show c + 1 + j = c + (j + 1) by omega]
      exact h
    | succ i =>
      apply ih (c + 1) _ i x (by omega)
      · rw [show c + 1 + i = c + (i + 1) by omega]
        exact hx
      · intro j hj1 hj2
        have h := hlater (j + 1) (by omega) (by omega)
        rw [show c + 1 + j = c + (j + 1) by omega]
        exact h

/-! ## Delete -/

/-- C16 (as stated, refuted): after TERMINATING, TERMINATING a response with nil
`Cluster` does not end Delete, which polls a fourth time; when the nil `Cluster`
persists until the budget is used up Delete returns an error; and a
"ClusterNotFound" error on the third poll is returned as an error. -/
theorem delete_notFound_is_not_completion :
    (resourceAwsEMRClusterDelete deleteNilClusterScenario existingData startWorld).1 = none ∧
    describeClusterCount
        (resourceAwsEMRClusterDelete deleteNilClusterScenario existingData startWorld).2.trace
      = 4 ∧
    ¬ describeClusterCount
        (resourceAwsEMRClusterDelete deleteNilClusterScenario existingData startWorld).2.trace
      = 3 ∧
    resourceAwsEMRClusterDelete deleteStuckScenario existingData startWorld
      = (some (GoError.errorf "EMR Cluster (j-2AXXXXXXGAPLF) has (TERMINATING) state"),
          { now := 1201000,
            trace := [Call.TerminateJobFlows { JobFlowIds := [some "j-2AXXXXXXGAPLF"] },
              Call.DescribeCluster { ClusterId := some "j-2AXXXXXXGAPLF" },
              Call.DescribeCluster { ClusterId := some "j-2AXXXXXXGAPLF" },
              Call.DescribeCluster { ClusterId := some "j-2AXXXXXXGAPLF" }] }) ∧
    (resourceAwsEMRClusterDelete deleteNotFoundErrorScenario existingData startWorld).1
      = some (GoError.client (ClientError.aws "ClusterNotFound" "no such cluster")) := by
  decide

/-- C16 (amended): after the terminate call has been accepted, if the first `k`
polls answer without error and do not show TERMINATED or TERMINATED_WITH_ERRORS
(TERMINATING, a nil `Cluster` or a missing status all ask for another poll) and
the next poll, started before the 20 minute deadline, shows TERMINATED or
TERMINATED_WITH_ERRORS, Delete returns nil right after that poll, having polled
`k + 1` times. -/
theorem delete_succeeds_once_terminated (env : Env) (d : ResourceData) (w : World) (k : Nat)
    (hterm : env.terminateJobFlows (callCount Call.isTerminateJobFlows w.trace) = none)
    (hretry : ∀ i, i < k →
      (∃ resp, env.describeCluster (describeClusterCount w.trace + i) = Except.ok resp) ∧
      (∀ s, observedState (env.describeCluster (describeClusterCount w.trace + i)) = some s →
        s ≠ "TERMINATED" ∧ s ≠ "TERMINATED_WITH_ERRORS"))
    (hdone : ∃ s, observedState (env.describeCluster (describeClusterCount w.trace + k)) = some s ∧
      (s = "TERMINATED" ∨ s = "TERMINATED_WITH_ERRORS"))
    (ht : deletePollStart env (describeClusterCount w.trace)
        (TerminateJobFlows env { JobFlowIds := [some d.Id] } w).2.now k
      < (TerminateJobFlows env { JobFlowIds := [some d.Id] } w).2.now + 1200000) :
    (resourceAwsEMRClusterDelete env d w).1 = none ∧
      (resourceAwsEMRClusterDelete env d w).2.trace
        = w.trace ++ [Call.TerminateJobFlows { JobFlowIds := [some d.Id] }]
            ++ List.replicate (k + 1) (Call.DescribeCluster { ClusterId := some d.Id }) := by
  have hcount : describeClusterCount
      (TerminateJobFlows env { JobFlowIds := [some d.Id] } w).2.trace
      = describeClusterCount w.trace := by
    simp [TerminateJobFlows, describeClusterCount_append, describeClusterCount]
  have hlow := deletePollStart_lower env k (describeClusterCount w.trace)
    (TerminateJobFlows env { JobFlowIds := [some d.Id] } w).2.now
  have hk : k < 1200000 + 1 := by
    have h1 : retryMinDelay = 500 := rfl
    rw [h1] at hlow
    omega
  have h := deleteLoop_success env d
    ((TerminateJobFlows env { JobFlowIds := [some d.Id] } w).2.now + 1200000) k (1200000 + 1)
    (none, "") (TerminateJobFlows env { JobFlowIds := [some d.Id] } w).2 hk
    (by rw [hcount]; exact hretry) (by rw [hcount]; exact hdone) (by rw [hcount]; exact ht)
  have ht1 : (TerminateJobFlows env { JobFlowIds := [some d.Id] } w).1 = none := hterm
  have hres : resourceAwsEMRClusterDelete env d w
      = (none, (deletePolling env d (TerminateJobFlows env { JobFlowIds := [some d.Id] } w).2).2.2) := by
    have h1 : (deletePolling env d
        (TerminateJobFlows env { JobFlowIds := [some d.Id] } w).2).1 = none := h.1
    simp only [resourceAwsEMRClusterDelete, ht1, h1, isResourceTimeoutError]
    simp
  rw [hres]
  refine ⟨rfl, ?_⟩
  have h2 := h.2
  simp only [deletePolling, Retry]
  rw [h2]
  simp [TerminateJobFlows]

theorem delete_succeeds_once_terminated_witness :
    deleteNilClusterScenario.terminateJobFlows
        (callCount Call.isTerminateJobFlows startWorld.trace) = none ∧
    (resourceAwsEMRClusterDelete deleteNilClusterScenario existingData startWorld).1 = none ∧
    (resourceAwsEMRClusterDelete deleteNilClusterScenario existingData startWorld).2.trace
      = startWorld.trace ++ [Call.TerminateJobFlows { JobFlowIds := [some existingData.Id] }]
          ++ List.replicate (3 + 1) (Call.DescribeCluster { ClusterId := some existingData.Id }) := by
  have hretry : ∀ i, i < 3 →
      (∃ resp, deleteNilClusterScenario.describeCluster
          (describeClusterCount startWorld.trace + i) = Except.ok resp) ∧
      (∀ s, observedState (deleteNilClusterScenario.describeCluster
          (describeClusterCount startWorld.trace + i)) = some s →
        s ≠ "TERMINATED" ∧ s ≠ "TERMINATED_WITH_ERRORS") := by
    intro i hi
    interval_cases i
    · refine ⟨⟨_, rfl⟩, ?_⟩
      intro s hs
      have h : s = "TERMINATING" := (Option.some.inj hs).symm
      subst h
      decide
    · refine ⟨⟨_, rfl⟩, ?_⟩
      intro s hs
      have h : s = "TERMINATING" := (Option.some.inj hs).symm
      subst h
      decide
    · refine ⟨⟨_, rfl⟩, ?_⟩
      intro s hs
      cases hs
  exact ⟨rfl,
    delete_succeeds_once_terminated deleteNilClusterScenario existingData startWorld 3 rfl hretry
      ⟨"TERMINATED", rfl, Or.inl rfl⟩ (by decide)⟩

/-- C17: after the terminate call has been accepted, when the 20 minute polling
ends with a timeout Delete returns the error "EMR Cluster (<id>) has (<state>)
state", where `<state>` is the state shown by the last of the polls made that
carried a status and is empty when none did; on every other outcome Delete
returns the result of the polling unchanged. -/
theorem delete_timeout_reports_last_state (env : Env) (d : ResourceData) (w : World)
    (hterm : env.terminateJobFlows (callCount Call.isTerminateJobFlows w.trace) = none) :
    (isResourceTimeoutError
        (deletePolling env d (TerminateJobFlows env { JobFlowIds := [some d.Id] } w).2).1 = true →
      ∃ n,
        (resourceAwsEMRClusterDelete env d w).2.trace
          = w.trace ++ [Call.TerminateJobFlows { JobFlowIds := [some d.Id] }]
              ++ List.replicate n (Call.DescribeCluster { ClusterId := some d.Id }) ∧
        (resourceAwsEMRClusterDelete env d w).1
          = some (GoError.errorf ("EMR Cluster (" ++ d.Id ++ ") has ("
              ++ lastCarriedState env (describeClusterCount w.trace) "" n ++ ") state")) ∧
        ((∀ i, i < n →
            observedState (env.describeCluster (describeClusterCount w.trace + i)) = none) →
          lastCarriedState env (describeClusterCount w.trace) "" n = "") ∧
        (∀ i x, i < n →
          observedState (env.describeCluster (describeClusterCount w.trace + i)) = some x →
          (∀ j, i < j → j < n →
            observedState (env.describeCluster (describeClusterCount w.trace + j)) = none) →
          lastCarriedState env (describeClusterCount w.trace) "" n = x)) ∧
    (isResourceTimeoutError
        (deletePolling env d (TerminateJobFlows env { JobFlowIds := [some d.Id] } w).2).1 = false →
      resourceAwsEMRClusterDelete env d w
        = ((deletePolling env d (TerminateJobFlows env { JobFlowIds := [some d.Id] } w).2).1,
            (deletePolling env d
              (TerminateJobFlows env { JobFlowIds := [some d.Id] } w).2).2.2)) := by
  have ht1 : (TerminateJobFlows env { JobFlowIds := [some d.Id] } w).1 = none := hterm
  have hcount : describeClusterCount
      (TerminateJobFlows env { JobFlowIds := [some d.Id] } w).2.trace
      = describeClusterCount w.trace := by
    simp [TerminateJobFlows, describeClusterCount_append, describeClusterCount]
  constructor
  · intro hto
    obtain ⟨n, htr, hst⟩ := deleteLoop_captures_last_state env d
      ((TerminateJobFlows env { JobFlowIds := [some d.Id] } w).2.now + 1200000) (1200000 + 1)
      (none, "") (TerminateJobFlows env { JobFlowIds := [some d.Id] } w).2
    rw [hcount] at hst
    have hres : resourceAwsEMRClusterDelete env d w
        = (some (GoError.errorf ("EMR Cluster (" ++ d.Id ++ ") has ("
              ++ (deletePolling env d
                  (TerminateJobFlows env { JobFlowIds := [some d.Id] } w).2).2.1.2
              ++ ") state")),
            (deletePolling env d
              (TerminateJobFlows env { JobFlowIds := [some d.Id] } w).2).2.2) := by
      simp only [resourceAwsEMRClusterDelete, ht1, hto, if_true]
    refine ⟨n, ?_, ?_, ?_, ?_⟩
    · rw [hres]
      simp only [deletePolling, Retry]
      rw [htr]
      simp [TerminateJobFlows]
    · rw [hres]
      simp only [deletePolling, Retry]
      rw [hst]
    · exact lastCarriedState_none env n _ _
    · intro i x hi hx hlater
      exact lastCarriedState_last env n _ _ i x hi hx hlater
  · intro hto
    simp only [resourceAwsEMRClusterDelete, ht1, hto]
    simp

theorem delete_timeout_reports_last_state_witness :
    deleteStuckScenario.terminateJobFlows
        (callCount Call.isTerminateJobFlows startWorld.trace) = none ∧
    isResourceTimeoutError
        (deletePolling deleteStuckScenario existingData
          (TerminateJobFlows deleteStuckScenario { JobFlowIds := [some existingData.Id] }
            startWorld).2).1 = true ∧
    ∃ n,
      (resourceAwsEMRClusterDelete deleteStuckScenario existingData startWorld).2.trace
        = startWorld.trace ++ [Call.TerminateJobFlows { JobFlowIds := [some existingData.Id] }]
            ++ List.replicate n (Call.DescribeCluster { ClusterId := some existingData.Id }) ∧
      (resourceAwsEMRClusterDelete deleteStuckScenario existingData startWorld).1
        = some (GoError.errorf ("EMR Cluster (" ++ existingData.Id ++ ") has ("
            ++ lastCarriedState deleteStuckScenario (describeClusterCount startWorld.trace) "" n
            ++ ") state")) := by
  obtain ⟨n, h1, h2, -, -⟩ :=
    (delete_timeout_reports_last_state deleteStuckScenario existingData startWorld rfl).1
      (by decide)
  exact ⟨rfl, by decide, n, h1, h2⟩

/-! ## Update -/

theorem updateVisibleToAllUsers_accepted (env : Env) (d : ResourceData) (w : World)
    (h : env.setVisibleToAllUsers (callCount Call.isSetVisibleToAllUsers w.trace) = none) :
    updateVisibleToAllUsers env d w
      = (none,
          if d.HasChange "visible_to_all_users" then
            (SetVisibleToAllUsers env
              { JobFlowIds := [some d.Id], VisibleToAllUsers := some d.visible_to_all_users } w).2
          else w) := by
  unfold updateVisibleToAllUsers
  split
  · simp [SetVisibleToAllUsers, h]
  · rfl

theorem updateTerminationProtection_accepted (env : Env) (d : ResourceData) (w : World)
    (h : env.setTerminationProtection (setTerminationProtectionCount w.trace) = none) :
    updateTerminationProtection env d w
      = (none,
          if d.HasChange "termination_protection" then
            (SetTerminationProtection env
              { JobFlowIds := [some d.Id],
                TerminationProtected := some (BoolValue d.termination_protection) } w).2
          else w) := by
  unfold updateTerminationProtection
  split
  · simp [SetTerminationProtection, h]
  · rfl

theorem updateStepConcurrencyLevel_accepted (env : Env) (d : ResourceData) (w : World)
    (h : env.modifyCluster (callCount Call.isModifyCluster w.trace) = none) :
    updateStepConcurrencyLevel env d w
      = (none,
          if d.HasChange "step_concurrency_level" then
            (ModifyCluster env
              { ClusterId := some d.Id, StepConcurrencyLevel := some d.step_concurrency_level }
              w).2
          else w) := by
  unfold updateStepConcurrencyLevel
  split
  · simp [ModifyCluster, h]
  · rfl

theorem comparePair_stop (normalize : String → String × Option GoError)
    (hashcode : String → Int) (diff : ResourceDiff) (o n : InstanceGroupMap)
    (keys : List String) (h : comparePair normalize hashcode diff o n = PairStep.stop keys) :
    o.instance_role = n.instance_role ∧
    (∃ nm, o.name = some nm ∧ n.name = some nm) ∧
    ∃ oP nP, o.autoscaling_policy = some oP ∧ n.autoscaling_policy = some nP ∧
      ¬ (oP = "" ∧ nP = "") ∧
      (normalize oP).2 = none ∧ (normalize nP).2 = none ∧
      (normalize oP).1 = (normalize nP).1 ∧
      keys = (diff.GetChangedKeysPrefix
        ("instance_group." ++
          toString (resourceAwsEMRClusterInstanceGroupHash normalize hashcode o))).map
        trimCountSuffix := by
  unfold comparePair at h
  by_cases hr : o.instance_role = n.instance_role
  · simp only [hr, ne_eq, not_true_eq_false, if_false] at h
    cases hon : o.name with
    | none => simp [hon] at h
    | some oName =>
      cases hnn : n.name with
      | none => simp [hon, hnn] at h
      | some nName =>
        simp only [hon, hnn] at h
        by_cases hnm : oName = nName
        · simp only [hnm, ne_eq, not_true_eq_false, if_false] at h
          cases hop : o.autoscaling_policy with
          | none => simp [hop] at h
          | some oP =>
            cases hnp : n.autoscaling_policy with
            | none => simp [hop, hnp] at h
            | some nP =>
              simp only [hop, hnp] at h
              by_cases hboth : oP = "" ∧ nP = ""
              · simp [hboth] at h
              · simp only [hboth, if_false] at h
                cases hoe : (normalize oP).2 with
                | some err => simp [hoe] at h
                | none =>
                  cases hne : (normalize nP).2 with
                  | some err => simp [hoe, hne] at h
                  | none =>
                    simp only [hoe, hne] at h
                    by_cases hj : (normalize oP).1 = (normalize nP).1
                    · simp only [hj, ne_eq, not_true_eq_false, if_false] at h
                      refine ⟨hr, ⟨nName, by rw [hnm], rfl⟩, oP, nP, rfl, rfl, hboth, hoe, hne, hj, ?_⟩
                      injection h with h
                      exact h.symm
                    · simp [hj] at h
        · simp [hnm] at h
  · simp [hr] at h

theorem compareWithNew_stop (normalize : String → String × Option GoError)
    (hashcode : String → Int) (diff : ResourceDiff) (o : InstanceGroupMap)
    (keys : List String) (ns : List InstanceGroupMap)
    (h : compareWithNew normalize hashcode diff o ns = PairStep.stop keys) :
    ∃ n ∈ ns, comparePair normalize hashcode diff o n = PairStep.stop keys := by
  induction ns with
  | nil => simp [compareWithNew] at h
  | cons n ns ih =>
    unfold compareWithNew at h
    cases hc : comparePair normalize hashcode diff o n with
    | next =>
      simp only [hc] at h
      obtain ⟨n2, hn2, h2⟩ := ih h
      exact ⟨n2, List.mem_cons_of_mem _ hn2, h2⟩
    | stop ks =>
      simp only [hc] at h
      exact ⟨n, List.mem_cons_self _ _, by rw [hc, h]⟩
    | fail err => simp [hc] at h
    | crash what => simp [hc] at h

theorem forceNewLoop_mem (normalize : String → String × Option GoError)
    (hashcode : String → Int) (diff : ResourceDiff) (os : List InstanceGroupMap)
    (forced : List String) (k : String)
    (h : k ∈ (forceNewLoop normalize hashcode diff os forced).2) :
    k ∈ forced ∨ ∃ o ∈ os, ∃ keys,
      compareWithNew normalize hashcode diff o diff.newInstanceGroups = PairStep.stop keys ∧
      k ∈ keys := by
  induction os generalizing forced with
  | nil => exact Or.inl (by simpa [forceNewLoop] using h)
  | cons o os ih =>
    unfold forceNewLoop at h
    cases hc : compareWithNew normalize hashcode diff o diff.newInstanceGroups with
    | next =>
      simp only [hc] at h
      rcases ih forced h with h1 | ⟨o2, ho2, keys, h2, h3⟩
      · exact Or.inl h1
      · exact Or.inr ⟨o2, List.mem_cons_of_mem _ ho2, keys, h2, h3⟩
    | stop ks =>
      simp only [hc] at h
      rcases ih (forced ++ ks) h with h1 | ⟨o2, ho2, keys, h2, h3⟩
      · rcases List.mem_append.mp h1 with h4 | h4
        · exact Or.inl h4
        · exact Or.inr ⟨o, List.mem_cons_self _ _, ks, hc, h4⟩
      · exact Or.inr ⟨o2, List.mem_cons_of_mem _ ho2, keys, h2, h3⟩
    | fail err =>
      simp only [hc] at h
      exact Or.inl h
    | crash what =>
      simp only [hc] at h
      exact Or.inl h

/-- C22: every key the `instance_group` CustomizeDiff hands to `ForceNew` is a
changed key (without a trailing ".#") under the hash of an old group, and it is
forced only if `instance_group` has a change, the old and the new set have the
same size, and some new group has the same `instance_role` and `name` as that old
group and an `autoscaling_policy` that is not empty on both sides and normalises
without error to the same JSON as the old one - where, if normalising keeps the
empty string and only the empty string empty, neither policy is empty. If the set
sizes differ nothing is forced and no error is returned. -/
theorem customizeDiff_forces_only_matched_groups (normalize : String → String × Option GoError)
    (hashcode : String → Int) (diff : ResourceDiff) :
    (∀ k, k ∈ (resourceAwsEMRClusterCustomizeDiff normalize hashcode diff).2 →
      diff.hasChangeInstanceGroup = true ∧
      diff.oldInstanceGroups.length = diff.newInstanceGroups.length ∧
      ∃ o ∈ diff.oldInstanceGroups, ∃ n ∈ diff.newInstanceGroups,
        o.instance_role = n.instance_role ∧
        (∃ nm, o.name = some nm ∧ n.name = some nm) ∧
        ∃ oP nP, o.autoscaling_policy = some oP ∧ n.autoscaling_policy = some nP ∧
          ¬ (oP = "" ∧ nP = "") ∧
          (normalize oP).2 = none ∧ (normalize nP).2 = none ∧
          (normalize oP).1 = (normalize nP).1 ∧
          ((normalize "").1 = "" →
            (∀ s, s ≠ "" → (normalize s).2 = none → (normalize s).1 ≠ "") →
            oP ≠ "" ∧ nP ≠ "") ∧
          ∃ k0 ∈ diff.GetChangedKeysPrefix
              ("instance_group." ++
                toString (resourceAwsEMRClusterInstanceGroupHash normalize hashcode o)),
            k = trimCountSuffix k0) ∧
    (diff.oldInstanceGroups.length ≠ diff.newInstanceGroups.length →
      resourceAwsEMRClusterCustomizeDiff normalize hashcode diff = (Exit.returned none, [])) := by
  constructor
  · intro k hk
    unfold resourceAwsEMRClusterCustomizeDiff at hk
    cases hch : diff.hasChangeInstanceGroup with
    | false => simp [hch] at hk
    | true =>
      simp only [hch, if_true] at hk
      by_cases hlen : diff.oldInstanceGroups.length = diff.newInstanceGroups.length
      · simp only [hlen, ne_eq, not_true_eq_false, if_false] at hk
        rcases forceNewLoop_mem normalize hashcode diff _ _ k hk with h0 | ⟨o, ho, keys, hs, hkk⟩
        · simp at h0
        · obtain ⟨n, hn, hp⟩ := compareWithNew_stop normalize hashcode diff o keys _ hs
          obtain ⟨hr, hnm, oP, nP, hop, hnp, hboth, hoe, hne, hj, hkeys⟩ :=
            comparePair_stop normalize hashcode diff o n keys hp
          refine ⟨rfl, hlen, o, ho, n, hn, hr, hnm, oP, nP, hop, hnp, hboth, hoe, hne, hj, ?_, ?_⟩
          · intro hempty hnonempty
            constructor
            · intro ho0
              have hn0 : nP ≠ "" := fun hn0 => hboth ⟨ho0, hn0⟩
              apply hnonempty nP hn0 hne
              rw [← hj, ho0, hempty]
            · intro hn0
              have ho0 : oP ≠ "" := fun ho0 => hboth ⟨ho0, hn0⟩
              apply hnonempty oP ho0 hoe
              rw [hj, hn0, hempty]
          · rw [hkeys] at hkk
            obtain ⟨k0, hk0, hk1⟩ := List.mem_map.mp hkk
            exact ⟨k0, hk0, hk1.symm⟩
      · simp [hlen] at hk
  · intro hlen
    unfold resourceAwsEMRClusterCustomizeDiff
    cases hch : diff.hasChangeInstanceGroup with
    | false => simp
    | true => simp [hlen]

theorem customizeDiff_forces_only_matched_groups_witness :
    "instance_group.59.ebs_config" ∈
        (resourceAwsEMRClusterCustomizeDiff normalizeNothing hashLength taskGroupDiff).2 ∧
      taskGroupDiff.oldInstanceGroups.length = taskGroupDiff.newInstanceGroups.length :=
  have hk : "instance_group.59.ebs_config" ∈
      (resourceAwsEMRClusterCustomizeDiff normalizeNothing hashLength taskGroupDiff).2 := by
    decide
  ⟨hk,
    ((customizeDiff_forces_only_matched_groups normalizeNothing hashLength taskGroupDiff).1
      "instance_group.59.ebs_config" hk).2.1⟩

/-! ## The `instance_group` set hash -/

/-- C29: two instance-group maps that agree on `instance_role`, `instance_type`,
`instance_count`, `name`, `bid_price` and on the normalised JSON of
`autoscaling_policy`, and that each have at most one `ebs_config` entry, have the
same hash, whatever the entry contains. -/
theorem instanceGroupHash_ignores_single_ebs_config
    (normalize : String → String × Option GoError) (hashcode : String → Int)
    (m1 m2 : InstanceGroupMap)
    (hrole : m1.instance_role = m2.instance_role)
    (htype : m1.instance_type = m2.instance_type)
    (hcount : m1.instance_count = m2.instance_count)
    (hname : m1.name = m2.name)
    (hbid : m1.bid_price = m2.bid_price)
    (hpolicy : m1.autoscaling_policy.map (fun v => (normalize v).1)
      = m2.autoscaling_policy.map (fun v => (normalize v).1))
    (h1 : ∀ configs, m1.ebs_config = some configs → configs.length ≤ 1)
    (h2 : ∀ configs, m2.ebs_config = some configs → configs.length ≤ 1) :
    resourceAwsEMRClusterInstanceGroupHash normalize hashcode m1
      = resourceAwsEMRClusterInstanceGroupHash normalize hashcode m2 := by
  have e1 : ∀ (m : InstanceGroupMap) (buf : String),
      (∀ configs, m.ebs_config = some configs → configs.length ≤ 1) →
      (match m.ebs_config with
        | some configs =>
          if configs.length > 1 then
            configs.foldl
              (fun b ebsConfigs =>
                b ++ (toString (resourceAwsEMRClusterEBSConfigHash hashcode ebsConfigs) ++ "-"))
              buf
          else buf
        | none => buf) = buf := by
    intro m buf hm
    cases he : m.ebs_config with
    | none => rfl
    | some configs =>
      have := hm configs he
      simp only
      rw [if_neg (by omega)]
  have e2 : ∀ (buf : String),
      (match m1.autoscaling_policy with
        | some v => buf ++ ((normalize v).1 ++ "-")
        | none => buf)
      = (match m2.autoscaling_policy with
        | some v => buf ++ ((normalize v).1 ++ "-")
        | none => buf) := by
    intro buf
    cases hp1 : m1.autoscaling_policy with
    | none =>
      cases hp2 : m2.autoscaling_policy with
      | none => rfl
      | some v2 => simp [hp1, hp2] at hpolicy
    | some v1 =>
      cases hp2 : m2.autoscaling_policy with
      | none => simp [hp1, hp2] at hpolicy
      | some v2 =>
        simp only [hp1, hp2, Option.map_some', Option.some.injEq] at hpolicy
        simp only [hpolicy]
  unfold resourceAwsEMRClusterInstanceGroupHash
  simp only [e1 m1 _ h1, e1 m2 _ h2, hrole, htype, hcount, hname, hbid, e2]

theorem instanceGroupHash_ignores_single_ebs_config_witness :
    resourceAwsEMRClusterInstanceGroupHash normalizeNothing hashLength taskGroup
      = resourceAwsEMRClusterInstanceGroupHash normalizeNothing hashLength
          { taskGroup with ebs_config := some [defaultEbsConfig] } :=
  instanceGroupHash_ignores_single_ebs_config normalizeNothing hashLength taskGroup
    { taskGroup with ebs_config := some [defaultEbsConfig] } rfl rfl rfl rfl rfl rfl
    (fun _ h => by cases h; decide) (fun _ h => by cases h; decide)

/-! ## The `log_uri` diff suppression -/

/-- C23: the URIs "s3://bucket/logs/" and "s3n://bucket/logs/" become equal once
every "s3n://" is replaced by "s3://" in both, and the difference is suppressed
when the old value carries the "s3n://" form, but with the old value
"s3://bucket/logs/" and the new value "s3n://bucket/logs/" the function returns
false: only the old value is rewritten before the comparison. -/
theorem log_uri_suppress_misses_s3n_in_new :
    replaceAllChars "s3n://".data "s3://".data 0 "s3://bucket/logs/".data
      = replaceAllChars "s3n://".data "s3://".data 0 "s3n://bucket/logs/".data ∧
    logUriDiffSuppress "s3n://bucket/logs/" "s3://bucket/logs/" = true ∧
    logUriDiffSuppress "s3://bucket/logs/" "s3n://bucket/logs/" = false := by
  decide

/-! ## The deprecated core instance attributes -/

theorem getOk_string_value (s : String) : (if s ≠ "" then s else "") = s := by
  split <;> simp_all

theorem getOk_int_value (n : Int) : (if n ≠ 0 then n else 0) = n := by
  split <;> simp_all

/-- C24: for the desired `core_instance_count` 3, Create asks for a CORE group
with `InstanceCount` 3 and Read writes a `RequestedInstanceCount` of 3 back as
`core_instance_count` 3, but the single `ModifyInstanceGroups` request of Update
asks for `InstanceCount` 2 for the core group. -/
theorem update_core_instance_count_is_one_less :
    createCoreInstanceGroup coreCountUpdate []
      = Except.ok [{ InstanceCount := some 3, InstanceRole := some "CORE",
                     InstanceType := some "m4.large" }] ∧
    (readCoreInstances [listedCoreGroup 3] existingData).core_instance_count = 3 ∧
    (resourceAwsEMRClusterUpdate coreGroupEnv partsNothing coreCountUpdate startWorld).1
      = Exit.returned none ∧
    (resourceAwsEMRClusterUpdate coreGroupEnv partsNothing coreCountUpdate
        startWorld).2.2.trace.filter Call.isModifyInstanceGroups
      = [Call.ModifyInstanceGroups
          { InstanceGroups := [{ InstanceGroupId := some "ig-CORE", InstanceCount := some 2 }] }] := by
  refine ⟨rfl, rfl, ?_, ?_⟩ <;> decide

/-- C25: the section of Create on the deprecated attributes returns the error
"Must specify both `core_instance_count` and `core_instance_type`" if and only if
the count is positive with an empty type or the type is not empty with count 0,
and Create then returns that error with the resource data and the trace of
remote calls unchanged; with a positive count and a type, one CORE group with
that count and type is appended; with count 0 and no type, the instance groups
stay as they are. -/
theorem create_checks_core_instance_pair (env : Env)
    (read : ResourceData → World → Option GoError × ResourceData × World)
    (finish : List InstanceGroupConfig → Except GoError RunJobFlowInput)
    (instanceGroups : List InstanceGroupConfig) (d : ResourceData) (w : World) :
    (createCoreInstanceGroup d instanceGroups
        = Except.error
          (GoError.errorf "Must specify both `core_instance_count` and `core_instance_type`")
      ↔ (d.core_instance_count > 0 ∧ d.core_instance_type = "") ∨
        (d.core_instance_count = 0 ∧ d.core_instance_type ≠ "")) ∧
    ((d.core_instance_count > 0 ∧ d.core_instance_type = "") ∨
        (d.core_instance_count = 0 ∧ d.core_instance_type ≠ "") →
      createFromCoreInstances env read finish instanceGroups d w
        = (Exit.returned (some (GoError.errorf
            "Must specify both `core_instance_count` and `core_instance_type`")), d, w)) ∧
    (d.core_instance_count > 0 ∧ d.core_instance_type ≠ "" →
      createCoreInstanceGroup d instanceGroups
        = Except.ok (instanceGroups ++
            [{ InstanceCount := some d.core_instance_count, InstanceRole := some "CORE",
               InstanceType := some d.core_instance_type }])) ∧
    (d.core_instance_count = 0 ∧ d.core_instance_type = "" →
      createCoreInstanceGroup d instanceGroups = Except.ok instanceGroups) := by
  have hfail : (d.core_instance_count > 0 ∧ d.core_instance_type = "") ∨
      (d.core_instance_count = 0 ∧ d.core_instance_type ≠ "") →
      createCoreInstanceGroup d instanceGroups
        = Except.error
          (GoError.errorf "Must specify both `core_instance_count` and `core_instance_type`") := by
    intro h
    simp only [createCoreInstanceGroup, getOk_string_value, getOk_int_value]
    rw [if_pos (Or.comm.mp h)]
  refine ⟨⟨?_, hfail⟩, ?_, ?_, ?_⟩
  · intro h
    by_contra hn
    simp only [createCoreInstanceGroup, getOk_string_value, getOk_int_value] at h
    rw [if_neg (fun hc => hn (Or.comm.mp hc))] at h
    split at h <;> cases h
  · intro h
    simp only [createFromCoreInstances, hfail h]
  · intro h
    simp only [createCoreInstanceGroup, getOk_string_value, getOk_int_value]
    rw [if_neg (by intro hc; rcases hc with ⟨h1, _⟩ | ⟨_, h2⟩
                   · omega
                   · exact h.2 h2), if_pos h]
  · intro h
    simp only [createCoreInstanceGroup, getOk_string_value, getOk_int_value]
    rw [if_neg (by intro hc; rcases hc with ⟨_, h1⟩ | ⟨h2, _⟩
                   · exact h1 h.2
                   · omega), if_neg (by intro hc; omega)]

theorem create_checks_core_instance_pair_witness :
    createFromCoreInstances coreGroupEnv readNothing (fun _ => Except.ok sampleParams) []
        { freshData with core_instance_count := 3 } startWorld
      = (Exit.returned (some (GoError.errorf
          "Must specify both `core_instance_count` and `core_instance_type`")),
        { freshData with core_instance_count := 3 }, startWorld) :=
  (create_checks_core_instance_pair coreGroupEnv readNothing (fun _ => Except.ok sampleParams) []
    { freshData with core_instance_count := 3 } startWorld).2.1 (Or.inl ⟨by decide, rfl⟩)

/-! ## Autoscaling policy dimensions -/

theorem get?_append_cons_length (front : List MetricDimension) (m : MetricDimension)
    (rest : List MetricDimension) : (front ++ m :: rest).get? front.length = some m := by
  induction front with
  | nil => rfl
  | cons x xs ih => simpa using ih

theorem removeJobFlowIdLoop_skip (mid front back arr : List MetricDimension) (a b j len : Nat)
    (harr : arr = front ++ mid ++ back) (hj : j = front.length) (ha : a = mid.length + b)
    (hmid : ∀ d ∈ mid, ∃ k, d.Key = some k ∧ k ≠ "JobFlowId") :
    removeJobFlowIdLoop a j arr len = removeJobFlowIdLoop b (j + mid.length) arr len := by
  induction mid generalizing front a j with
  | nil =>
    subst ha
    simp
  | cons m mid ih =>
    obtain ⟨k, hk, hkne⟩ := hmid m (List.mem_cons_self _ _)
    have hlen : a = (mid.length + b) + 1 := by
      rw [ha, List.length_cons]
      omega
    have hget : arr.get? j = some m := by
      rw [harr, hj, List.append_assoc]
      exact get?_append_cons_length front m (mid ++ back)
    rw [hlen, removeJobFlowIdLoop]
    simp only [hget, hk, hkne, if_false]
    rw [ih (front ++ [m]) (mid.length + b) (j + 1) (by rw [harr]; simp) (by rw [hj]; simp) rfl
      (fun d hd => hmid d (List.mem_cons_of_mem _ hd))]
    congr 1
    rw [List.length_cons]
    omega

/-- On a rule without a "JobFlowId" dimension (every key there) the loop leaves
the dimensions as they are. -/
theorem removeJobFlowIdDimensions_without_jobFlowId (name : Option String)
    (dims : List MetricDimension)
    (hdims : ∀ d ∈ dims, ∃ k, d.Key = some k ∧ k ≠ "JobFlowId") :
    removeJobFlowIdDimensions { Name := name, Dimensions := some dims }
      = Outcome.done { Name := name, Dimensions := if dims = [] then none else some dims } := by
  have h := removeJobFlowIdLoop_skip dims [] [] dims dims.length 0 0 dims.length (by simp) rfl rfl
    hdims
  simp only [removeJobFlowIdDimensions, Option.getD_some, h, removeJobFlowIdLoop]
  cases dims with
  | nil => simp
  | cons d ds => simp

/-- On a rule with exactly one "JobFlowId" dimension (every key there) the loop
removes that dimension and keeps the others in their order. -/
theorem removeJobFlowIdDimensions_single (name v : Option String)
    (pre post : List MetricDimension)
    (hpre : ∀ d ∈ pre, ∃ k, d.Key = some k ∧ k ≠ "JobFlowId")
    (hpost : ∀ d ∈ post, ∃ k, d.Key = some k ∧ k ≠ "JobFlowId") :
    removeJobFlowIdDimensions
        { Name := name,
          Dimensions := some (pre ++ { Key := some "JobFlowId", Value := v } :: post) }
      = Outcome.done
        { Name := name, Dimensions := if pre ++ post = [] then none else some (pre ++ post) } := by
  generalize hdims : pre ++ { Key := some "JobFlowId", Value := v } :: post = dims
  have hn : dims.length = pre.length + (post.length + 1) := by
    rw [← hdims]
    simp
  have h1 := removeJobFlowIdLoop_skip pre [] ({ Key := some "JobFlowId", Value := v } :: post)
    dims dims.length (post.length + 1) 0 dims.length (by rw [← hdims]; simp) rfl hn hpre
  have hget : dims.get? pre.length = some { Key := some "JobFlowId", Value := v } := by
    rw [← hdims]
    exact get?_append_cons_length pre _ post
  have e1 : dims.take pre.length = pre := by
    rw [← hdims]
    simp
  have e2 : (dims.take dims.length).drop (pre.length + 1) = post := by
    rw [List.take_length, ← hdims, List.drop_append]
    rfl
  simp only [removeJobFlowIdDimensions, Option.getD_some]
  rw [h1, Nat.zero_add, removeJobFlowIdLoop]
  simp only [hget, if_true]
  rw [if_neg (by omega), e1, e2]
  cases post with
  | nil =>
    simp only [removeJobFlowIdLoop, List.append_nil]
    have hl : dims.length - 1 = pre.length := by
      rw [hn]
      simp
    rw [hl]
    cases pre with
    | nil => simp
    | cons p ps => simp
  | cons p0 ptail =>
    have e3 : dims.drop (dims.length - 1) = (p0 :: ptail).drop ptail.length := by
      have : dims.length - 1 = pre.length + (ptail.length + 1) := by
        rw [hn, List.length_cons]
        omega
      rw [this, ← hdims, List.drop_append]
      rfl
    have htail : ∀ d ∈ ptail ++ (p0 :: ptail).drop ptail.length,
        ∃ k, d.Key = some k ∧ k ≠ "JobFlowId" := by
      intro d hd
      rcases List.mem_append.mp hd with h | h
      · exact hpost d (List.mem_cons_of_mem _ h)
      · exact hpost d (List.mem_of_mem_drop h)
    have hdl : ((p0 :: ptail).drop ptail.length).length = 1 := by simp
    rw [e3]
    have h2 := removeJobFlowIdLoop_skip (ptail ++ (p0 :: ptail).drop ptail.length) (pre ++ [p0]) []
      (pre ++ p0 :: ptail ++ (p0 :: ptail).drop ptail.length) (p0 :: ptail).length 0
      (pre.length + 1) (dims.length - 1) (by simp) (by simp)
      (by rw [List.length_append, hdl]; simp) htail
    rw [h2, removeJobFlowIdLoop]
    have hl : dims.length - 1 = (pre ++ p0 :: ptail).length := by
      rw [hn]
      simp only [List.length_append, List.length_cons]
      omega
    simp only
    rw [hl, List.take_left' rfl]
    have hne : pre ++ p0 :: ptail ≠ [] := by simp
    rw [if_neg (by rw [List.length_eq_zero]; exact hne), if_neg hne]

/-- C26: on a rule whose dimensions are two "JobFlowId" entries the loop panics
with a slice bound out of range, and on a rule whose dimensions are two
"JobFlowId" entries followed by "InstanceGroupId" it ends with a "JobFlowId"
entry still in place; a single "JobFlowId" entry is removed and the other
dimensions keep their order. -/
theorem flatten_policy_two_jobFlowId_dimensions :
    removeJobFlowIdRules
        [{ Name := some "scale-out",
           Dimensions := some [dimension "JobFlowId", dimension "JobFlowId"] }]
      = Outcome.crashed "slice bounds out of range" ∧
    removeJobFlowIdRules
        [{ Name := some "scale-out",
           Dimensions := some [dimension "JobFlowId", dimension "JobFlowId",
             dimension "InstanceGroupId"] }]
      = Outcome.done
        [{ Name := some "scale-out",
           Dimensions := some [dimension "JobFlowId", dimension "InstanceGroupId"] }] ∧
    removeJobFlowIdRules
        [{ Name := some "scale-out",
           Dimensions := some [dimension "ClusterName", dimension "JobFlowId",
             dimension "InstanceGroupId"] }]
      = Outcome.done
        [{ Name := some "scale-out",
           Dimensions := some [dimension "ClusterName", dimension "InstanceGroupId"] }] := by
  decide

/-! ## Read: the steps -/

theorem prependSteps_eq (acc page : List StepSummary) :
    prependSteps acc page = page.reverse ++ acc := by
  unfold prependSteps
  induction page generalizing acc with
  | nil => rfl
  | cons s page ih => simp [List.foldl_cons, ih]

theorem foldl_prependSteps (pages : List (List StepSummary)) (acc : List StepSummary) :
    pages.foldl prependSteps acc = pages.flatten.reverse ++ acc := by
  induction pages generalizing acc with
  | nil => rfl
  | cons p pages ih => simp [List.foldl_cons, ih, prependSteps_eq]

/-- C28: the step list that Read builds from the pages of `ListSteps` is the
reverse of the concatenation of the pages in the order received, hence a
permutation of it: a paged call without error gives that list, and a paged call
with an error gives "error listing steps: ...". -/
theorem read_steps_are_reversed_pages (env : Env) (d : ResourceData) (w : World) :
    let answer := env.listStepsPages (callCount Call.isListStepsPages w.trace)
    (listStepSummaries env d w).1
        = (match answer.2 with
          | some err =>
            Except.error (GoError.wrapf "error listing steps: " (GoError.client err))
          | none => Except.ok answer.1.flatten.reverse) ∧
      answer.1.flatten.reverse.Perm answer.1.flatten ∧
      (listStepSummaries env d w).2.trace
        = w.trace ++ [Call.ListStepsPages { ClusterId := some d.Id }] := by
  intro answer
  have ha : env.listStepsPages (callCount Call.isListStepsPages w.trace) = answer := rfl
  refine ⟨?_, List.reverse_perm _, ?_⟩
  · simp only [listStepSummaries, ListStepsPages, foldl_prependSteps, List.append_nil, ha]
    cases answer.2 <;> rfl
  · simp only [listStepSummaries, ListStepsPages, ha]
    cases answer.2 <;> rfl

/-! ## Remaining instances -/

theorem collectTerminated_length (l : List Instance) (acc terminated : List String)
    (h : collectTerminated l acc = Outcome.done terminated) :
    terminated.length = acc.length
      + l.countP (fun i => decide ((i.Status.map fun s => StringValue s.State)
          = some InstanceStateTerminated)) := by
  induction l generalizing acc with
  | nil =>
    simp only [collectTerminated, Outcome.done.injEq] at h
    simp [h]
  | cons i rest ih =>
    unfold collectTerminated at h
    cases hs : i.Status with
    | none =>
      simp only [hs] at h
      cases hid : i.Ec2InstanceId with
      | none => simp [hid] at h
      | some id =>
        simp only [hid] at h
        rw [ih acc h]
        simp [List.countP_cons, hs]
    | some status =>
      simp only [hs] at h
      by_cases ht : StringValue status.State = InstanceStateTerminated
      · simp only [ht, if_true] at h
        cases hid : i.Ec2InstanceId with
        | none => simp [hid] at h
        | some id =>
          simp only [hid] at h
          rw [ih _ h]
          simp [List.countP_cons, hs, ht]
          omega
      · simp only [ht, if_false] at h
        rw [ih acc h]
        simp [List.countP_cons, hs, ht]

theorem collectTerminated_done (l : List Instance) (acc : List String)
    (hid : ∀ i ∈ l, i.Ec2InstanceId ≠ none) :
    ∃ terminated, collectTerminated l acc = Outcome.done terminated := by
  induction l generalizing acc with
  | nil => exact ⟨acc, rfl⟩
  | cons i rest ih =>
    have hi := hid i (List.mem_cons_self _ _)
    have hrest : ∀ j ∈ rest, j.Ec2InstanceId ≠ none :=
      fun j hj => hid j (List.mem_cons_of_mem _ hj)
    unfold collectTerminated
    cases hidv : i.Ec2InstanceId with
    | none => exact absurd hidv hi
    | some id =>
      cases hs : i.Status with
      | none => exact ih acc hrest
      | some status =>
        by_cases ht : StringValue status.State = InstanceStateTerminated
        · simp only [ht, if_true]
          exact ih _ hrest
        · simp only [ht, if_false]
          exact ih acc hrest

/-- For a response that is not nil and whose instances all carry an id, the
function returns 0 when no instance is listed or every listed instance has a
status with state TERMINATED, and the number of listed instances otherwise. -/
theorem countEMRRemainingInstances_of_response (r : ListInstancesOutput) (id : String)
    (hid : ∀ i ∈ r.Instances, i.Ec2InstanceId ≠ none) :
    countEMRRemainingInstances (some r) id
      = Outcome.done
        (if r.Instances = [] ∨
            ∀ i ∈ r.Instances,
              (i.Status.map fun s => StringValue s.State) = some InstanceStateTerminated
          then 0 else r.Instances.length) := by
  unfold countEMRRemainingInstances
  simp only
  by_cases h0 : r.Instances.length = 0
  · have : r.Instances = [] := List.length_eq_zero.mp h0
    simp [this]
  · have hne : r.Instances ≠ [] := fun h => h0 (by rw [h]; rfl)
    rw [if_neg h0]
    obtain ⟨terminated, ht⟩ := collectTerminated_done r.Instances [] hid
    have hl := collectTerminated_length r.Instances [] terminated ht
    simp only [ht, List.length_nil, Nat.zero_add] at hl ⊢
    by_cases hall : ∀ i ∈ r.Instances,
        (i.Status.map fun s => StringValue s.State) = some InstanceStateTerminated
    · have hc : List.countP (fun i => decide ((i.Status.map fun s => StringValue s.State)
          = some InstanceStateTerminated)) r.Instances = r.Instances.length := by
        rw [List.countP_eq_length]
        intro i hi
        simpa using hall i hi
      rw [if_pos (by rw [hl, hc]), if_pos (Or.inr hall)]
    · have hc : List.countP (fun i => decide ((i.Status.map fun s => StringValue s.State)
          = some InstanceStateTerminated)) r.Instances ≠ r.Instances.length := by
        intro hc
        rw [List.countP_eq_length] at hc
        apply hall
        intro i hi
        simpa using hc i hi
      rw [if_neg (by rw [hl]; exact hc), if_neg (by intro h; rcases h with h | h
                                                    · exact hne h
                                                    · exact hall h)]

/-- C30: on a nil response `countEMRRemainingInstances` does not return 0 but
panics with a nil pointer dereference, because line 1420 reads `resp.Instances`
before line 1422 tests `resp == nil`; on a response without instances it returns
0, on one whose instances are all TERMINATED it returns 0, and on one with a
running instance and an instance without status it returns the number of listed
instances. -/
theorem countEMRRemainingInstances_nil_response_panics :
    countEMRRemainingInstances none "j-2AXXXXXXGAPLF"
      = Outcome.crashed "nil pointer dereference" ∧
    countEMRRemainingInstances (some { Instances := [] }) "j-2AXXXXXXGAPLF" = Outcome.done 0 ∧
    countEMRRemainingInstances
        (some { Instances :=
          [{ Ec2InstanceId := some "i-1", Status := some { State := some "TERMINATED" } },
           { Ec2InstanceId := some "i-2", Status := some { State := some "TERMINATED" } }] })
        "j-2AXXXXXXGAPLF" = Outcome.done 0 ∧
    countEMRRemainingInstances
        (some { Instances :=
          [{ Ec2InstanceId := some "i-1", Status := some { State := some "TERMINATED" } },
           { Ec2InstanceId := some "i-2", Status := some { State := some "RUNNING" } },
           { Ec2InstanceId := some "i-3", Status := none }] })
        "j-2AXXXXXXGAPLF" = Outcome.done 3 := by
  decide

end EMR

namespace CloudTrail

open EMR (ClientError StringValue)

/-! ## Read -/

/-- C11 (as stated, refuted): for a resource that has just been created, a lookup
answered with `EventDataStoreNotFoundException` makes Read return an error
diagnostic and keep the identity. -/
theorem read_notFound_on_new_resource_is_error :
    resourceEventDataStoreRead storeGoneEnv storeRestNothing newStore { trace := [] }
      = ([{ text := "reading CloudTrail Event Data Store (" ++ newStore.Id ++ "): ",
            cause := Err.notFound
              (some (ClientError.aws "EventDataStoreNotFoundException" "not found")) "" }],
          newStore,
          { trace := [Call.GetEventDataStore { EventDataStore := some newStore.Id }] }) ∧
    newStore.Id ≠ "" := by
  decide

/-- C11 (amended): when the lookup is answered with
`EventDataStoreNotFoundException`, Read clears the identity and returns no
diagnostic if the resource is not a new one (`d.IsNewResource()` is false); for a
new resource it returns the error diagnostic "reading CloudTrail Event Data
Store (<id>): ..." and keeps the identity. Either way the lookup is the only
call. -/
theorem read_notFound_clears_identity_unless_new (env : Env)
    (rest : GetEventDataStoreOutput → ResourceData → World →
      List Diagnostic × ResourceData × World)
    (d : ResourceData) (w : World) (m : String)
    (h : env.getEventDataStore (w.trace.countP Call.isGetEventDataStore)
      = Except.error (ClientError.aws "EventDataStoreNotFoundException" m)) :
    (d.IsNewResource = false →
      resourceEventDataStoreRead env rest d w
        = ([], { d with Id := "" },
            { trace := w.trace ++ [Call.GetEventDataStore { EventDataStore := some d.Id }] })) ∧
    (d.IsNewResource = true →
      resourceEventDataStoreRead env rest d w
        = ([{ text := "reading CloudTrail Event Data Store (" ++ d.Id ++ "): ",
              cause := Err.notFound
                (some (ClientError.aws "EventDataStoreNotFoundException" m)) "" }],
            d,
            { trace := w.trace ++ [Call.GetEventDataStore { EventDataStore := some d.Id }] })) := by
  have hf : FindEventDataStoreByARN env d.Id w
      = (Except.error (Err.notFound
            (some (ClientError.aws "EventDataStoreNotFoundException" m)) ""),
          { trace := w.trace ++ [Call.GetEventDataStore { EventDataStore := some d.Id }] }) := by
    simp [FindEventDataStoreByARN, GetEventDataStore, h, ErrCodeEquals,
      ErrCodeEventDataStoreNotFoundException]
  constructor
  · intro hn
    simp [resourceEventDataStoreRead, hf, hn, NotFound, ResourceData.SetId]
  · intro hn
    simp [resourceEventDataStoreRead, hf, hn]

theorem read_notFound_clears_identity_unless_new_witness :
    storeGoneEnv.getEventDataStore ((World.mk []).trace.countP Call.isGetEventDataStore)
      = Except.error (ClientError.aws "EventDataStoreNotFoundException" "not found") ∧
    existingStore.IsNewResource = false ∧
    resourceEventDataStoreRead storeGoneEnv storeRestNothing existingStore { trace := [] }
      = ([], { existingStore with Id := "" },
          { trace := [] ++ [Call.GetEventDataStore { EventDataStore := some existingStore.Id }] }) :=
  ⟨rfl, rfl,
    (read_notFound_clears_identity_unless_new storeGoneEnv storeRestNothing existingStore { trace := [] }
      "not found" rfl).1 rfl⟩

/-! ## Delete -/

/-- C14: when `DeleteEventDataStore` answers `EventDataStoreNotFoundException`,
Delete returns no diagnostic after that single call, without starting a wait;
a second Delete answered the same way succeeds as well. -/
theorem delete_absent_store_is_success (engine : Engine) (env : Env) (d : ResourceData)
    (w : World) (m : String)
    (h : env.deleteEventDataStore (w.trace.countP Call.isDeleteEventDataStore)
      = some (ClientError.aws "EventDataStoreNotFoundException" m)) :
    resourceEventDataStoreDelete engine env d w
        = ([], { trace := w.trace ++ [Call.DeleteEventDataStore { EventDataStore := some d.Id }] }) ∧
      (resourceEventDataStoreDelete engine env d w).2.trace.countP Call.isWaitForStateContext
        = w.trace.countP Call.isWaitForStateContext ∧
      ∀ m2,
        env.deleteEventDataStore (w.trace.countP Call.isDeleteEventDataStore + 1)
          = some (ClientError.aws "EventDataStoreNotFoundException" m2) →
        resourceEventDataStoreDelete engine env d (resourceEventDataStoreDelete engine env d w).2
          = ([], { trace := w.trace
              ++ [Call.DeleteEventDataStore { EventDataStore := some d.Id },
                  Call.DeleteEventDataStore { EventDataStore := some d.Id }] }) := by
  have h1 : resourceEventDataStoreDelete engine env d w
      = ([], { trace := w.trace ++ [Call.DeleteEventDataStore { EventDataStore := some d.Id }] }) := by
    simp [resourceEventDataStoreDelete, DeleteEventDataStore, h, ErrCodeEquals,
      ErrCodeEventDataStoreNotFoundException]
  refine ⟨h1, ?_, ?_⟩
  · rw [h1]
    simp [List.countP_append, Call.isWaitForStateContext]
  · intro m2 h2
    rw [h1]
    have hc : (w.trace ++ [Call.DeleteEventDataStore { EventDataStore := some d.Id }]).countP
        Call.isDeleteEventDataStore = w.trace.countP Call.isDeleteEventDataStore + 1 := by
      simp [List.countP_append, Call.isDeleteEventDataStore]
    simp [resourceEventDataStoreDelete, DeleteEventDataStore, hc, h2, ErrCodeEquals,
      ErrCodeEventDataStoreNotFoundException]

theorem delete_absent_store_is_success_witness :
    storeGoneEnv.deleteEventDataStore ((World.mk []).trace.countP Call.isDeleteEventDataStore)
      = some (ClientError.aws "EventDataStoreNotFoundException" "not found") ∧
    resourceEventDataStoreDelete engineNothing storeGoneEnv existingStore { trace := [] }
      = ([], { trace := []
          ++ [Call.DeleteEventDataStore { EventDataStore := some existingStore.Id }] }) :=
  ⟨rfl,
    (delete_absent_store_is_success engineNothing storeGoneEnv existingStore { trace := [] }
      "not found" rfl).1⟩

/-! ## Update -/

/-- On a change of tags only, Update issues the tags call and nothing else; on a
change of the retention period it sends a request that sets that field alone. -/
theorem store_update_examples :
    (resourceEventDataStoreUpdate engineNothing storeAcceptingEnv expandNames storeReadNothing
        tagsOnlyUpdate { trace := [] }).2.2.trace
      = [Call.UpdateTags existingStore.Id [] [("team", "audit")]] ∧
    (resourceEventDataStoreUpdate engineNothing storeAcceptingEnv expandNames storeReadNothing
        retentionUpdate { trace := [] }).2.2.trace
      = [Call.UpdateEventDataStore
          { AdvancedEventSelectors := none, EventDataStore := some existingStore.Id,
            MultiRegionEnabled := none, Name := none, OrganizationEnabled := none,
            RetentionPeriod := some 90, TerminationProtectionEnabled := none },
        Call.WaitForStateContext
          { Pending := ["CREATED"], Target := ["ENABLED"], Timeout := 300000 }] := by
  decide

/-! ## Finder and status -/

/-- C27: every store that `FindEventDataStoreByARN` returns has a status other
than PENDING_DELETION; a response in that status becomes a not-found error, and
`statusEventDataStore` then reports the absent result (nil object, empty status,
nil error) after the single `GetEventDataStore` call, exactly as it does for
`EventDataStoreNotFoundException`; every object the status function reports has
a status other than PENDING_DELETION. -/
theorem find_never_returns_pending_deletion (env : Env) (arn : String) (w : World) :
    let w1 : World :=
      { trace := w.trace ++ [Call.GetEventDataStore { EventDataStore := some arn }] }
    (∀ output, (FindEventDataStoreByARN env arn w).1 = Except.ok output →
      StringValue output.Status ≠ "PENDING_DELETION") ∧
    (∀ output,
      env.getEventDataStore (w.trace.countP Call.isGetEventDataStore) = Except.ok output →
      StringValue output.Status = "PENDING_DELETION" →
      FindEventDataStoreByARN env arn w
          = (Except.error (Err.notFound none "PENDING_DELETION"), w1) ∧
        NotFound (Err.notFound none "PENDING_DELETION") = true ∧
        statusEventDataStore env arn w = ({ obj := none, state := "", err := none }, w1)) ∧
    (∀ m,
      env.getEventDataStore (w.trace.countP Call.isGetEventDataStore)
        = Except.error (ClientError.aws "EventDataStoreNotFoundException" m) →
      statusEventDataStore env arn w = ({ obj := none, state := "", err := none }, w1)) ∧
    (∀ obj, (statusEventDataStore env arn w).1.obj = some obj →
      StringValue obj.Status ≠ "PENDING_DELETION") := by
  intro w1
  have hfind : ∀ output, (FindEventDataStoreByARN env arn w).1 = Except.ok output →
      StringValue output.Status ≠ "PENDING_DELETION" := by
    intro output h
    unfold FindEventDataStoreByARN at h
    simp only [GetEventDataStore] at h
    cases hg : env.getEventDataStore (w.trace.countP Call.isGetEventDataStore) with
    | error err =>
      simp only [hg] at h
      split at h <;> cases h
    | ok out =>
      simp only [hg] at h
      by_cases hs : StringValue out.Status = EventDataStoreStatusPendingDeletion
      · simp [hs] at h
      · simp only [hs, if_false] at h
        cases h
        exact hs
  refine ⟨hfind, ?_, ?_, ?_⟩
  · intro output hg hs
    have hf : FindEventDataStoreByARN env arn w
        = (Except.error (Err.notFound none "PENDING_DELETION"), w1) := by
      simp [FindEventDataStoreByARN, GetEventDataStore, hg, hs,
        EventDataStoreStatusPendingDeletion, w1]
    refine ⟨hf, rfl, ?_⟩
    simp [statusEventDataStore, hf, NotFound]
  · intro m hg
    simp [statusEventDataStore, FindEventDataStoreByARN, GetEventDataStore, hg, ErrCodeEquals,
      ErrCodeEventDataStoreNotFoundException, NotFound, w1]
  · intro obj h
    unfold statusEventDataStore at h
    cases hf : (FindEventDataStoreByARN env arn w).1 with
    | error err =>
      simp only [hf] at h
      split at h <;> simp at h
    | ok out =>
      simp only [hf] at h
      simp only [Option.some.injEq] at h
      rw [← h]
      exact hfind out hf

theorem find_never_returns_pending_deletion_witness :
    statusEventDataStore storePendingDeletionEnv existingStore.Id { trace := [] }
      = ({ obj := none, state := "", err := none },
        { trace := [] ++ [Call.GetEventDataStore { EventDataStore := some existingStore.Id }] }) :=
  ((find_never_returns_pending_deletion storePendingDeletionEnv existingStore.Id
    { trace := [] }).2.1 pendingDeletionStore rfl rfl).2.2

end CloudTrail

namespace SSM

open EMR (ClientError StringValue)

/-! ## Delete -/

/-- C15 (as stated, refuted): when `DeleteMaintenanceWindow` answers
`DoesNotExistException`, Delete returns the error diagnostic "deleting SSM
Maintenance Window (<id>): ..." instead of succeeding. -/
theorem delete_absent_window_is_error :
    resourceMaintenanceWindowDelete windowGoneEnv cutoffUpdate { trace := [] }
      = ([{ text := "deleting SSM Maintenance Window (mw-0c50858d01EXAMPLE): ",
            cause := ClientError.aws "DoesNotExistException" "Maintenance window does not exist" }],
          { trace := [Call.DeleteMaintenanceWindow { WindowId := some "mw-0c50858d01EXAMPLE" }] }) := by
  decide

/-- Every error of `DeleteMaintenanceWindow`, whatever its code, is returned by
Delete as an error diagnostic. -/
theorem delete_returns_every_error (env : Env) (d : ResourceData) (w : World)
    (err : ClientError)
    (h : env.deleteMaintenanceWindow (w.trace.countP Call.isDeleteMaintenanceWindow) = some err) :
    resourceMaintenanceWindowDelete env d w
      = ([{ text := "deleting SSM Maintenance Window (" ++ d.Id ++ "): ", cause := err }],
          { trace := w.trace ++ [Call.DeleteMaintenanceWindow { WindowId := some d.Id }] }) := by
  simp [resourceMaintenanceWindowDelete, DeleteMaintenanceWindow, h]

/-- C15: Delete issues one `DeleteMaintenanceWindow` call for the window id and
has no not-found case: it returns no diagnostic exactly when the call returns no
error, and every error of the call is returned as the diagnostic "deleting SSM
Maintenance Window (<id>): ..."; two Deletes in a row both succeed when both
calls are accepted. -/
theorem delete_succeeds_iff_call_accepted (env : Env) (d : ResourceData) (w : World) :
    let k := w.trace.countP Call.isDeleteMaintenanceWindow
    let del := Call.DeleteMaintenanceWindow { WindowId := some d.Id }
    (resourceMaintenanceWindowDelete env d w).2 = { trace := w.trace ++ [del] } ∧
    ((resourceMaintenanceWindowDelete env d w).1 = [] ↔ env.deleteMaintenanceWindow k = none) ∧
    (∀ err, env.deleteMaintenanceWindow k = some err →
      (resourceMaintenanceWindowDelete env d w).1
        = [{ text := "deleting SSM Maintenance Window (" ++ d.Id ++ "): ", cause := err }]) ∧
    (env.deleteMaintenanceWindow k = none → env.deleteMaintenanceWindow (k + 1) = none →
      resourceMaintenanceWindowDelete env d w = ([], { trace := w.trace ++ [del] }) ∧
      resourceMaintenanceWindowDelete env d (resourceMaintenanceWindowDelete env d w).2
        = ([], { trace := w.trace ++ [del, del] })) := by
  intro k del
  have hres : resourceMaintenanceWindowDelete env d w
      = ((match env.deleteMaintenanceWindow k with
          | some err =>
            [{ text := "deleting SSM Maintenance Window (" ++ d.Id ++ "): ", cause := err }]
          | none => []), { trace := w.trace ++ [del] }) := by
    simp only [resourceMaintenanceWindowDelete, DeleteMaintenanceWindow, k, del]
    cases env.deleteMaintenanceWindow (w.trace.countP Call.isDeleteMaintenanceWindow) <;> rfl
  refine ⟨by rw [hres], ?_, ?_, ?_⟩
  · rw [hres]
    cases env.deleteMaintenanceWindow k <;> simp
  · intro err herr
    rw [hres, herr]
  · intro h1 h2
    have hfirst : resourceMaintenanceWindowDelete env d w = ([], { trace := w.trace ++ [del] }) := by
      rw [hres, h1]
    refine ⟨hfirst, ?_⟩
    rw [hfirst]
    have hc : (w.trace ++ [del]).countP Call.isDeleteMaintenanceWindow = k + 1 := by
      simp [List.countP_append, Call.isDeleteMaintenanceWindow, k, del]
    simp [resourceMaintenanceWindowDelete, DeleteMaintenanceWindow, hc, h2, del]

theorem delete_succeeds_iff_call_accepted_witness :
    resourceMaintenanceWindowDelete windowAcceptingEnv cutoffUpdate
        (resourceMaintenanceWindowDelete windowAcceptingEnv cutoffUpdate { trace := [] }).2
      = ([], { trace := [] ++
          [Call.DeleteMaintenanceWindow { WindowId := some cutoffUpdate.Id },
            Call.DeleteMaintenanceWindow { WindowId := some cutoffUpdate.Id }] }) :=
  ((delete_succeeds_iff_call_accepted windowAcceptingEnv cutoffUpdate { trace := [] }).2.2.2
    rfl rfl).2

/-! ## Update -/

theorem window_hasChangesExcept_tags_false (d : ResourceData)
    (h : ∀ k, d.HasChange k = true → k = "tags" ∨ k = "tags_all") :
    d.HasChangesExcept ["tags", "tags_all"] = false := by
  have hk : ∀ k, k ≠ "tags" → k ≠ "tags_all" → d.HasChange k = false := by
    intro k h1 h2
    cases hc : d.HasChange k with
    | false => rfl
    | true =>
      rcases h k hc with e | e
      · exact absurd e h1
      · exact absurd e h2
  have a1 := hk "allow_unassociated_targets" (by decide) (by decide)
  have a2 := hk "cutoff" (by decide) (by decide)
  have a3 := hk "description" (by decide) (by decide)
  have a4 := hk "duration" (by decide) (by decide)
  have a5 := hk "enabled" (by decide) (by decide)
  have a6 := hk "end_date" (by decide) (by decide)
  have a7 := hk "name" (by decide) (by decide)
  have a8 := hk "schedule" (by decide) (by decide)
  have a9 := hk "schedule_offset" (by decide) (by decide)
  have a10 := hk "schedule_timezone" (by decide) (by decide)
  have a11 := hk "start_date" (by decide) (by decide)
  simp [ResourceData.HasChangesExcept, windowSchemaKeys, a1, a2, a3, a4, a5, a6, a7, a8, a9, a10, a11]

/-- C19 (as stated, refuted): for an update that changes `cutoff` only, the
single `UpdateMaintenanceWindow` request asks for a replace (`Replace` is true)
and carries the unchanged attributes too. -/
theorem update_of_one_attribute_is_full_replace :
    (resourceMaintenanceWindowUpdate windowAcceptingEnv windowReadNothing cutoffUpdate { trace := [] }).2.2.trace
      = [Call.UpdateMaintenanceWindow
          { AllowUnassociatedTargets := some false, Cutoff := some 2, Description := none,
            Duration := some 3, Enabled := some true, EndDate := none, Name := some "weekly",
            Replace := some true, Schedule := some "cron(0 16 ? * TUE *)",
            ScheduleOffset := none, ScheduleTimezone := none, StartDate := none,
            WindowId := some "mw-0c50858d01EXAMPLE" }] ∧
    cutoffUpdate.HasChange "cutoff" = true ∧
    cutoffUpdate.HasChange "name" = false ∧
    cutoffUpdate.HasChange "schedule" = false ∧
    cutoffUpdate.HasChange "duration" = false ∧
    cutoffUpdate.HasChange "enabled" = false ∧
    cutoffUpdate.HasChange "allow_unassociated_targets" = false := by
  decide

/-- C19 (amended): Update issues a full replace. The request has `Replace` true,
the window id and the desired `allow_unassociated_targets`, `cutoff`,
`duration`, `enabled`, `name` and `schedule` whether or not they changed, and each
of `description`, `end_date`, `schedule_offset`, `schedule_timezone` and
`start_date` that is set to a non-zero value; it is the one call issued when some
attribute other than `tags` and `tags_all` has changed, and no call is issued
when only those have changed. -/
theorem update_is_full_replace (env : Env)
    (read : ResourceData → World → List Diagnostic × ResourceData × World)
    (d : ResourceData) (w : World) :
    updateMaintenanceWindowInput d
        = { AllowUnassociatedTargets := some d.config.allow_unassociated_targets,
            Cutoff := some d.config.cutoff,
            Description := if d.config.description = "" then none else some d.config.description,
            Duration := some d.config.duration,
            Enabled := some d.config.enabled,
            EndDate := if d.config.end_date = "" then none else some d.config.end_date,
            Name := some d.config.name,
            Replace := some true,
            Schedule := some d.config.schedule,
            ScheduleOffset :=
              if d.config.schedule_offset = 0 then none else some d.config.schedule_offset,
            ScheduleTimezone :=
              if d.config.schedule_timezone = "" then none else some d.config.schedule_timezone,
            StartDate := if d.config.start_date = "" then none else some d.config.start_date,
            WindowId := some d.Id } ∧
    (d.HasChangesExcept ["tags", "tags_all"] = true →
      resourceMaintenanceWindowUpdate env read d w
        = (match env.updateMaintenanceWindow (w.trace.countP Call.isUpdateMaintenanceWindow) with
          | some err =>
            ([{ text := "updating SSM Maintenance Window (" ++ d.Id ++ "): ", cause := err }], d,
              { trace := w.trace
                  ++ [Call.UpdateMaintenanceWindow (updateMaintenanceWindowInput d)] })
          | none =>
            read d
              { trace := w.trace
                  ++ [Call.UpdateMaintenanceWindow (updateMaintenanceWindowInput d)] })) ∧
    ((∀ k, d.HasChange k = true → k = "tags" ∨ k = "tags_all") →
      resourceMaintenanceWindowUpdate env read d w = read d w) := by
  refine ⟨rfl, ?_, ?_⟩
  · intro hc
    simp only [resourceMaintenanceWindowUpdate, hc, if_true, UpdateMaintenanceWindow]
  · intro honly
    simp [resourceMaintenanceWindowUpdate, window_hasChangesExcept_tags_false d honly]

/-! ## Create -/

/-- C21: after a successful `CreateMaintenanceWindow`, Create goes straight to
Read when the desired `enabled` is true, and otherwise first issues one
`UpdateMaintenanceWindow` call carrying `Enabled = false` and the new window id
and nothing else; when that call fails Create returns the diagnostic "disabling
SSM Maintenance Window (id): ..." with the identity already set and without
Read. With a Read that issues no `UpdateMaintenanceWindow` call, Create issues
exactly one such call when `enabled` is false and none when it is true. -/
theorem create_enforces_enabled_flag (env : Env) (tagsIn : List (String × String))
    (read : ResourceData → World → List Diagnostic × ResourceData × World)
    (d : ResourceData) (w : World) (output : CreateMaintenanceWindowOutput)
    (hcreate : env.createMaintenanceWindow (w.trace.countP Call.isCreateMaintenanceWindow)
      = Except.ok output)
    (hread : ∀ d0 w0, (read d0 w0).2.2.trace.countP Call.isUpdateMaintenanceWindow
      = w0.trace.countP Call.isUpdateMaintenanceWindow) :
    let id := StringValue output.WindowId
    let d1 : ResourceData := { d with Id := id }
    let w1 : World :=
      { trace := w.trace ++ [Call.CreateMaintenanceWindow (createMaintenanceWindowInput tagsIn d)] }
    let w2 : World :=
      { trace := w1.trace ++ [Call.UpdateMaintenanceWindow (disableMaintenanceWindowInput id)] }
    let out := resourceMaintenanceWindowCreate env tagsIn read d w
    (d.config.enabled = true → out = read d1 w1) ∧
    (d.config.enabled = false →
      (∀ err, env.updateMaintenanceWindow (w.trace.countP Call.isUpdateMaintenanceWindow)
          = some err →
        out = ([{ text := "disabling SSM Maintenance Window (" ++ id ++ "): ", cause := err }],
          d1, w2)) ∧
      (env.updateMaintenanceWindow (w.trace.countP Call.isUpdateMaintenanceWindow) = none →
        out = read d1 w2)) ∧
    out.2.2.trace.countP Call.isUpdateMaintenanceWindow
      = w.trace.countP Call.isUpdateMaintenanceWindow + (if d.config.enabled then 0 else 1) ∧
    disableMaintenanceWindowInput id
      = { AllowUnassociatedTargets := none, Cutoff := none, Description := none,
          Duration := none, Enabled := some false, EndDate := none, Name := none,
          Replace := none, Schedule := none, ScheduleOffset := none, ScheduleTimezone := none,
          StartDate := none, WindowId := some id } := by
  intro id d1 w1 w2 out
  have hc1 : w1.trace.countP Call.isUpdateMaintenanceWindow
      = w.trace.countP Call.isUpdateMaintenanceWindow := by
    simp [w1, List.countP_append, Call.isUpdateMaintenanceWindow]
  have hc2 : w2.trace.countP Call.isUpdateMaintenanceWindow
      = w.trace.countP Call.isUpdateMaintenanceWindow + 1 := by
    simp [w2, w1, List.countP_append, Call.isUpdateMaintenanceWindow]
  have ht : d.config.enabled = true → out = read d1 w1 := by
    intro he
    simp [out, resourceMaintenanceWindowCreate, CreateMaintenanceWindow, hcreate, he, d1, w1, id]
  have hf1 : d.config.enabled = false → ∀ err,
      env.updateMaintenanceWindow (w.trace.countP Call.isUpdateMaintenanceWindow) = some err →
      out = ([{ text := "disabling SSM Maintenance Window (" ++ id ++ "): ", cause := err }],
        d1, w2) := by
    intro he err hu
    simp [out, resourceMaintenanceWindowCreate, CreateMaintenanceWindow, hcreate, he,
      UpdateMaintenanceWindow, List.countP_append, Call.isUpdateMaintenanceWindow, hu, d1, w1,
      w2, id]
  have hf2 : d.config.enabled = false →
      env.updateMaintenanceWindow (w.trace.countP Call.isUpdateMaintenanceWindow) = none →
      out = read d1 w2 := by
    intro he hu
    simp [out, resourceMaintenanceWindowCreate, CreateMaintenanceWindow, hcreate, he,
      UpdateMaintenanceWindow, List.countP_append, Call.isUpdateMaintenanceWindow, hu, d1, w1,
      w2, id]
  refine ⟨ht, fun he => ⟨hf1 he, hf2 he⟩, ?_, rfl⟩
  cases he : d.config.enabled with
  | true =>
    rw [ht he, hread, hc1]
    simp
  | false =>
    cases hu : env.updateMaintenanceWindow (w.trace.countP Call.isUpdateMaintenanceWindow) with
    | none =>
      rw [hf2 he hu, hread, hc2]
      simp
    | some err =>
      rw [hf1 he err hu]
      simp only [hc2]
      simp

theorem create_enforces_enabled_flag_witness :
    resourceMaintenanceWindowCreate windowCreatedEnv [] windowReadNothing disabledWindow
        { trace := [] }
      = ([{ text := "disabling SSM Maintenance Window (mw-0c50858d01EXAMPLE): ",
            cause := ClientError.aws "InternalServerError" "try again" }],
          { disabledWindow with Id := "mw-0c50858d01EXAMPLE" },
          { trace := [Call.CreateMaintenanceWindow (createMaintenanceWindowInput [] disabledWindow),
              Call.UpdateMaintenanceWindow
                (disableMaintenanceWindowInput "mw-0c50858d01EXAMPLE")] }) :=
  (create_enforces_enabled_flag windowCreatedEnv [] windowReadNothing disabledWindow
    { trace := [] } { WindowId := some "mw-0c50858d01EXAMPLE" } rfl (fun _ _ => rfl)).2.1 rfl
    |>.1 (ClientError.aws "InternalServerError" "try again") rfl

end SSM
